import Mathlib

/-!
Shallow embedding of `src/epicast/epicast_emails.py` (class `EpicastEmails`).

Python strings are modelled as `List Char`; the public operations take the
same arguments as the Python static methods (`String` for user id / name,
`Int` for the unbounded Python integers) and return the `(subject, text,
html)` triple.  Fallible `%`-interpolation is modelled with `Option`.
-/

namespace EpicastEmails

/-- The characters stripped by Python's `str.strip()` with no argument. -/
def isPyWs (c : Char) : Bool :=
  c = ' ' || c = '\t' || c = '\n' || c = '\r' || c = '\x0b' || c = '\x0c'

/-- Python `str.lstrip()`. -/
def lstrip (s : List Char) : List Char := s.dropWhile isPyWs

/-- Python `str.rstrip()`. -/
def rstrip (s : List Char) : List Char := (s.reverse.dropWhile isPyWs).reverse

/-- Python `str.strip()`. -/
def strip (s : List Char) : List Char := rstrip (lstrip s)

/-- Prepend a character to the first piece of a split result. -/
def consHead (c : Char) : List (List Char) → List (List Char)
  | [] => [[c]]
  | l :: ls => (c :: l) :: ls

/-- Python `str.split('\n')`: split at every newline, keeping empty pieces. -/
def splitNl : List Char → List (List Char)
  | [] => [[]]
  | c :: rest => if c = '\n' then [] :: splitNl rest else consHead c (splitNl rest)

/-- Python `sep.join(pieces)`. -/
def joinSep (sep : List Char) : List (List Char) → List Char
  | [] => []
  | [l] => l
  | l :: l' :: ls => l ++ sep ++ joinSep sep (l' :: ls)

/-- `EpicastEmails.prepare`: trim surrounding whitespace from every line and
from the whole string, and use network-style CRLF line endings. -/
def prepare (text : List Char) : List Char :=
  strip (joinSep ['\r', '\n'] ((splitNl text).map strip))

/-- `startsWith p s`: `p` is an initial segment of `s`. -/
def startsWith : List Char → List Char → Bool
  | [], _ => true
  | _ :: _, [] => false
  | p :: ps, c :: cs => p = c && startsWith ps cs

/-- `endsWith p s`: `p` is a final segment of `s`. -/
def endsWith (p s : List Char) : Bool := startsWith p.reverse s.reverse

/-- `containsSub p s`: `p` occurs contiguously inside `s`. -/
def containsSub (p : List Char) : List Char → Bool
  | [] => startsWith p []
  | c :: cs => startsWith p (c :: cs) || containsSub p cs

/-- Number of (possibly overlapping) occurrences of `p` inside `s`. -/
def occurrences (p : List Char) : List Char → Nat
  | [] => if startsWith p [] then 1 else 0
  | c :: cs => (if startsWith p (c :: cs) then 1 else 0) + occurrences p cs

/-- A value supplied to Python `%`-interpolation: the module only ever passes
strings (user id and name) and integers (scores and ranks). -/
inductive PyVal where
  | str (s : String)
  | int (n : Int)
deriving DecidableEq

/-- Rendering of a value by a `%s` conversion (Python `str(v)`). -/
def pyRender : PyVal → List Char
  | PyVal.str s => s.data
  | PyVal.int n => (toString n).data

/-- Python `template % values` for a tuple of values: positional, single
pass, `%s` accepts anything, `%d` requires an integer; too few values, left
over values, or an unknown conversion character raise (here: `none`). -/
def pyFormat : List Char → List PyVal → Option (List Char)
  | [], vs => if vs.isEmpty then some [] else none
  | c :: rest, vs =>
    if c = '%' then
      match rest, vs with
      | '%' :: rest', _ => (pyFormat rest' vs).map (fun r => '%' :: r)
      | 's' :: rest', v :: vs' => (pyFormat rest' vs').map (fun r => pyRender v ++ r)
      | 'd' :: rest', PyVal.int n :: vs' =>
          (pyFormat rest' vs').map (fun r => (toString n).data ++ r)
      | _, _ => none
    else
      (pyFormat rest vs).map (fun r => c :: r)

/-- One step of Python `str.replace` with a nonempty pattern, fuelled by the
length of the subject so the recursion is structural. -/
def replaceFrom (p r : List Char) : Nat → List Char → List Char
  | _, [] => []
  | 0, s => s
  | Nat.succ fuel, c :: cs =>
      if startsWith p (c :: cs) && !p.isEmpty then
        r ++ replaceFrom p r fuel (List.drop p.length (c :: cs))
      else
        c :: replaceFrom p r fuel cs

/-- Python `s.replace(p, r)` (nonempty `p`): left-to-right, non-overlapping,
replaces every occurrence. -/
def replaceAll (p r s : List Char) : List Char := replaceFrom p r s.length s

/-! ## The template constants (`EpicastEmails.Template`) -/

/-- `Template.SUBJECT_TAG`. -/
def SUBJECT_TAG : String := "[Crowdcast]"

/-- `Template.UNSUBSCRIBE['text']`. -/
def UNSUBSCRIBE_text : String := "
        ----------

        [This is an automated message. To edit your email preferences or to
        stop receiving these emails, follow the unsubscribe link below.]

        Unsubscribe: https://delphi.cmu.edu/crowdcast/preferences.php?user=%s
      "

/-- `Template.UNSUBSCRIBE['html']`. -/
def UNSUBSCRIBE_html : String := "
        <hr>
        <p style=\"color: #666; font-size: 0.8em;\">
          [This is an automated message. To edit your email preferences or to
          stop receiving these emails, click the unsubscribe link below.]
          <br>
          <a href=\"https://delphi.cmu.edu/crowdcast/preferences.php?user=%s\">
          Unsubscribe</a>
        </p>
      "

/-- `Template.ALERT['subject']`. -/
def ALERT_subject : String := "Crowdcast Needs Your Help"

/-- `Template.ALERT['text']`. -/
def ALERT_text : String := "
        Dear %s,

        [alert text here]

        -The DELPHI Team
      "

/-- `Template.ALERT['html']`. -/
def ALERT_html : String := "
        <p>
          Dear %s,
        </p><p>
          [alert text here]
        </p><p>
          -The DELPHI Team
        </p>
      "

/-- `Template.SCORE['text']`. -/
def SCORE_text : String := "
        Your overall score is: %d (ranked #%d)

        Note: To be listed on the leaderboards, simply enter your initials on
        the preferences page at
        https://delphi.cmu.edu/crowdcast/preferences.php?user=%s

        You can find the leaderboards at
        https://delphi.cmu.edu/crowdcast/scores.php
      "

/-- `Template.SCORE['html']`. -/
def SCORE_html : String := "
        <p>
          Your overall score is: %d (<i>ranked #%d</i>)
          <br>
          Note: To be listed on the <a
          href=\"https://delphi.cmu.edu/crowdcast/scores.php\">leaderboards</a>,
          simply enter your initials on the preferences page <a
          href=\"https://delphi.cmu.edu/crowdcast/preferences.php?user=%s\">
          here</a>.
        </p>
      "

/-- `Template.NOTIFICATION['subject']`. -/
def NOTIFICATION_subject : String := "New Data Available (Deadline: Monday 10 AM)"

/-- `Template.NOTIFICATION['text']`. -/
def NOTIFICATION_text : String := "
        Dear %s,

        The CDC has released another week of influenza-like-illness (ILI)
        surveillance data. A new round of covid19-related forecasting is now
        underway, and we need your forecasts! We are asking you to please
        submit your forecasts by 10:00 AM (ET) this coming Monday. Thank you so
        much for your support and cooperation!

        To login and submit your forecasts, visit
        https://delphi.cmu.edu/crowdcast/
        and enter your User ID: %s

        \x7bSCORE\x7d

        Thank you again for your participation, and good luck on your
        forecasts!

        Happy Forecasting!
        -The DELPHI Team
      "

/-- `Template.NOTIFICATION['html']`. -/
def NOTIFICATION_html : String := "
        <p>
          Dear %s,
        </p><p>
          The CDC has released another week of influenza-like-illness (ILI)
          surveillance data. A new round of covid19-related forecasting is now
          underway, and we need your forecasts! We are asking you to please
          submit your forecasts by <b>10:00 AM (ET)</b> this coming Monday.
          Thank you so much for your support and cooperation!
        </p><p>
          To login and submit your forecasts, click <a
          href=\"https://delphi.cmu.edu/crowdcast/launch.php?user=%s\">here</a>
          or visit https://delphi.cmu.edu/crowdcast/ and enter your User ID: %s
        </p>\x7bSCORE\x7d<p>
          Thank you again for your participation, and good luck on your
          forecasts!
        </p><p>
          Happy Forecasting!
          <br>
          -The DELPHI Team
        </p>
      "

/-- `Template.REMINDER['subject']`. -/
def REMINDER_subject : String := "Forecasts Needed (Deadline: Monday 10AM)"

/-- `Template.REMINDER['text']`. -/
def REMINDER_text : String := "
        Dear %s,

        This is just a friendly reminder that your influenza-like-illness (ILI)
        forecasts are due by 10:00AM (ET) on Monday. Thank you so much for your
        support and cooperation!

        To login and submit your forecasts, visit
        https://delphi.cmu.edu/crowdcast and enter your User ID: %s.

        Happy Forecasting!

        -The DELPHI Team
      "

/-- `Template.REMINDER['html']`. -/
def REMINDER_html : String := "
        <p>
          Dear %s,
        </p><p>
          This is just a friendly reminder that your influenza-like-illness
          (ILI) forecasts are due by <b>10:00AM (ET) on Monday</b>. Thank you
          so much for your support and cooperation!
        </p><p>
          To login and submit your forecasts, click <a
          href=\"https://delphi.cmu.edu/crowdcast/launch.php?user=%s\">here</a>
          or visit https://delphi.cmu.edu/crowdcast/ and enter your User ID: %s
        </p><p>
          Happy Forecasting!
          <br>
          -The DELPHI Team
        </p>
      "

/-- The `\x7bSCORE\x7d` marker replaced by `get_notification`. -/
def scoreMarker : List Char := "\x7bSCORE\x7d".data

/-! ## The operations -/

/-- `EpicastEmails.compose`: build the final subject and the two bodies from
the selected templates and value tuples.  A formatting failure in Python
raises; here it yields `none`. -/
def compose (user_id : String) (subject : String)
    (text_template html_template : List Char)
    (text_values html_values : List PyVal) :
    Option (List Char × List Char × List Char) :=
  let final_subject := SUBJECT_TAG.data ++ ' ' :: subject.data
  let text_template := text_template ++ UNSUBSCRIBE_text.data
  let text_values := text_values ++ [PyVal.str user_id]
  let html_template := html_template ++ UNSUBSCRIBE_html.data
  let html_values := html_values ++ [PyVal.str user_id]
  match pyFormat (prepare text_template) text_values,
        pyFormat (prepare html_template) html_values with
  | some final_text, some final_html => some (final_subject, final_text, final_html)
  | _, _ => none

/-- `EpicastEmails.get_alert`. -/
def get_alert (user_id user_name : String) :
    Option (List Char × List Char × List Char) :=
  compose user_id ALERT_subject ALERT_text.data ALERT_html.data
    [PyVal.str user_name] [PyVal.str user_name]

/-- `EpicastEmails.get_notification`.  `last_rank` is accepted (as in the
source) but never used. -/
def get_notification (user_id user_name : String)
    (last_score last_rank total_score total_rank : Int) :
    Option (List Char × List Char × List Char) :=
  let text := NOTIFICATION_text.data
  let html := NOTIFICATION_html.data
  let text_values := [PyVal.str user_name, PyVal.str user_id]
  let html_values := [PyVal.str user_name, PyVal.str user_id, PyVal.str user_id]
  if last_score > 0 then
    let text := replaceAll scoreMarker SCORE_text.data text
    let html := replaceAll scoreMarker SCORE_html.data html
    let score_values := [PyVal.int total_score, PyVal.int total_rank, PyVal.str user_id]
    compose user_id NOTIFICATION_subject text html
      (text_values ++ score_values) (html_values ++ score_values)
  else
    let text := replaceAll scoreMarker [] text
    let html := replaceAll scoreMarker [] html
    compose user_id NOTIFICATION_subject text html text_values html_values

/-- `EpicastEmails.get_reminder`. -/
def get_reminder (user_id user_name : String) :
    Option (List Char × List Char × List Char) :=
  compose user_id REMINDER_subject REMINDER_text.data REMINDER_html.data
    [PyVal.str user_name, PyVal.str user_id]
    [PyVal.str user_name, PyVal.str user_id, PyVal.str user_id]


/-! ## Segment view of a template

A prepared template is a concrete alternation of literal chunks and `%s` /
`%d` placeholders; `pyFormat` then reduces to a simple rendering function on
this segment list.  This is only a proof device: the concrete segment lists
below are proved equal to the `prepare` of the corresponding templates. -/

/-- One piece of a template: a literal chunk or a placeholder. -/
inductive Seg where
  | lit (l : List Char)
  | phS
  | phD
deriving DecidableEq

/-- Rebuild the template text from its segments. -/
def assemble : List Seg → List Char
  | [] => []
  | Seg.lit l :: rest => l ++ assemble rest
  | Seg.phS :: rest => '%' :: 's' :: assemble rest
  | Seg.phD :: rest => '%' :: 'd' :: assemble rest

/-- Render a segment list against a value list, mirroring `pyFormat`. -/
def renderOpt : List Seg → List PyVal → Option (List Char)
  | [], [] => some []
  | [], _ :: _ => none
  | Seg.lit l :: rest, vs => (renderOpt rest vs).map (fun r => l ++ r)
  | Seg.phS :: rest, v :: vs => (renderOpt rest vs).map (fun r => pyRender v ++ r)
  | Seg.phD :: rest, PyVal.int n :: vs =>
      (renderOpt rest vs).map (fun r => (toString n).data ++ r)
  | _ :: _, _ => none

/-- A literal chunk must not contain `%` for the segment view to be exact. -/
def segOk : Seg → Bool
  | Seg.lit l => !l.contains '%'
  | _ => true

def taS0 : List Char := "Dear ".data
def taS2 : List Char := ",\x0d\n\x0d\n[alert text here]\x0d\n\x0d\n-The DELPHI Team\x0d\n\x0d\n----------\x0d\n\x0d\n[This is an automated message. To edit your email preferences or to\x0d\nstop receiving these emails, follow the unsubscribe link below.]\x0d\n\x0d\nUnsubscribe: https://delphi.cmu.edu/crowdcast/preferences.php?user=".data

def taSegs : List Seg :=
  [Seg.lit taS0,
   Seg.phS,
   Seg.lit taS2,
   Seg.phS]

def haS0 : List Char := "<p>\x0d\nDear ".data
def haS2 : List Char := ",\x0d\n</p><p>\x0d\n[alert text here]\x0d\n</p><p>\x0d\n-The DELPHI Team\x0d\n</p>\x0d\n\x0d\n<hr>\x0d\n<p style=\"color: #666; font-size: 0.8em;\">\x0d\n[This is an automated message. To edit your email preferences or to\x0d\nstop receiving these emails, click the unsubscribe link below.]\x0d\n<br>\x0d\n<a href=\"https://delphi.cmu.edu/crowdcast/preferences.php?user=".data
def haS4 : List Char := "\">\x0d\nUnsubscribe</a>\x0d\n</p>".data

def haSegs : List Seg :=
  [Seg.lit haS0,
   Seg.phS,
   Seg.lit haS2,
   Seg.phS,
   Seg.lit haS4]

def trS0 : List Char := "Dear ".data
def trS2 : List Char := ",\x0d\n\x0d\nThis is just a friendly reminder that your influenza-like-illness (ILI)\x0d\nforecasts are due by 10:00AM (ET) on Monday. Thank you so much for your\x0d\nsupport and cooperation!\x0d\n\x0d\nTo login and submit your forecasts, visit\x0d\nhttps://delphi.cmu.edu/crowdcast and enter your User ID: ".data
def trS4 : List Char := ".\x0d\n\x0d\nHappy Forecasting!\x0d\n\x0d\n-The DELPHI Team\x0d\n\x0d\n----------\x0d\n\x0d\n[This is an automated message. To edit your email preferences or to\x0d\nstop receiving these emails, follow the unsubscribe link below.]\x0d\n\x0d\nUnsubscribe: https://delphi.cmu.edu/crowdcast/preferences.php?user=".data

def trSegs : List Seg :=
  [Seg.lit trS0,
   Seg.phS,
   Seg.lit trS2,
   Seg.phS,
   Seg.lit trS4,
   Seg.phS]

def hrS0 : List Char := "<p>\x0d\nDear ".data
def hrS2 : List Char := ",\x0d\n</p><p>\x0d\nThis is just a friendly reminder that your influenza-like-illness\x0d\n(ILI) forecasts are due by <b>10:00AM (ET) on Monday</b>. Thank you\x0d\nso much for your support and cooperation!\x0d\n</p><p>\x0d\nTo login and submit your forecasts, click <a\x0d\nhref=\"https://delphi.cmu.edu/crowdcast/launch.php?user=".data
def hrS4 : List Char := "\">here</a>\x0d\nor visit https://delphi.cmu.edu/crowdcast/ and enter your User ID: ".data
def hrS6 : List Char := "\x0d\n</p><p>\x0d\nHappy Forecasting!\x0d\n<br>\x0d\n-The DELPHI Team\x0d\n</p>\x0d\n\x0d\n<hr>\x0d\n<p style=\"color: #666; font-size: 0.8em;\">\x0d\n[This is an automated message. To edit your email preferences or to\x0d\nstop receiving these emails, click the unsubscribe link below.]\x0d\n<br>\x0d\n<a href=\"https://delphi.cmu.edu/crowdcast/preferences.php?user=".data
def hrS8 : List Char := "\">\x0d\nUnsubscribe</a>\x0d\n</p>".data

def hrSegs : List Seg :=
  [Seg.lit hrS0,
   Seg.phS,
   Seg.lit hrS2,
   Seg.phS,
   Seg.lit hrS4,
   Seg.phS,
   Seg.lit hrS6,
   Seg.phS,
   Seg.lit hrS8]

def tn0S0 : List Char := "Dear ".data
def tn0S2 : List Char := ",\x0d\n\x0d\nThe CDC has released another week of influenza-like-illness (ILI)\x0d\nsurveillance data. A new round of covid19-related forecasting is now\x0d\nunderway, and we need your forecasts! We are asking you to please\x0d\nsubmit your forecasts by 10:00 AM (ET) this coming Monday. Thank you so\x0d\nmuch for your support and cooperation!\x0d\n\x0d\nTo login and submit your forecasts, visit\x0d\nhttps://delphi.cmu.edu/crowdcast/\x0d\nand enter your User ID: ".data
def tn0S4 : List Char := "\x0d\n\x0d\n\x0d\n\x0d\nThank you again for your participation, and good luck on your\x0d\nforecasts!\x0d\n\x0d\nHappy Forecasting!\x0d\n-The DELPHI Team\x0d\n\x0d\n----------\x0d\n\x0d\n[This is an automated message. To edit your email preferences or to\x0d\nstop receiving these emails, follow the unsubscribe link below.]\x0d\n\x0d\nUnsubscribe: https://delphi.cmu.edu/crowdcast/preferences.php?user=".data

def tn0Segs : List Seg :=
  [Seg.lit tn0S0,
   Seg.phS,
   Seg.lit tn0S2,
   Seg.phS,
   Seg.lit tn0S4,
   Seg.phS]

def hn0S0 : List Char := "<p>\x0d\nDear ".data
def hn0S2 : List Char := ",\x0d\n</p><p>\x0d\nThe CDC has released another week of influenza-like-illness (ILI)\x0d\nsurveillance data. A new round of covid19-related forecasting is now\x0d\nunderway, and we need your forecasts! We are asking you to please\x0d\nsubmit your forecasts by <b>10:00 AM (ET)</b> this coming Monday.\x0d\nThank you so much for your support and cooperation!\x0d\n</p><p>\x0d\nTo login and submit your forecasts, click <a\x0d\nhref=\"https://delphi.cmu.edu/crowdcast/launch.php?user=".data
def hn0S4 : List Char := "\">here</a>\x0d\nor visit https://delphi.cmu.edu/crowdcast/ and enter your User ID: ".data
def hn0S6 : List Char := "\x0d\n</p><p>\x0d\nThank you again for your participation, and good luck on your\x0d\nforecasts!\x0d\n</p><p>\x0d\nHappy Forecasting!\x0d\n<br>\x0d\n-The DELPHI Team\x0d\n</p>\x0d\n\x0d\n<hr>\x0d\n<p style=\"color: #666; font-size: 0.8em;\">\x0d\n[This is an automated message. To edit your email preferences or to\x0d\nstop receiving these emails, click the unsubscribe link below.]\x0d\n<br>\x0d\n<a href=\"https://delphi.cmu.edu/crowdcast/preferences.php?user=".data
def hn0S8 : List Char := "\">\x0d\nUnsubscribe</a>\x0d\n</p>".data

def hn0Segs : List Seg :=
  [Seg.lit hn0S0,
   Seg.phS,
   Seg.lit hn0S2,
   Seg.phS,
   Seg.lit hn0S4,
   Seg.phS,
   Seg.lit hn0S6,
   Seg.phS,
   Seg.lit hn0S8]

def tn1S0 : List Char := "Dear ".data
def tn1S2 : List Char := ",\x0d\n\x0d\nThe CDC has released another week of influenza-like-illness (ILI)\x0d\nsurveillance data. A new round of covid19-related forecasting is now\x0d\nunderway, and we need your forecasts! We are asking you to please\x0d\nsubmit your forecasts by 10:00 AM (ET) this coming Monday. Thank you so\x0d\nmuch for your support and cooperation!\x0d\n\x0d\nTo login and submit your forecasts, visit\x0d\nhttps://delphi.cmu.edu/crowdcast/\x0d\nand enter your User ID: ".data
def tn1S4 : List Char := "\x0d\n\x0d\n\x0d\nYour overall score is: ".data
def tn1S6 : List Char := " (ranked #".data
def tn1S8 : List Char := ")\x0d\n\x0d\nNote: To be listed on the leaderboards, simply enter your initials on\x0d\nthe preferences page at\x0d\nhttps://delphi.cmu.edu/crowdcast/preferences.php?user=".data
def tn1S10 : List Char := "\x0d\n\x0d\nYou can find the leaderboards at\x0d\nhttps://delphi.cmu.edu/crowdcast/scores.php\x0d\n\x0d\n\x0d\nThank you again for your participation, and good luck on your\x0d\nforecasts!\x0d\n\x0d\nHappy Forecasting!\x0d\n-The DELPHI Team\x0d\n\x0d\n----------\x0d\n\x0d\n[This is an automated message. To edit your email preferences or to\x0d\nstop receiving these emails, follow the unsubscribe link below.]\x0d\n\x0d\nUnsubscribe: https://delphi.cmu.edu/crowdcast/preferences.php?user=".data

def tn1Segs : List Seg :=
  [Seg.lit tn1S0,
   Seg.phS,
   Seg.lit tn1S2,
   Seg.phS,
   Seg.lit tn1S4,
   Seg.phD,
   Seg.lit tn1S6,
   Seg.phD,
   Seg.lit tn1S8,
   Seg.phS,
   Seg.lit tn1S10,
   Seg.phS]

def hn1S0 : List Char := "<p>\x0d\nDear ".data
def hn1S2 : List Char := ",\x0d\n</p><p>\x0d\nThe CDC has released another week of influenza-like-illness (ILI)\x0d\nsurveillance data. A new round of covid19-related forecasting is now\x0d\nunderway, and we need your forecasts! We are asking you to please\x0d\nsubmit your forecasts by <b>10:00 AM (ET)</b> this coming Monday.\x0d\nThank you so much for your support and cooperation!\x0d\n</p><p>\x0d\nTo login and submit your forecasts, click <a\x0d\nhref=\"https://delphi.cmu.edu/crowdcast/launch.php?user=".data
def hn1S4 : List Char := "\">here</a>\x0d\nor visit https://delphi.cmu.edu/crowdcast/ and enter your User ID: ".data
def hn1S6 : List Char := "\x0d\n</p>\x0d\n<p>\x0d\nYour overall score is: ".data
def hn1S8 : List Char := " (<i>ranked #".data
def hn1S10 : List Char := "</i>)\x0d\n<br>\x0d\nNote: To be listed on the <a\x0d\nhref=\"https://delphi.cmu.edu/crowdcast/scores.php\">leaderboards</a>,\x0d\nsimply enter your initials on the preferences page <a\x0d\nhref=\"https://delphi.cmu.edu/crowdcast/preferences.php?user=".data
def hn1S12 : List Char := "\">\x0d\nhere</a>.\x0d\n</p>\x0d\n<p>\x0d\nThank you again for your participation, and good luck on your\x0d\nforecasts!\x0d\n</p><p>\x0d\nHappy Forecasting!\x0d\n<br>\x0d\n-The DELPHI Team\x0d\n</p>\x0d\n\x0d\n<hr>\x0d\n<p style=\"color: #666; font-size: 0.8em;\">\x0d\n[This is an automated message. To edit your email preferences or to\x0d\nstop receiving these emails, click the unsubscribe link below.]\x0d\n<br>\x0d\n<a href=\"https://delphi.cmu.edu/crowdcast/preferences.php?user=".data
def hn1S14 : List Char := "\">\x0d\nUnsubscribe</a>\x0d\n</p>".data

def hn1Segs : List Seg :=
  [Seg.lit hn1S0,
   Seg.phS,
   Seg.lit hn1S2,
   Seg.phS,
   Seg.lit hn1S4,
   Seg.phS,
   Seg.lit hn1S6,
   Seg.phD,
   Seg.lit hn1S8,
   Seg.phD,
   Seg.lit hn1S10,
   Seg.phS,
   Seg.lit hn1S12,
   Seg.phS,
   Seg.lit hn1S14]

def utS0 : List Char := "----------\x0d\n\x0d\n[This is an automated message. To edit your email preferences or to\x0d\nstop receiving these emails, follow the unsubscribe link below.]\x0d\n\x0d\nUnsubscribe: https://delphi.cmu.edu/crowdcast/preferences.php?user=".data

def utSegs : List Seg :=
  [Seg.lit utS0,
   Seg.phS]

def uhS0 : List Char := "<hr>\x0d\n<p style=\"color: #666; font-size: 0.8em;\">\x0d\n[This is an automated message. To edit your email preferences or to\x0d\nstop receiving these emails, click the unsubscribe link below.]\x0d\n<br>\x0d\n<a href=\"https://delphi.cmu.edu/crowdcast/preferences.php?user=".data
def uhS2 : List Char := "\">\x0d\nUnsubscribe</a>\x0d\n</p>".data

def uhSegs : List Seg :=
  [Seg.lit uhS0,
   Seg.phS,
   Seg.lit uhS2]



/-! Literal results of the two `replaceAll` calls of `get_notification`,
proved equal to them below; they keep each evaluation step small. -/

def NOTIFICATION_text_scoredP0 : List Char := "\n        Dear %s,\n\n        The CDC has released another week of influenza-like-illness (ILI)\n        surveillance data. A new round of covid19-related forecasting is now\n        underway, and we need your forecasts! We are asking you to please\n        submit your forecasts by 10:00 AM (ET) this coming Monday. Thank you so\n   ".data
def NOTIFICATION_text_scoredP1 : List Char := "     much for your support and cooperation!\n\n        To login and submit your forecasts, visit\n        https://delphi.cmu.edu/crowdcast/\n        and enter your User ID: %s\n\n        \n        Your overall score is: %d (ranked #%d)\n\n        Note: To be listed on the leaderboards, simply enter your initials on\n        the preferen".data
def NOTIFICATION_text_scoredP2 : List Char := "ces page at\n        https://delphi.cmu.edu/crowdcast/preferences.php?user=%s\n\n        You can find the leaderboards at\n        https://delphi.cmu.edu/crowdcast/scores.php\n      \n\n        Thank you again for your participation, and good luck on your\n        forecasts!\n\n        Happy Forecasting!\n        -The DELPHI Team\n      ".data

def NOTIFICATION_text_scored : List Char :=
  NOTIFICATION_text_scoredP0 ++ NOTIFICATION_text_scoredP1 ++ NOTIFICATION_text_scoredP2
def NOTIFICATION_html_scoredP0 : List Char := "\n        <p>\n          Dear %s,\n        </p><p>\n          The CDC has released another week of influenza-like-illness (ILI)\n          surveillance data. A new round of covid19-related forecasting is now\n          underway, and we need your forecasts! We are asking you to please\n          submit your forecasts by <b>10:00 AM (ET)</b> this coming Monday.\n          Thank you so much for your support and cooperatio".data
def NOTIFICATION_html_scoredP1 : List Char := "n!\n        </p><p>\n          To login and submit your forecasts, click <a\n          href=\"https://delphi.cmu.edu/crowdcast/launch.php?user=%s\">here</a>\n          or visit https://delphi.cmu.edu/crowdcast/ and enter your User ID: %s\n        </p>\n        <p>\n          Your overall score is: %d (<i>ranked #%d</i>)\n          <br>\n          Note: To be listed on the <a\n          href=\"https://delphi.cmu.edu/crowdca".data
def NOTIFICATION_html_scoredP2 : List Char := "st/scores.php\">leaderboards</a>,\n          simply enter your initials on the preferences page <a\n          href=\"https://delphi.cmu.edu/crowdcast/preferences.php?user=%s\">\n          here</a>.\n        </p>\n      <p>\n          Thank you again for your participation, and good luck on your\n          forecasts!\n        </p><p>\n          Happy Forecasting!\n          <br>\n          -The DELPHI Team\n        </p>\n      ".data

def NOTIFICATION_html_scored : List Char :=
  NOTIFICATION_html_scoredP0 ++ NOTIFICATION_html_scoredP1 ++ NOTIFICATION_html_scoredP2
def NOTIFICATION_text_unscoredP0 : List Char := "\n        Dear %s,\n\n        The CDC has released another week of influenza-like-illness (ILI)\n        surveillance data. A new round of covid19-related forecasting is now\n        underway, and we need your forecasts! We are asking you to please\n        submit your forecasts by 10:00 AM (ET) this coming Monday. Thank you so\n     ".data
def NOTIFICATION_text_unscoredP1 : List Char := "   much for your support and cooperation!\n\n        To login and submit your forecasts, visit\n        https://delphi.cmu.edu/crowdcast/\n        and enter your User ID: %s\n\n        \n\n        Thank you again for your participation, and good luck on your\n        forecasts!\n\n        Happy Forecasting!\n        -The DELPHI Team\n      ".data

def NOTIFICATION_text_unscored : List Char :=
  NOTIFICATION_text_unscoredP0 ++ NOTIFICATION_text_unscoredP1
def NOTIFICATION_html_unscoredP0 : List Char := "\n        <p>\n          Dear %s,\n        </p><p>\n          The CDC has released another week of influenza-like-illness (ILI)\n          surveillance data. A new round of covid19-related forecasting is now\n          underway, and we need your forecasts! We are asking you to please\n          submit your forecasts by <b>10:00 AM (ET)</b> this coming Monday.\n          Thank you so much for your support and cooperation!\n        </p><".data
def NOTIFICATION_html_unscoredP1 : List Char := "p>\n          To login and submit your forecasts, click <a\n          href=\"https://delphi.cmu.edu/crowdcast/launch.php?user=%s\">here</a>\n          or visit https://delphi.cmu.edu/crowdcast/ and enter your User ID: %s\n        </p><p>\n          Thank you again for your participation, and good luck on your\n          forecasts!\n        </p><p>\n          Happy Forecasting!\n          <br>\n          -The DELPHI Team\n        </p>\n      ".data

def NOTIFICATION_html_unscored : List Char :=
  NOTIFICATION_html_unscoredP0 ++ NOTIFICATION_html_unscoredP1

/-! ## Predicates and proof-device definitions used by the claims -/

/-- `prependFirst u ls` glues `u` onto the first piece of `ls`. -/
def prependFirst (u : List Char) : List (List Char) → List (List Char)
  | [] => [u]
  | l :: ls => (u ++ l) :: ls

/-- Drop leading empty lines. -/
def dropEmpty : List (List Char) → List (List Char) :=
  List.dropWhile (fun l => l.isEmpty)

/-- Drop trailing empty lines. -/
def dropEmptyEnd (ls : List (List Char)) : List (List Char) :=
  (dropEmpty ls.reverse).reverse

/-- Drop empty lines at both ends. -/
def trimEmpty (ls : List (List Char)) : List (List Char) :=
  dropEmptyEnd (dropEmpty ls)

/-- The whitespace characters other than CR and LF. -/
def spaceLike (c : Char) : Bool :=
  c = ' ' || c = '\t' || c = '\x0b' || c = '\x0c'

/-- Local well-formedness of two adjacent characters in a CRLF-normalized
string: CR only before LF, LF only after CR, no space-class character right
after a line break or right before one. -/
def okPair (a b : Char) : Bool :=
  (!(a = '\r') || b = '\n') && (!(b = '\n') || a = '\r') &&
  (!(a = '\n') || !spaceLike b) && (!(b = '\r') || !spaceLike a)

/-- All adjacent pairs of the string are well formed. -/
def pairsOk : List Char → Bool
  | a :: b :: rest => okPair a b && pairsOk (b :: rest)
  | _ => true

/-- Abstract description of the character emitted just before the current
template position: nothing yet, a known literal character, or the last
character of a substituted (nonempty, stripped, CR/LF-free) value. -/
inductive PrevC where
  | start
  | lit (c : Char)
  | val
deriving DecidableEq

/-- May character `c` follow the state `p`? -/
def nextOk : PrevC → Char → Bool
  | PrevC.start, c => !isPyWs c
  | PrevC.lit p, c => okPair p c
  | PrevC.val, c => !(c = '\n')

/-- May a substituted value follow the state `p`? -/
def phOk : PrevC → Bool
  | PrevC.start => false
  | PrevC.lit p => !(p = '\r')
  | PrevC.val => true

/-- May the string end in state `p`? -/
def endOk : PrevC → Bool
  | PrevC.lit p => !isPyWs p
  | _ => true

/-- Scan a segment list, checking that every rendering with nonempty clean
values yields a CRLF-normalized string. -/
def tmplOkSegs : PrevC → List Seg → Bool
  | p, [] => endOk p
  | p, Seg.lit [] :: rest => tmplOkSegs p rest
  | p, Seg.lit (c :: l) :: rest =>
      nextOk p c && pairsOk (c :: l) &&
      tmplOkSegs (PrevC.lit ((c :: l).getLastD 'x')) rest
  | p, Seg.phS :: rest => phOk p && tmplOkSegs PrevC.val rest
  | p, Seg.phD :: rest => phOk p && tmplOkSegs PrevC.val rest

/-- Split at every CRLF pair. -/
def splitCRLF : List Char → List (List Char)
  | [] => [[]]
  | [c] => [[c]]
  | c :: c2 :: rest =>
      if c = '\r' ∧ c2 = '\n' then [] :: splitCRLF rest
      else consHead c (splitCRLF (c2 :: rest))

/-- The normalization property promised for composed bodies: every CRLF-line
is free of leading/trailing whitespace and of stray CR/LF characters, and
the whole string is stripped. -/
def lineNormalized (s : List Char) : Prop :=
  (∀ l ∈ splitCRLF s, strip l = l ∧ '\n' ∉ l ∧ '\r' ∉ l) ∧ strip s = s

/-- A string value that keeps bodies normalized: no surrounding whitespace
and no embedded line breaks. -/
def cleanStr (s : List Char) : Prop :=
  strip s = s ∧ '\n' ∉ s ∧ '\r' ∉ s

/-- Occurrences of `p` starting inside `a` when the text continues with `b`. -/
def occurrencesB (p b : List Char) : List Char → Nat
  | [] => 0
  | c :: cs => (if startsWith p (c :: cs ++ b) then 1 else 0) + occurrencesB p b cs

/-- Alternation of values and literal chunks, used to reason about substring
occurrences in rendered bodies. -/
def altChain (x0 : List Char) : List (List Char × List Char) → List Char
  | [] => x0
  | (u, x) :: rest => x0 ++ u ++ altChain x rest

/-- No nonempty proper leading part of `p` is a final segment of `x`. -/
def noPreEnd (p x : List Char) : Bool :=
  (List.range (p.length - 1)).all (fun i => !endsWith (p.take (i + 1)) x)

/-- No nonempty proper final part of `p` is an initial segment of `x`. -/
def noSufStart (p x : List Char) : Bool :=
  (List.range (p.length - 1)).all (fun i => !startsWith (p.drop (i + 1)) x)

/-- Conditions on an alternation under which `p` cannot occur anywhere. -/
def chainOk (p : List Char) : List (List Char × List Char) → Prop
  | [] => True
  | (u, x) :: rest =>
      containsSub p u = false ∧ containsSub p x = false ∧
      noSufStart p x = true ∧ noPreEnd p x = true ∧
      (rest = [] ∨ p.length ≤ x.length) ∧ chainOk p rest

/-- The fixed phrase of the score section. -/
def scorePhrase : List Char := "Your overall score is".data

/-- The unsubscribe fragment of the text body, rendered for a user. -/
def unsubTextRendered (uid : String) : Option (List Char) :=
  pyFormat (prepare UNSUBSCRIBE_text.data) [PyVal.str uid]

/-- The unsubscribe fragment of the html body, rendered for a user. -/
def unsubHtmlRendered (uid : String) : Option (List Char) :=
  pyFormat (prepare UNSUBSCRIBE_html.data) [PyVal.str uid]

def taL : List (List Char) :=
  ["".data,
   "        Dear %s,".data,
   "".data,
   "        [alert text here]".data,
   "".data,
   "        -The DELPHI Team".data,
   "      ".data,
   "        ----------".data,
   "".data,
   "        [This is an automated message. To edit your email preferences or to".data,
   "        stop receiving these emails, follow the unsubscribe link below.]".data,
   "".data,
   "        Unsubscribe: https://delphi.cmu.edu/crowdcast/preferences.php?user=%s".data,
   "      ".data]

def taM : List (List Char) :=
  ["Dear %s,".data,
   "".data,
   "[alert text here]".data,
   "".data,
   "-The DELPHI Team".data,
   "".data,
   "----------".data,
   "".data,
   "[This is an automated message. To edit your email preferences or to".data,
   "stop receiving these emails, follow the unsubscribe link below.]".data,
   "".data,
   "Unsubscribe: https://delphi.cmu.edu/crowdcast/preferences.php?user=%s".data]

def haL : List (List Char) :=
  ["".data,
   "        <p>".data,
   "          Dear %s,".data,
   "        </p><p>".data,
   "          [alert text here]".data,
   "        </p><p>".data,
   "          -The DELPHI Team".data,
   "        </p>".data,
   "      ".data,
   "        <hr>".data,
   "        <p style=\"color: #666; font-size: 0.8em;\">".data,
   "          [This is an automated message. To edit your email preferences or to".data,
   "          stop receiving these emails, click the unsubscribe link below.]".data,
   "          <br>".data,
   "          <a href=\"https://delphi.cmu.edu/crowdcast/preferences.php?user=%s\">".data,
   "          Unsubscribe</a>".data,
   "        </p>".data,
   "      ".data]

def haM : List (List Char) :=
  ["<p>".data,
   "Dear %s,".data,
   "</p><p>".data,
   "[alert text here]".data,
   "</p><p>".data,
   "-The DELPHI Team".data,
   "</p>".data,
   "".data,
   "<hr>".data,
   "<p style=\"color: #666; font-size: 0.8em;\">".data,
   "[This is an automated message. To edit your email preferences or to".data,
   "stop receiving these emails, click the unsubscribe link below.]".data,
   "<br>".data,
   "<a href=\"https://delphi.cmu.edu/crowdcast/preferences.php?user=%s\">".data,
   "Unsubscribe</a>".data,
   "</p>".data]

def trL : List (List Char) :=
  ["".data,
   "        Dear %s,".data,
   "".data,
   "        This is just a friendly reminder that your influenza-like-illness (ILI)".data,
   "        forecasts are due by 10:00AM (ET) on Monday. Thank you so much for your".data,
   "        support and cooperation!".data,
   "".data,
   "        To login and submit your forecasts, visit".data,
   "        https://delphi.cmu.edu/crowdcast and enter your User ID: %s.".data,
   "".data,
   "        Happy Forecasting!".data,
   "".data,
   "        -The DELPHI Team".data,
   "      ".data,
   "        ----------".data,
   "".data,
   "        [This is an automated message. To edit your email preferences or to".data,
   "        stop receiving these emails, follow the unsubscribe link below.]".data,
   "".data,
   "        Unsubscribe: https://delphi.cmu.edu/crowdcast/preferences.php?user=%s".data,
   "      ".data]

def trM : List (List Char) :=
  ["Dear %s,".data,
   "".data,
   "This is just a friendly reminder that your influenza-like-illness (ILI)".data,
   "forecasts are due by 10:00AM (ET) on Monday. Thank you so much for your".data,
   "support and cooperation!".data,
   "".data,
   "To login and submit your forecasts, visit".data,
   "https://delphi.cmu.edu/crowdcast and enter your User ID: %s.".data,
   "".data,
   "Happy Forecasting!".data,
   "".data,
   "-The DELPHI Team".data,
   "".data,
   "----------".data,
   "".data,
   "[This is an automated message. To edit your email preferences or to".data,
   "stop receiving these emails, follow the unsubscribe link below.]".data,
   "".data,
   "Unsubscribe: https://delphi.cmu.edu/crowdcast/preferences.php?user=%s".data]

def hrL : List (List Char) :=
  ["".data,
   "        <p>".data,
   "          Dear %s,".data,
   "        </p><p>".data,
   "          This is just a friendly reminder that your influenza-like-illness".data,
   "          (ILI) forecasts are due by <b>10:00AM (ET) on Monday</b>. Thank you".data,
   "          so much for your support and cooperation!".data,
   "        </p><p>".data,
   "          To login and submit your forecasts, click <a".data,
   "          href=\"https://delphi.cmu.edu/crowdcast/launch.php?user=%s\">here</a>".data,
   "          or visit https://delphi.cmu.edu/crowdcast/ and enter your User ID: %s".data,
   "        </p><p>".data,
   "          Happy Forecasting!".data,
   "          <br>".data,
   "          -The DELPHI Team".data,
   "        </p>".data,
   "      ".data,
   "        <hr>".data,
   "        <p style=\"color: #666; font-size: 0.8em;\">".data,
   "          [This is an automated message. To edit your email preferences or to".data,
   "          stop receiving these emails, click the unsubscribe link below.]".data,
   "          <br>".data,
   "          <a href=\"https://delphi.cmu.edu/crowdcast/preferences.php?user=%s\">".data,
   "          Unsubscribe</a>".data,
   "        </p>".data,
   "      ".data]

def hrM : List (List Char) :=
  ["<p>".data,
   "Dear %s,".data,
   "</p><p>".data,
   "This is just a friendly reminder that your influenza-like-illness".data,
   "(ILI) forecasts are due by <b>10:00AM (ET) on Monday</b>. Thank you".data,
   "so much for your support and cooperation!".data,
   "</p><p>".data,
   "To login and submit your forecasts, click <a".data,
   "href=\"https://delphi.cmu.edu/crowdcast/launch.php?user=%s\">here</a>".data,
   "or visit https://delphi.cmu.edu/crowdcast/ and enter your User ID: %s".data,
   "</p><p>".data,
   "Happy Forecasting!".data,
   "<br>".data,
   "-The DELPHI Team".data,
   "</p>".data,
   "".data,
   "<hr>".data,
   "<p style=\"color: #666; font-size: 0.8em;\">".data,
   "[This is an automated message. To edit your email preferences or to".data,
   "stop receiving these emails, click the unsubscribe link below.]".data,
   "<br>".data,
   "<a href=\"https://delphi.cmu.edu/crowdcast/preferences.php?user=%s\">".data,
   "Unsubscribe</a>".data,
   "</p>".data]

def tn0L : List (List Char) :=
  ["".data,
   "        Dear %s,".data,
   "".data,
   "        The CDC has released another week of influenza-like-illness (ILI)".data,
   "        surveillance data. A new round of covid19-related forecasting is now".data,
   "        underway, and we need your forecasts! We are asking you to please".data,
   "        submit your forecasts by 10:00 AM (ET) this coming Monday. Thank you so".data,
   "        much for your support and cooperation!".data,
   "".data,
   "        To login and submit your forecasts, visit".data,
   "        https://delphi.cmu.edu/crowdcast/".data,
   "        and enter your User ID: %s".data,
   "".data,
   "        ".data,
   "".data,
   "        Thank you again for your participation, and good luck on your".data,
   "        forecasts!".data,
   "".data,
   "        Happy Forecasting!".data,
   "        -The DELPHI Team".data,
   "      ".data,
   "        ----------".data,
   "".data,
   "        [This is an automated message. To edit your email preferences or to".data,
   "        stop receiving these emails, follow the unsubscribe link below.]".data,
   "".data,
   "        Unsubscribe: https://delphi.cmu.edu/crowdcast/preferences.php?user=%s".data,
   "      ".data]

def tn0M : List (List Char) :=
  ["Dear %s,".data,
   "".data,
   "The CDC has released another week of influenza-like-illness (ILI)".data,
   "surveillance data. A new round of covid19-related forecasting is now".data,
   "underway, and we need your forecasts! We are asking you to please".data,
   "submit your forecasts by 10:00 AM (ET) this coming Monday. Thank you so".data,
   "much for your support and cooperation!".data,
   "".data,
   "To login and submit your forecasts, visit".data,
   "https://delphi.cmu.edu/crowdcast/".data,
   "and enter your User ID: %s".data,
   "".data,
   "".data,
   "".data,
   "Thank you again for your participation, and good luck on your".data,
   "forecasts!".data,
   "".data,
   "Happy Forecasting!".data,
   "-The DELPHI Team".data,
   "".data,
   "----------".data,
   "".data,
   "[This is an automated message. To edit your email preferences or to".data,
   "stop receiving these emails, follow the unsubscribe link below.]".data,
   "".data,
   "Unsubscribe: https://delphi.cmu.edu/crowdcast/preferences.php?user=%s".data]

def hn0L : List (List Char) :=
  ["".data,
   "        <p>".data,
   "          Dear %s,".data,
   "        </p><p>".data,
   "          The CDC has released another week of influenza-like-illness (ILI)".data,
   "          surveillance data. A new round of covid19-related forecasting is now".data,
   "          underway, and we need your forecasts! We are asking you to please".data,
   "          submit your forecasts by <b>10:00 AM (ET)</b> this coming Monday.".data,
   "          Thank you so much for your support and cooperation!".data,
   "        </p><p>".data,
   "          To login and submit your forecasts, click <a".data,
   "          href=\"https://delphi.cmu.edu/crowdcast/launch.php?user=%s\">here</a>".data,
   "          or visit https://delphi.cmu.edu/crowdcast/ and enter your User ID: %s".data,
   "        </p><p>".data,
   "          Thank you again for your participation, and good luck on your".data,
   "          forecasts!".data,
   "        </p><p>".data,
   "          Happy Forecasting!".data,
   "          <br>".data,
   "          -The DELPHI Team".data,
   "        </p>".data,
   "      ".data,
   "        <hr>".data,
   "        <p style=\"color: #666; font-size: 0.8em;\">".data,
   "          [This is an automated message. To edit your email preferences or to".data,
   "          stop receiving these emails, click the unsubscribe link below.]".data,
   "          <br>".data,
   "          <a href=\"https://delphi.cmu.edu/crowdcast/preferences.php?user=%s\">".data,
   "          Unsubscribe</a>".data,
   "        </p>".data,
   "      ".data]

def hn0M : List (List Char) :=
  ["<p>".data,
   "Dear %s,".data,
   "</p><p>".data,
   "The CDC has released another week of influenza-like-illness (ILI)".data,
   "surveillance data. A new round of covid19-related forecasting is now".data,
   "underway, and we need your forecasts! We are asking you to please".data,
   "submit your forecasts by <b>10:00 AM (ET)</b> this coming Monday.".data,
   "Thank you so much for your support and cooperation!".data,
   "</p><p>".data,
   "To login and submit your forecasts, click <a".data,
   "href=\"https://delphi.cmu.edu/crowdcast/launch.php?user=%s\">here</a>".data,
   "or visit https://delphi.cmu.edu/crowdcast/ and enter your User ID: %s".data,
   "</p><p>".data,
   "Thank you again for your participation, and good luck on your".data,
   "forecasts!".data,
   "</p><p>".data,
   "Happy Forecasting!".data,
   "<br>".data,
   "-The DELPHI Team".data,
   "</p>".data,
   "".data,
   "<hr>".data,
   "<p style=\"color: #666; font-size: 0.8em;\">".data,
   "[This is an automated message. To edit your email preferences or to".data,
   "stop receiving these emails, click the unsubscribe link below.]".data,
   "<br>".data,
   "<a href=\"https://delphi.cmu.edu/crowdcast/preferences.php?user=%s\">".data,
   "Unsubscribe</a>".data,
   "</p>".data]

def tn1L : List (List Char) :=
  ["".data,
   "        Dear %s,".data,
   "".data,
   "        The CDC has released another week of influenza-like-illness (ILI)".data,
   "        surveillance data. A new round of covid19-related forecasting is now".data,
   "        underway, and we need your forecasts! We are asking you to please".data,
   "        submit your forecasts by 10:00 AM (ET) this coming Monday. Thank you so".data,
   "        much for your support and cooperation!".data,
   "".data,
   "        To login and submit your forecasts, visit".data,
   "        https://delphi.cmu.edu/crowdcast/".data,
   "        and enter your User ID: %s".data,
   "".data,
   "        ".data,
   "        Your overall score is: %d (ranked #%d)".data,
   "".data,
   "        Note: To be listed on the leaderboards, simply enter your initials on".data,
   "        the preferences page at".data,
   "        https://delphi.cmu.edu/crowdcast/preferences.php?user=%s".data,
   "".data,
   "        You can find the leaderboards at".data,
   "        https://delphi.cmu.edu/crowdcast/scores.php".data,
   "      ".data,
   "".data,
   "        Thank you again for your participation, and good luck on your".data,
   "        forecasts!".data,
   "".data,
   "        Happy Forecasting!".data,
   "        -The DELPHI Team".data,
   "      ".data,
   "        ----------".data,
   "".data,
   "        [This is an automated message. To edit your email preferences or to".data,
   "        stop receiving these emails, follow the unsubscribe link below.]".data,
   "".data,
   "        Unsubscribe: https://delphi.cmu.edu/crowdcast/preferences.php?user=%s".data,
   "      ".data]

def tn1M : List (List Char) :=
  ["Dear %s,".data,
   "".data,
   "The CDC has released another week of influenza-like-illness (ILI)".data,
   "surveillance data. A new round of covid19-related forecasting is now".data,
   "underway, and we need your forecasts! We are asking you to please".data,
   "submit your forecasts by 10:00 AM (ET) this coming Monday. Thank you so".data,
   "much for your support and cooperation!".data,
   "".data,
   "To login and submit your forecasts, visit".data,
   "https://delphi.cmu.edu/crowdcast/".data,
   "and enter your User ID: %s".data,
   "".data,
   "".data,
   "Your overall score is: %d (ranked #%d)".data,
   "".data,
   "Note: To be listed on the leaderboards, simply enter your initials on".data,
   "the preferences page at".data,
   "https://delphi.cmu.edu/crowdcast/preferences.php?user=%s".data,
   "".data,
   "You can find the leaderboards at".data,
   "https://delphi.cmu.edu/crowdcast/scores.php".data,
   "".data,
   "".data,
   "Thank you again for your participation, and good luck on your".data,
   "forecasts!".data,
   "".data,
   "Happy Forecasting!".data,
   "-The DELPHI Team".data,
   "".data,
   "----------".data,
   "".data,
   "[This is an automated message. To edit your email preferences or to".data,
   "stop receiving these emails, follow the unsubscribe link below.]".data,
   "".data,
   "Unsubscribe: https://delphi.cmu.edu/crowdcast/preferences.php?user=%s".data]

def hn1L : List (List Char) :=
  ["".data,
   "        <p>".data,
   "          Dear %s,".data,
   "        </p><p>".data,
   "          The CDC has released another week of influenza-like-illness (ILI)".data,
   "          surveillance data. A new round of covid19-related forecasting is now".data,
   "          underway, and we need your forecasts! We are asking you to please".data,
   "          submit your forecasts by <b>10:00 AM (ET)</b> this coming Monday.".data,
   "          Thank you so much for your support and cooperation!".data,
   "        </p><p>".data,
   "          To login and submit your forecasts, click <a".data,
   "          href=\"https://delphi.cmu.edu/crowdcast/launch.php?user=%s\">here</a>".data,
   "          or visit https://delphi.cmu.edu/crowdcast/ and enter your User ID: %s".data,
   "        </p>".data,
   "        <p>".data,
   "          Your overall score is: %d (<i>ranked #%d</i>)".data,
   "          <br>".data,
   "          Note: To be listed on the <a".data,
   "          href=\"https://delphi.cmu.edu/crowdcast/scores.php\">leaderboards</a>,".data,
   "          simply enter your initials on the preferences page <a".data,
   "          href=\"https://delphi.cmu.edu/crowdcast/preferences.php?user=%s\">".data,
   "          here</a>.".data,
   "        </p>".data,
   "      <p>".data,
   "          Thank you again for your participation, and good luck on your".data,
   "          forecasts!".data,
   "        </p><p>".data,
   "          Happy Forecasting!".data,
   "          <br>".data,
   "          -The DELPHI Team".data,
   "        </p>".data,
   "      ".data,
   "        <hr>".data,
   "        <p style=\"color: #666; font-size: 0.8em;\">".data,
   "          [This is an automated message. To edit your email preferences or to".data,
   "          stop receiving these emails, click the unsubscribe link below.]".data,
   "          <br>".data,
   "          <a href=\"https://delphi.cmu.edu/crowdcast/preferences.php?user=%s\">".data,
   "          Unsubscribe</a>".data,
   "        </p>".data,
   "      ".data]

def hn1M : List (List Char) :=
  ["<p>".data,
   "Dear %s,".data,
   "</p><p>".data,
   "The CDC has released another week of influenza-like-illness (ILI)".data,
   "surveillance data. A new round of covid19-related forecasting is now".data,
   "underway, and we need your forecasts! We are asking you to please".data,
   "submit your forecasts by <b>10:00 AM (ET)</b> this coming Monday.".data,
   "Thank you so much for your support and cooperation!".data,
   "</p><p>".data,
   "To login and submit your forecasts, click <a".data,
   "href=\"https://delphi.cmu.edu/crowdcast/launch.php?user=%s\">here</a>".data,
   "or visit https://delphi.cmu.edu/crowdcast/ and enter your User ID: %s".data,
   "</p>".data,
   "<p>".data,
   "Your overall score is: %d (<i>ranked #%d</i>)".data,
   "<br>".data,
   "Note: To be listed on the <a".data,
   "href=\"https://delphi.cmu.edu/crowdcast/scores.php\">leaderboards</a>,".data,
   "simply enter your initials on the preferences page <a".data,
   "href=\"https://delphi.cmu.edu/crowdcast/preferences.php?user=%s\">".data,
   "here</a>.".data,
   "</p>".data,
   "<p>".data,
   "Thank you again for your participation, and good luck on your".data,
   "forecasts!".data,
   "</p><p>".data,
   "Happy Forecasting!".data,
   "<br>".data,
   "-The DELPHI Team".data,
   "</p>".data,
   "".data,
   "<hr>".data,
   "<p style=\"color: #666; font-size: 0.8em;\">".data,
   "[This is an automated message. To edit your email preferences or to".data,
   "stop receiving these emails, click the unsubscribe link below.]".data,
   "<br>".data,
   "<a href=\"https://delphi.cmu.edu/crowdcast/preferences.php?user=%s\">".data,
   "Unsubscribe</a>".data,
   "</p>".data]

def utL : List (List Char) :=
  ["".data,
   "        ----------".data,
   "".data,
   "        [This is an automated message. To edit your email preferences or to".data,
   "        stop receiving these emails, follow the unsubscribe link below.]".data,
   "".data,
   "        Unsubscribe: https://delphi.cmu.edu/crowdcast/preferences.php?user=%s".data,
   "      ".data]

def utM : List (List Char) :=
  ["----------".data,
   "".data,
   "[This is an automated message. To edit your email preferences or to".data,
   "stop receiving these emails, follow the unsubscribe link below.]".data,
   "".data,
   "Unsubscribe: https://delphi.cmu.edu/crowdcast/preferences.php?user=%s".data]

def uhL : List (List Char) :=
  ["".data,
   "        <hr>".data,
   "        <p style=\"color: #666; font-size: 0.8em;\">".data,
   "          [This is an automated message. To edit your email preferences or to".data,
   "          stop receiving these emails, click the unsubscribe link below.]".data,
   "          <br>".data,
   "          <a href=\"https://delphi.cmu.edu/crowdcast/preferences.php?user=%s\">".data,
   "          Unsubscribe</a>".data,
   "        </p>".data,
   "      ".data]

def uhM : List (List Char) :=
  ["<hr>".data,
   "<p style=\"color: #666; font-size: 0.8em;\">".data,
   "[This is an automated message. To edit your email preferences or to".data,
   "stop receiving these emails, click the unsubscribe link below.]".data,
   "<br>".data,
   "<a href=\"https://delphi.cmu.edu/crowdcast/preferences.php?user=%s\">".data,
   "Unsubscribe</a>".data,
   "</p>".data]

/-- Flat literal form of `NOTIFICATION_text_scored`, used to stage the `replaceAll` equations. -/
def NOTIFICATION_text_scoredF : List Char := "\n        Dear %s,\n\n        The CDC has released another week of influenza-like-illness (ILI)\n        surveillance data. A new round of covid19-related forecasting is now\n        underway, and we need your forecasts! We are asking you to please\n        submit your forecasts by 10:00 AM (ET) this coming Monday. Thank you so\n        much for your support and cooperation!\n\n        To login and submit your forecasts, visit\n        https://delphi.cmu.edu/crowdcast/\n        and enter your User ID: %s\n\n        \n        Your overall score is: %d (ranked #%d)\n\n        Note: To be listed on the leaderboards, simply enter your initials on\n        the preferences page at\n        https://delphi.cmu.edu/crowdcast/preferences.php?user=%s\n\n        You can find the leaderboards at\n        https://delphi.cmu.edu/crowdcast/scores.php\n      \n\n        Thank you again for your participation, and good luck on your\n        forecasts!\n\n        Happy Forecasting!\n        -The DELPHI Team\n      ".data

/-- Flat literal form of `NOTIFICATION_html_scored`, used to stage the `replaceAll` equations. -/
def NOTIFICATION_html_scoredF : List Char := "\n        <p>\n          Dear %s,\n        </p><p>\n          The CDC has released another week of influenza-like-illness (ILI)\n          surveillance data. A new round of covid19-related forecasting is now\n          underway, and we need your forecasts! We are asking you to please\n          submit your forecasts by <b>10:00 AM (ET)</b> this coming Monday.\n          Thank you so much for your support and cooperation!\n        </p><p>\n          To login and submit your forecasts, click <a\n          href=\"https://delphi.cmu.edu/crowdcast/launch.php?user=%s\">here</a>\n          or visit https://delphi.cmu.edu/crowdcast/ and enter your User ID: %s\n        </p>\n        <p>\n          Your overall score is: %d (<i>ranked #%d</i>)\n          <br>\n          Note: To be listed on the <a\n          href=\"https://delphi.cmu.edu/crowdcast/scores.php\">leaderboards</a>,\n          simply enter your initials on the preferences page <a\n          href=\"https://delphi.cmu.edu/crowdcast/preferences.php?user=%s\">\n          here</a>.\n        </p>\n      <p>\n          Thank you again for your participation, and good luck on your\n          forecasts!\n        </p><p>\n          Happy Forecasting!\n          <br>\n          -The DELPHI Team\n        </p>\n      ".data

/-- Flat literal form of `NOTIFICATION_text_unscored`, used to stage the `replaceAll` equations. -/
def NOTIFICATION_text_unscoredF : List Char := "\n        Dear %s,\n\n        The CDC has released another week of influenza-like-illness (ILI)\n        surveillance data. A new round of covid19-related forecasting is now\n        underway, and we need your forecasts! We are asking you to please\n        submit your forecasts by 10:00 AM (ET) this coming Monday. Thank you so\n        much for your support and cooperation!\n\n        To login and submit your forecasts, visit\n        https://delphi.cmu.edu/crowdcast/\n        and enter your User ID: %s\n\n        \n\n        Thank you again for your participation, and good luck on your\n        forecasts!\n\n        Happy Forecasting!\n        -The DELPHI Team\n      ".data

/-- Flat literal form of `NOTIFICATION_html_unscored`, used to stage the `replaceAll` equations. -/
def NOTIFICATION_html_unscoredF : List Char := "\n        <p>\n          Dear %s,\n        </p><p>\n          The CDC has released another week of influenza-like-illness (ILI)\n          surveillance data. A new round of covid19-related forecasting is now\n          underway, and we need your forecasts! We are asking you to please\n          submit your forecasts by <b>10:00 AM (ET)</b> this coming Monday.\n          Thank you so much for your support and cooperation!\n        </p><p>\n          To login and submit your forecasts, click <a\n          href=\"https://delphi.cmu.edu/crowdcast/launch.php?user=%s\">here</a>\n          or visit https://delphi.cmu.edu/crowdcast/ and enter your User ID: %s\n        </p><p>\n          Thank you again for your participation, and good luck on your\n          forecasts!\n        </p><p>\n          Happy Forecasting!\n          <br>\n          -The DELPHI Team\n        </p>\n      ".data

/-! Initial parts of the segments that end in an unsubscribe-fragment head. -/

def taS2a : List Char := ",\x0d\n\x0d\n[alert text here]\x0d\n\x0d\n-The DELPHI Team\x0d\n\x0d\n".data
def trS4a : List Char := ".\x0d\n\x0d\nHappy Forecasting!\x0d\n\x0d\n-The DELPHI Team\x0d\n\x0d\n".data
def tn0S4a : List Char := "\x0d\n\x0d\n\x0d\n\x0d\nThank you again for your participation, and good luck on your\x0d\nforecasts!\x0d\n\x0d\nHappy Forecasting!\x0d\n-The DELPHI Team\x0d\n\x0d\n".data
def tn1S10a : List Char := "\x0d\n\x0d\nYou can find the leaderboards at\x0d\nhttps://delphi.cmu.edu/crowdcast/scores.php\x0d\n\x0d\n\x0d\nThank you again for your participation, and good luck on your\x0d\nforecasts!\x0d\n\x0d\nHappy Forecasting!\x0d\n-The DELPHI Team\x0d\n\x0d\n".data
def haS2a : List Char := ",\x0d\n</p><p>\x0d\n[alert text here]\x0d\n</p><p>\x0d\n-The DELPHI Team\x0d\n</p>\x0d\n\x0d\n".data
def hrS6a : List Char := "\x0d\n</p><p>\x0d\nHappy Forecasting!\x0d\n<br>\x0d\n-The DELPHI Team\x0d\n</p>\x0d\n\x0d\n".data
def hn0S6a : List Char := "\x0d\n</p><p>\x0d\nThank you again for your participation, and good luck on your\x0d\nforecasts!\x0d\n</p><p>\x0d\nHappy Forecasting!\x0d\n<br>\x0d\n-The DELPHI Team\x0d\n</p>\x0d\n\x0d\n".data
def hn1S12a : List Char := "\">\x0d\nhere</a>.\x0d\n</p>\x0d\n<p>\x0d\nThank you again for your participation, and good luck on your\x0d\nforecasts!\x0d\n</p><p>\x0d\nHappy Forecasting!\x0d\n<br>\x0d\n-The DELPHI Team\x0d\n</p>\x0d\n\x0d\n".data

/-! The unsubscribe text head up to the user query parameter. -/

def utS0b : List Char := "----------\x0d\n\x0d\n[This is an automated message. To edit your email preferences or to\x0d\nstop receiving these emails, follow the unsubscribe link below.]\x0d\n\x0d\nUnsubscribe: https://delphi.cmu.edu/crowdcast/preferences.php?".data

/-- A substitution value that keeps bodies normalized: strings must be
nonempty, stripped, and CR/LF-free; integers always render that way. -/
def valNice : PyVal → Prop
  | PyVal.str s => cleanStr s.data ∧ s.data ≠ []
  | PyVal.int _ => True

/-! ## Theorems: basic facts about the string primitives -/

theorem splitNl_ne_nil (s : List Char) : splitNl s ≠ [] := by
  cases s with
  | nil => simp [splitNl]
  | cons c rest =>
      by_cases h : c = '\n' <;> simp [splitNl, h]
      cases hr : splitNl rest <;> simp [consHead]

theorem splitNl_append (a b : List Char) :
    splitNl (a ++ b) =
      (splitNl a).dropLast ++ prependFirst ((splitNl a).getLastD []) (splitNl b) := by
  induction a with
  | nil =>
      cases hb : splitNl b with
      | nil => exact absurd hb (splitNl_ne_nil b)
      | cons l ls => simp [splitNl, prependFirst, hb]
  | cons c a ih =>
      cases ha : splitNl a with
      | nil => exact absurd ha (splitNl_ne_nil a)
      | cons l ls =>
        by_cases h : c = '\n'
        · subst h
          have h1 : splitNl (('\n' :: a) ++ b) = [] :: splitNl (a ++ b) := by
            simp [splitNl]
          have h2 : splitNl ('\n' :: a) = [] :: splitNl a := by simp [splitNl]
          rw [h1, ih, ha, h2, ha]
          simp [List.getLastD_cons]
        · have h1 : splitNl ((c :: a) ++ b) = consHead c (splitNl (a ++ b)) := by
            simp [splitNl, h]
          have h2 : splitNl (c :: a) = consHead c (splitNl a) := by simp [splitNl, h]
          rw [h1, ih, ha, h2, ha]
          cases ls with
          | nil =>
              cases hb : splitNl b with
              | nil => exact absurd hb (splitNl_ne_nil b)
              | cons m ms => simp [consHead, prependFirst, hb]
          | cons l2 ls2 => simp [consHead, prependFirst, List.getLastD_cons]

theorem pyFormat_lit (l t : List Char) (vs : List PyVal) (h : '%' ∉ l) :
    pyFormat (l ++ t) vs = (pyFormat t vs).map (fun r => l ++ r) := by
  induction l with
  | nil =>
      cases hf : pyFormat t vs <;> simp [hf]
  | cons c l ih =>
      have hc : ¬ c = '%' := fun e => h (e ▸ List.mem_cons_self c l)
      have hl : '%' ∉ l := fun e => h (List.mem_cons_of_mem c e)
      rw [List.cons_append]
      rw [pyFormat.eq_def]
      simp only [if_neg hc]
      rw [ih hl]
      cases hf : pyFormat t vs <;> simp

theorem pyFormat_assemble (L : List Seg) (hok : ∀ sg ∈ L, segOk sg = true)
    (vs : List PyVal) : pyFormat (assemble L) vs = renderOpt L vs := by
  induction L generalizing vs with
  | nil => cases vs <;> simp [assemble, renderOpt, pyFormat]
  | cons sg rest ih =>
      have hrest : ∀ sg ∈ rest, segOk sg = true :=
        fun s hs => hok s (List.mem_cons_of_mem sg hs)
      have hsg : segOk sg = true := hok sg (List.mem_cons_self sg rest)
      cases sg with
      | lit l =>
          have hl : '%' ∉ l := by
            simpa [segOk, List.contains, List.elem_eq_mem] using hsg
          rw [assemble, pyFormat_lit l _ vs hl, ih hrest, renderOpt]
      | phS =>
          rw [assemble]
          cases vs with
          | nil => simp [pyFormat, renderOpt]
          | cons v vs' => simp [pyFormat, renderOpt, ih hrest]
      | phD =>
          rw [assemble]
          cases vs with
          | nil => simp [pyFormat, renderOpt]
          | cons v vs' =>
              cases v with
              | str s => simp [pyFormat, renderOpt]
              | int n => simp [pyFormat, renderOpt, ih hrest]

/-! ## Theorems: stripping and joining -/

theorem rstrip_eq_rdropWhile (s : List Char) : rstrip s = List.rdropWhile isPyWs s := rfl

theorem rstrip_eq_reverse_lstrip (s : List Char) :
    rstrip s = (lstrip s.reverse).reverse := rfl

theorem dropWhile_head_not (p : Char → Bool) :
    ∀ (s : List Char) c cs, List.dropWhile p s = c :: cs → p c = false := by
  intro s
  induction s with
  | nil => intro c cs h; simp [List.dropWhile] at h
  | cons a as ih =>
      intro c cs h
      by_cases hp : p a
      · rw [List.dropWhile_cons_of_pos hp] at h; exact ih _ _ h
      · rw [List.dropWhile_cons_of_neg hp] at h
        cases h
        simpa using hp

theorem lstrip_cons_neg (c : Char) (cs : List Char) (h : isPyWs c = false) :
    lstrip (c :: cs) = c :: cs := by
  simp only [lstrip]
  rw [List.dropWhile_cons_of_neg (by simp [h])]

theorem lstrip_idem (s : List Char) : lstrip (lstrip s) = lstrip s :=
  List.dropWhile_idempotent isPyWs s

theorem rstrip_idem (s : List Char) : rstrip (rstrip s) = rstrip s := by
  rw [rstrip_eq_rdropWhile, rstrip_eq_rdropWhile]
  exact List.rdropWhile_idempotent isPyWs s

theorem lstrip_rstrip_lstrip (s : List Char) :
    lstrip (rstrip (lstrip s)) = rstrip (lstrip s) := by
  cases h : lstrip s with
  | nil => simp [rstrip, lstrip, List.dropWhile]
  | cons c cs =>
      have hc : isPyWs c = false := dropWhile_head_not _ _ _ _ h
      cases hr : rstrip (c :: cs) with
      | nil => simp [lstrip, List.dropWhile]
      | cons d ds =>
          have hpre : (d :: ds) <+: (c :: cs) := by
            rw [← hr, rstrip_eq_rdropWhile]
            exact List.rdropWhile_prefix isPyWs (c :: cs)
          obtain ⟨t, ht⟩ := hpre
          have hd : d = c := by
            have := ht
            simp only [List.cons_append] at this
            exact (List.cons.injEq _ _ _ _ ▸ this).1
          subst hd
          exact lstrip_cons_neg _ _ hc

theorem strip_idem (s : List Char) : strip (strip s) = strip s := by
  show rstrip (lstrip (rstrip (lstrip s))) = rstrip (lstrip s)
  rw [lstrip_rstrip_lstrip, rstrip_idem]

theorem strip_eq_self_parts (s : List Char) (h : strip s = s) :
    lstrip s = s ∧ rstrip s = s := by
  constructor
  · conv_lhs => rw [← h]
    show lstrip (rstrip (lstrip s)) = s
    rw [lstrip_rstrip_lstrip]
    exact h
  · conv_lhs => rw [← h]
    show rstrip (rstrip (lstrip s)) = s
    rw [rstrip_idem]
    exact h

theorem lstrip_eq_self_of_head (s : List Char)
    (h : ∀ c, s.head? = some c → isPyWs c = false) : lstrip s = s := by
  cases s with
  | nil => rfl
  | cons c cs => exact lstrip_cons_neg c cs (h c rfl)

theorem rstrip_eq_self_of_getLast (s : List Char)
    (h : ∀ c, s.getLast? = some c → isPyWs c = false) : rstrip s = s := by
  rw [rstrip_eq_rdropWhile]
  rw [List.rdropWhile_eq_self_iff]
  intro hl
  have := h (s.getLast hl) (List.getLast?_eq_getLast s hl)
  simp [this]

theorem strip_eq_self_of (s : List Char)
    (h1 : ∀ c, s.head? = some c → isPyWs c = false)
    (h2 : ∀ c, s.getLast? = some c → isPyWs c = false) : strip s = s := by
  show rstrip (lstrip s) = s
  rw [lstrip_eq_self_of_head s h1]
  exact rstrip_eq_self_of_getLast s h2

theorem head_not_ws_of_strip (s : List Char) (h : strip s = s) :
    ∀ c, s.head? = some c → isPyWs c = false := by
  intro c hc
  cases s with
  | nil => simp at hc
  | cons a as =>
      obtain ⟨hl, _⟩ := strip_eq_self_parts _ h
      cases hc
      by_cases hw : isPyWs c
      · exfalso
        have h1 : lstrip (c :: as) = List.dropWhile isPyWs as := by
          simp only [lstrip]
          rw [List.dropWhile_cons_of_pos (by simp [hw])]
        rw [h1] at hl
        have hle := (List.dropWhile_suffix (l := as) (p := isPyWs)).sublist.length_le
        rw [hl] at hle
        simp at hle
      · simpa using hw

theorem getLast_not_ws_of_strip (s : List Char) (h : strip s = s) :
    ∀ c, s.getLast? = some c → isPyWs c = false := by
  intro c hc
  obtain ⟨_, hr⟩ := strip_eq_self_parts _ h
  rw [rstrip_eq_rdropWhile] at hr
  rw [List.rdropWhile_eq_self_iff] at hr
  have hne : s ≠ [] := by
    intro e; subst e; simp at hc
  have := hr hne
  rw [List.getLast?_eq_getLast s hne] at hc
  cases hc
  simpa using this

theorem lstrip_append_ws (a b : List Char) (ha : ∀ c ∈ a, isPyWs c = true) :
    lstrip (a ++ b) = lstrip b := by
  induction a with
  | nil => rfl
  | cons c a ih =>
      simp only [List.cons_append, lstrip]
      rw [List.dropWhile_cons_of_pos (by simp [ha c (List.mem_cons_self c a)])]
      exact ih (fun x hx => ha x (List.mem_cons_of_mem c hx))

theorem joinSep_append_single (sep x : List Char) (K : List (List Char)) (h : K ≠ []) :
    joinSep sep (K ++ [x]) = joinSep sep K ++ sep ++ x := by
  induction K with
  | nil => exact absurd rfl h
  | cons k K ih =>
      cases K with
      | nil => simp [joinSep]
      | cons k2 K' =>
          have : joinSep sep ((k :: k2 :: K') ++ [x]) =
              k ++ sep ++ joinSep sep ((k2 :: K') ++ [x]) := by
            simp [joinSep]
          rw [this, ih (by simp)]
          simp [joinSep, List.append_assoc]

theorem joinSep_reverse (sep : List Char) (M : List (List Char)) :
    (joinSep sep M).reverse = joinSep sep.reverse (M.reverse.map List.reverse) := by
  induction M with
  | nil => simp [joinSep]
  | cons m M ih =>
      cases M with
      | nil => simp [joinSep]
      | cons m2 M' =>
          have h1 : joinSep sep (m :: m2 :: M') = m ++ sep ++ joinSep sep (m2 :: M') := by
            simp [joinSep]
          rw [h1]
          have h2 : ((m :: m2 :: M').reverse.map List.reverse) =
              ((m2 :: M').reverse.map List.reverse) ++ [m.reverse] := by
            simp
          rw [h2, joinSep_append_single _ _ _ (by simp)]
          simp [ih, List.append_assoc]

theorem isEmpty_reverse (l : List Char) : l.reverse.isEmpty = l.isEmpty := by
  cases l <;> simp

theorem dropEmpty_map_reverse (K : List (List Char)) :
    dropEmpty (K.map List.reverse) = (dropEmpty K).map List.reverse := by
  induction K with
  | nil => rfl
  | cons k K ih =>
      by_cases h : k.isEmpty
      · have hk : k = [] := by simpa using h
        subst hk
        simp only [dropEmpty, List.map_cons, List.reverse_nil]
        rw [List.dropWhile_cons_of_pos (by simp), List.dropWhile_cons_of_pos (by simp)]
        exact ih
      · simp only [dropEmpty, List.map_cons]
        rw [List.dropWhile_cons_of_neg (by simpa [isEmpty_reverse] using h),
            List.dropWhile_cons_of_neg (by simpa using h)]
        simp

theorem lstrip_joinSep (sep : List Char) (hsep : ∀ c ∈ sep, isPyWs c = true) :
    ∀ M : List (List Char), (∀ m ∈ M, lstrip m = m) →
      lstrip (joinSep sep M) = joinSep sep (dropEmpty M) := by
  intro M
  induction M with
  | nil => intro _; rfl
  | cons m M ih =>
      intro hM
      have hm : lstrip m = m := hM m (List.mem_cons_self m M)
      have hM' : ∀ x ∈ M, lstrip x = x := fun x hx => hM x (List.mem_cons_of_mem m hx)
      by_cases he : m = []
      · subst he
        cases M with
        | nil => rfl
        | cons m2 M' =>
            have h1 : joinSep sep ([] :: m2 :: M') = sep ++ joinSep sep (m2 :: M') := by
              simp [joinSep]
            have h2 : dropEmpty ([] :: m2 :: M') = dropEmpty (m2 :: M') := by
              simp only [dropEmpty]
              rw [List.dropWhile_cons_of_pos (by simp)]
            rw [h1, h2, lstrip_append_ws sep _ hsep]
            exact ih hM'
      · obtain ⟨c, cs, hc⟩ : ∃ c cs, m = c :: cs := by
          cases m with
          | nil => exact absurd rfl he
          | cons c cs => exact ⟨c, cs, rfl⟩
        subst hc
        have hcw : isPyWs c = false := by
          have := hm
          by_cases hw : isPyWs c
          · exfalso
            have h1 : lstrip (c :: cs) = List.dropWhile isPyWs cs := by
              simp only [lstrip]
              rw [List.dropWhile_cons_of_pos (by simp [hw])]
            rw [h1] at this
            have hle := (List.dropWhile_suffix (l := cs) (p := isPyWs)).sublist.length_le
            rw [this] at hle
            simp at hle
          · simpa using hw
        have hde : dropEmpty ((c :: cs) :: M) = (c :: cs) :: M := by
          simp only [dropEmpty]
          rw [List.dropWhile_cons_of_neg (by simp)]
        rw [hde]
        cases M with
        | nil =>
            show lstrip (c :: cs) = joinSep sep [c :: cs]
            rw [lstrip_cons_neg c cs hcw]
            rfl
        | cons m2 M' =>
            have h1 : joinSep sep ((c :: cs) :: m2 :: M') =
                c :: (cs ++ sep ++ joinSep sep (m2 :: M')) := by
              simp [joinSep, List.append_assoc]
            rw [h1, lstrip_cons_neg _ _ hcw]

theorem rstrip_reverse_eq (s : List Char) : lstrip s.reverse = (rstrip s).reverse := by
  rw [rstrip_eq_reverse_lstrip, List.reverse_reverse]

theorem rstrip_joinSep (sep : List Char) (hsep : ∀ c ∈ sep, isPyWs c = true)
    (M : List (List Char)) (hM : ∀ m ∈ M, rstrip m = m) :
    rstrip (joinSep sep M) = joinSep sep (dropEmptyEnd M) := by
  have h1 : rstrip (joinSep sep M) = (lstrip ((joinSep sep M).reverse)).reverse := by
    rw [rstrip_eq_reverse_lstrip]
  rw [h1, joinSep_reverse]
  have hsep' : ∀ c ∈ sep.reverse, isPyWs c = true := by
    intro c hc; exact hsep c (List.mem_reverse.mp hc)
  have hM' : ∀ x ∈ M.reverse.map List.reverse, lstrip x = x := by
    intro x hx
    obtain ⟨m, hm1, hm2⟩ := List.mem_map.mp hx
    have hmm : m ∈ M := List.mem_reverse.mp hm1
    subst hm2
    rw [rstrip_reverse_eq, hM m hmm]
  rw [lstrip_joinSep sep.reverse hsep' _ hM']
  rw [dropEmpty_map_reverse]
  rw [joinSep_reverse sep.reverse (List.map List.reverse (dropEmpty M.reverse))]
  simp only [List.reverse_reverse, ← List.map_reverse, List.map_map]
  have h3 : List.map (List.reverse ∘ List.reverse) (dropEmpty M.reverse).reverse =
      (dropEmpty M.reverse).reverse := by
    simp [Function.comp]
  rw [h3]
  rfl

theorem strip_joinSep (sep : List Char) (hsep : ∀ c ∈ sep, isPyWs c = true)
    (M : List (List Char)) (hM : ∀ m ∈ M, strip m = m) :
    strip (joinSep sep M) = joinSep sep (trimEmpty M) := by
  show rstrip (lstrip (joinSep sep M)) = _
  rw [lstrip_joinSep sep hsep M (fun m hm => (strip_eq_self_parts m (hM m hm)).1)]
  have hsub : ∀ m ∈ dropEmpty M, m ∈ M := fun m hm =>
    List.Sublist.mem hm (List.IsSuffix.sublist (List.dropWhile_suffix _))
  rw [rstrip_joinSep sep hsep (dropEmpty M)
    (fun m hm => (strip_eq_self_parts m (hM m (hsub m hm))).2)]
  rfl

theorem dropWhileP_head_false {α : Type} (p : α → Bool) :
    ∀ (s : List α) c cs, List.dropWhile p s = c :: cs → p c = false := by
  intro s
  induction s with
  | nil => intro c cs h; simp [List.dropWhile] at h
  | cons a as ih =>
      intro c cs h
      by_cases hp : p a
      · rw [List.dropWhile_cons_of_pos hp] at h; exact ih _ _ h
      · rw [List.dropWhile_cons_of_neg hp] at h
        cases h
        simpa using hp

theorem mem_splitNl_no_nl : ∀ (s : List Char) l, l ∈ splitNl s → '\n' ∉ l := by
  intro s
  induction s with
  | nil =>
      intro l hl
      simp [splitNl] at hl
      subst hl; simp
  | cons c cs ih =>
      intro l hl
      by_cases h : c = '\n'
      · subst h
        simp only [splitNl, if_pos rfl] at hl
        rcases List.mem_cons.mp hl with h1 | h2
        · subst h1; simp
        · exact ih l h2
      · rw [show splitNl (c :: cs) = consHead c (splitNl cs) from by simp [splitNl, h]] at hl
        cases hsp : splitNl cs with
        | nil => exact absurd hsp (splitNl_ne_nil cs)
        | cons m ms =>
            rw [hsp] at hl
            simp only [consHead] at hl
            rcases List.mem_cons.mp hl with h1 | h2
            · subst h1
              intro hmem
              rcases List.mem_cons.mp hmem with he | hm
              · exact h he.symm
              · exact ih m (by rw [hsp]; exact List.mem_cons_self m ms) hm
            · exact ih l (by rw [hsp]; exact List.mem_cons_of_mem m h2)

theorem strip_sublist (s : List Char) : List.Sublist (strip s) s := by
  have h1 : List.Sublist (rstrip (lstrip s)) (lstrip s) := by
    rw [rstrip_eq_rdropWhile]
    exact (List.rdropWhile_prefix isPyWs (lstrip s)).sublist
  have h2 : List.Sublist (lstrip s) s := (List.dropWhile_suffix isPyWs).sublist
  exact h1.trans h2

theorem splitNl_of_no_nl (l : List Char) (h : '\n' ∉ l) : splitNl l = [l] := by
  induction l with
  | nil => rfl
  | cons c cs ih =>
      have hc : ¬ c = '\n' := fun e => h (e ▸ List.mem_cons_self c cs)
      have hcs : '\n' ∉ cs := fun e => h (List.mem_cons_of_mem c e)
      rw [show splitNl (c :: cs) = consHead c (splitNl cs) from by simp [splitNl, hc]]
      rw [ih hcs]
      rfl

theorem splitNl_joinCRLF :
    ∀ (M : List (List Char)), (∀ m ∈ M, '\n' ∉ m) → M ≠ [] →
      splitNl (joinSep ['\r', '\n'] M) =
        (M.dropLast.map (fun m => m ++ ['\r'])) ++ [M.getLastD []] := by
  intro M
  induction M with
  | nil => intro _ h; exact absurd rfl h
  | cons m M ih =>
      intro hM _
      cases M with
      | nil =>
          rw [show joinSep ['\r', '\n'] [m] = m from rfl]
          rw [splitNl_of_no_nl m (hM m (List.mem_cons_self m []))]
          simp [List.getLastD]
      | cons m2 M' =>
          have h1 : joinSep ['\r', '\n'] (m :: m2 :: M') =
              (m ++ ['\r']) ++ ('\n' :: joinSep ['\r', '\n'] (m2 :: M')) := by
            simp [joinSep, List.append_assoc]
          rw [h1, splitNl_append]
          have hmr : '\n' ∉ m ++ ['\r'] := by
            intro hmem
            rcases List.mem_append.mp hmem with h2 | h2
            · exact hM m (List.mem_cons_self m _) h2
            · simp at h2
          rw [splitNl_of_no_nl _ hmr]
          rw [show splitNl ('\n' :: joinSep ['\r', '\n'] (m2 :: M')) =
            [] :: splitNl (joinSep ['\r', '\n'] (m2 :: M')) from by simp [splitNl]]
          rw [ih (fun x hx => hM x (List.mem_cons_of_mem m hx)) (by simp)]
          simp [prependFirst, List.getLastD_cons]

theorem strip_append_cr (m : List Char) (h : strip m = m) : strip (m ++ ['\r']) = m := by
  cases m with
  | nil => decide
  | cons c cs =>
      have hc : isPyWs c = false := head_not_ws_of_strip _ h c rfl
      show rstrip (lstrip ((c :: cs) ++ ['\r'])) = c :: cs
      have hl2 : lstrip ((c :: cs) ++ ['\r']) = (c :: cs) ++ ['\r'] := by
        rw [List.cons_append, lstrip_cons_neg _ _ hc]
      rw [hl2, rstrip_eq_rdropWhile,
        List.rdropWhile_concat_pos isPyWs (c :: cs) '\r' (by decide)]
      rw [← rstrip_eq_rdropWhile]
      exact (strip_eq_self_parts _ h).2

theorem trimEmpty_sub (M : List (List Char)) : ∀ m ∈ trimEmpty M, m ∈ M := by
  intro m hm
  have h1 : m ∈ dropEmpty M := by
    have hs : List.Sublist (trimEmpty M) (dropEmpty M) :=
      (List.rdropWhile_prefix (fun l : List Char => l.isEmpty) (dropEmpty M)).sublist
    exact hs.mem hm
  exact ((List.dropWhile_suffix (fun l : List Char => l.isEmpty)).sublist).mem h1

theorem dropEmptyEnd_eq_rdropWhile (K : List (List Char)) :
    dropEmptyEnd K = List.rdropWhile (fun l => l.isEmpty) K := rfl

theorem trimEmpty_head_ne (M : List (List Char)) (m : List Char)
    (ms : List (List Char)) (h : trimEmpty M = m :: ms) : m ≠ [] := by
  have hpre := List.rdropWhile_prefix (fun l : List Char => l.isEmpty) (dropEmpty M)
  rw [← dropEmptyEnd_eq_rdropWhile] at hpre
  have h2 : dropEmptyEnd (dropEmpty M) = m :: ms := h
  obtain ⟨t, ht⟩ := hpre
  rw [h2] at ht
  cases hK : dropEmpty M with
  | nil => rw [hK] at ht; simp at ht
  | cons k ks =>
      have hk : k.isEmpty = false := dropWhileP_head_false _ M k ks hK
      rw [hK] at ht
      have hmk : m = k := by
        have h3 := ht
        simp only [List.cons_append] at h3
        exact (List.cons.injEq _ _ _ _ ▸ h3).1
      subst hmk
      intro he
      rw [he] at hk
      simp at hk

theorem trimEmpty_last_ne (M : List (List Char)) (m : List Char)
    (ms : List (List Char)) (h : trimEmpty M = m :: ms) :
    (m :: ms).getLastD [] ≠ [] := by
  have h2 : List.rdropWhile (fun l : List Char => l.isEmpty) (dropEmpty M) = m :: ms := h
  have hD : List.dropWhile (fun l : List Char => l.isEmpty) (dropEmpty M).reverse =
      (m :: ms).reverse := by
    have h3 := congrArg List.reverse h2
    simpa [List.rdropWhile] using h3
  cases hrev : (m :: ms).reverse with
  | nil => simp at hrev
  | cons d ds =>
      have hd : d.isEmpty = false := dropWhileP_head_false _ _ _ _ (hD.trans hrev)
      have hsome : (m :: ms).getLast? = some d := by
        rw [← List.head?_reverse, hrev]
        rfl
      rw [List.getLastD_eq_getLast?, hsome]
      intro he
      simp only [Option.getD_some] at he
      rw [he] at hd
      simp at hd

theorem trimEmpty_eq_self (M : List (List Char))
    (hh : ∀ m ms, M = m :: ms → m ≠ [])
    (hl : ∀ m, M.getLast? = some m → m ≠ []) : trimEmpty M = M := by
  cases M with
  | nil => rfl
  | cons m ms =>
      have hme : m ≠ [] := hh m ms rfl
      have h1 : dropEmpty (m :: ms) = m :: ms := by
        simp only [dropEmpty]
        rw [List.dropWhile_cons_of_neg]
        simp [List.isEmpty_iff, hme]
      rw [show trimEmpty (m :: ms) = dropEmptyEnd (dropEmpty (m :: ms)) from rfl, h1]
      rw [dropEmptyEnd_eq_rdropWhile, List.rdropWhile_eq_self_iff]
      intro hne
      have h2 := hl _ (List.getLast?_eq_getLast _ hne)
      simp [List.isEmpty_iff, h2]

theorem prepare_eq_join (s : List Char) :
    prepare s = joinSep ['\r', '\n'] (trimEmpty ((splitNl s).map strip)) := by
  have hsep : ∀ c ∈ (['\r', '\n'] : List Char), isPyWs c = true := by decide
  have hMstrip : ∀ m ∈ (splitNl s).map strip, strip m = m := by
    intro m hm
    obtain ⟨l, _, he⟩ := List.mem_map.mp hm
    subst he; exact strip_idem l
  exact strip_joinSep _ hsep _ hMstrip

theorem prepare_join_fixed (M : List (List Char))
    (hstrip : ∀ m ∈ M, strip m = m) (hnl : ∀ m ∈ M, '\n' ∉ m)
    (hh : ∀ m ms, M = m :: ms → m ≠ [])
    (hl : ∀ m ms, M = m :: ms → (m :: ms).getLastD [] ≠ []) :
    prepare (joinSep ['\r', '\n'] M) = joinSep ['\r', '\n'] M := by
  have hsep : ∀ c ∈ (['\r', '\n'] : List Char), isPyWs c = true := by decide
  cases M with
  | nil => decide
  | cons m ms =>
      have hne : (m :: ms : List (List Char)) ≠ [] := by simp
      show strip (joinSep ['\r', '\n']
        ((splitNl (joinSep ['\r', '\n'] (m :: ms))).map strip)) = _
      rw [splitNl_joinCRLF (m :: ms) hnl hne]
      have hgmem : (m :: ms).getLastD [] ∈ m :: ms := by
        rw [List.getLastD_eq_getLast?, List.getLast?_eq_getLast _ hne]
        simp only [Option.getD_some]
        exact List.getLast_mem hne
      have hmap : (((m :: ms).dropLast.map (fun x => x ++ ['\r'])) ++
          [(m :: ms).getLastD []]).map strip =
          (m :: ms).dropLast ++ [(m :: ms).getLastD []] := by
        rw [List.map_append, List.map_map]
        congr 1
        · have hcg : ∀ x ∈ (m :: ms).dropLast,
              (strip ∘ fun x => x ++ ['\r']) x = x := by
            intro x hx
            exact strip_append_cr x
              (hstrip x ((List.dropLast_sublist (m :: ms)).mem hx))
          rw [List.map_congr_left hcg]
          simp
        · simp only [List.map_cons, List.map_nil]
          rw [hstrip _ hgmem]
      rw [hmap]
      have hrecomb : (m :: ms).dropLast ++ [(m :: ms).getLastD []] = m :: ms := by
        rw [List.getLastD_eq_getLast?, List.getLast?_eq_getLast _ hne]
        simp only [Option.getD_some]
        exact List.dropLast_append_getLast hne
      rw [hrecomb]
      rw [strip_joinSep _ hsep _ hstrip]
      rw [trimEmpty_eq_self _ (by
        intro a as he
        have : a = m := by
          have h2 := he
          exact ((List.cons.injEq _ _ _ _ ▸ h2).1).symm
        subst this
        exact hh a ms rfl) (by
        intro x hx
        have h2 : (m :: ms).getLastD [] = x := by
          rw [List.getLastD_eq_getLast?, hx]
          simp
        rw [← h2]
        exact hl m ms rfl)]

/-- Claim C9 helper: full idempotence of `prepare`. -/
theorem prepare_prepare (s : List Char) : prepare (prepare s) = prepare s := by
  have hMstrip : ∀ m ∈ (splitNl s).map strip, strip m = m := by
    intro m hm
    obtain ⟨l, _, he⟩ := List.mem_map.mp hm
    subst he; exact strip_idem l
  have hMnl : ∀ m ∈ (splitNl s).map strip, '\n' ∉ m := by
    intro m hm
    obtain ⟨l, hl, he⟩ := List.mem_map.mp hm
    subst he
    intro hmem
    exact mem_splitNl_no_nl s l hl ((strip_sublist l).mem hmem)
  rw [prepare_eq_join s]
  apply prepare_join_fixed
  · intro m hm; exact hMstrip m (trimEmpty_sub _ m hm)
  · intro m hm; exact hMnl m (trimEmpty_sub _ m hm)
  · intro m ms h; exact trimEmpty_head_ne _ m ms h
  · intro m ms h; rw [← h]; rw [h]; exact trimEmpty_last_ne _ m ms h

set_option maxRecDepth 400000 in
theorem repTextScoredF :
    replaceAll scoreMarker SCORE_text.data NOTIFICATION_text.data = NOTIFICATION_text_scoredF := by
  rfl

set_option maxRecDepth 400000 in
theorem repTextScored :
    replaceAll scoreMarker SCORE_text.data NOTIFICATION_text.data = NOTIFICATION_text_scored := by
  rw [repTextScoredF]
  rfl

set_option maxRecDepth 400000 in
theorem repHtmlScoredF :
    replaceAll scoreMarker SCORE_html.data NOTIFICATION_html.data = NOTIFICATION_html_scoredF := by
  rfl

set_option maxRecDepth 400000 in
theorem repHtmlScored :
    replaceAll scoreMarker SCORE_html.data NOTIFICATION_html.data = NOTIFICATION_html_scored := by
  rw [repHtmlScoredF]
  rfl

set_option maxRecDepth 400000 in
theorem repTextUnscoredF :
    replaceAll scoreMarker [] NOTIFICATION_text.data = NOTIFICATION_text_unscoredF := by
  rfl

set_option maxRecDepth 400000 in
theorem repTextUnscored :
    replaceAll scoreMarker [] NOTIFICATION_text.data = NOTIFICATION_text_unscored := by
  rw [repTextUnscoredF]
  rfl

set_option maxRecDepth 400000 in
theorem repHtmlUnscoredF :
    replaceAll scoreMarker [] NOTIFICATION_html.data = NOTIFICATION_html_unscoredF := by
  rfl

set_option maxRecDepth 400000 in
theorem repHtmlUnscored :
    replaceAll scoreMarker [] NOTIFICATION_html.data = NOTIFICATION_html_unscored := by
  rw [repHtmlUnscoredF]
  rfl

set_option maxRecDepth 200000 in
theorem taLines : splitNl (ALERT_text.data ++ UNSUBSCRIBE_text.data) = taL := by
  rw [splitNl_append]
  decide

set_option maxRecDepth 200000 in
theorem haLines : splitNl (ALERT_html.data ++ UNSUBSCRIBE_html.data) = haL := by
  rw [splitNl_append]
  decide

set_option maxRecDepth 200000 in
theorem trLines : splitNl (REMINDER_text.data ++ UNSUBSCRIBE_text.data) = trL := by
  rw [splitNl_append]
  decide

set_option maxRecDepth 200000 in
theorem hrLines : splitNl (REMINDER_html.data ++ UNSUBSCRIBE_html.data) = hrL := by
  rw [splitNl_append]
  decide

set_option maxRecDepth 200000 in
theorem tn0Lines : splitNl (NOTIFICATION_text_unscored ++ UNSUBSCRIBE_text.data) = tn0L := by
  show splitNl ((NOTIFICATION_text_unscoredP0 ++ NOTIFICATION_text_unscoredP1) ++ UNSUBSCRIBE_text.data) = tn0L
  rw [List.append_assoc]
  rw [splitNl_append NOTIFICATION_text_unscoredP0]
  rw [splitNl_append NOTIFICATION_text_unscoredP1]
  decide

set_option maxRecDepth 200000 in
theorem hn0Lines : splitNl (NOTIFICATION_html_unscored ++ UNSUBSCRIBE_html.data) = hn0L := by
  show splitNl ((NOTIFICATION_html_unscoredP0 ++ NOTIFICATION_html_unscoredP1) ++ UNSUBSCRIBE_html.data) = hn0L
  rw [List.append_assoc]
  rw [splitNl_append NOTIFICATION_html_unscoredP0]
  rw [splitNl_append NOTIFICATION_html_unscoredP1]
  decide

set_option maxRecDepth 200000 in
theorem tn1Lines : splitNl (NOTIFICATION_text_scored ++ UNSUBSCRIBE_text.data) = tn1L := by
  show splitNl (((NOTIFICATION_text_scoredP0 ++ NOTIFICATION_text_scoredP1) ++ NOTIFICATION_text_scoredP2) ++ UNSUBSCRIBE_text.data) = tn1L
  rw [List.append_assoc, List.append_assoc]
  rw [splitNl_append NOTIFICATION_text_scoredP0]
  rw [splitNl_append NOTIFICATION_text_scoredP1]
  rw [splitNl_append NOTIFICATION_text_scoredP2]
  decide

set_option maxRecDepth 200000 in
theorem hn1Lines : splitNl (NOTIFICATION_html_scored ++ UNSUBSCRIBE_html.data) = hn1L := by
  show splitNl (((NOTIFICATION_html_scoredP0 ++ NOTIFICATION_html_scoredP1) ++ NOTIFICATION_html_scoredP2) ++ UNSUBSCRIBE_html.data) = hn1L
  rw [List.append_assoc, List.append_assoc]
  rw [splitNl_append NOTIFICATION_html_scoredP0]
  rw [splitNl_append NOTIFICATION_html_scoredP1]
  rw [splitNl_append NOTIFICATION_html_scoredP2]
  decide

set_option maxRecDepth 200000 in
theorem utLines : splitNl UNSUBSCRIBE_text.data = utL := by
  decide

set_option maxRecDepth 200000 in
theorem uhLines : splitNl UNSUBSCRIBE_html.data = uhL := by
  decide

set_option maxRecDepth 200000 in
theorem taSplitEq : prepare (ALERT_text.data ++ UNSUBSCRIBE_text.data) = assemble taSegs := by
  rw [prepare_eq_join, taLines]
  rw [show trimEmpty (taL.map strip) = taM from by decide]
  rfl

set_option maxRecDepth 200000 in
theorem haSplitEq : prepare (ALERT_html.data ++ UNSUBSCRIBE_html.data) = assemble haSegs := by
  rw [prepare_eq_join, haLines]
  rw [show trimEmpty (haL.map strip) = haM from by decide]
  rfl

set_option maxRecDepth 200000 in
theorem trSplitEq : prepare (REMINDER_text.data ++ UNSUBSCRIBE_text.data) = assemble trSegs := by
  rw [prepare_eq_join, trLines]
  rw [show trimEmpty (trL.map strip) = trM from by decide]
  rfl

set_option maxRecDepth 200000 in
theorem hrSplitEq : prepare (REMINDER_html.data ++ UNSUBSCRIBE_html.data) = assemble hrSegs := by
  rw [prepare_eq_join, hrLines]
  rw [show trimEmpty (hrL.map strip) = hrM from by decide]
  rfl

set_option maxRecDepth 200000 in
theorem tn0SplitEq : prepare (NOTIFICATION_text_unscored ++ UNSUBSCRIBE_text.data) = assemble tn0Segs := by
  rw [prepare_eq_join, tn0Lines]
  rw [show trimEmpty (tn0L.map strip) = tn0M from by decide]
  rfl

set_option maxRecDepth 200000 in
theorem hn0SplitEq : prepare (NOTIFICATION_html_unscored ++ UNSUBSCRIBE_html.data) = assemble hn0Segs := by
  rw [prepare_eq_join, hn0Lines]
  rw [show trimEmpty (hn0L.map strip) = hn0M from by decide]
  rfl

set_option maxRecDepth 200000 in
theorem tn1SplitEq : prepare (NOTIFICATION_text_scored ++ UNSUBSCRIBE_text.data) = assemble tn1Segs := by
  rw [prepare_eq_join, tn1Lines]
  rw [show trimEmpty (tn1L.map strip) = tn1M from by decide]
  rfl

set_option maxRecDepth 200000 in
theorem hn1SplitEq : prepare (NOTIFICATION_html_scored ++ UNSUBSCRIBE_html.data) = assemble hn1Segs := by
  rw [prepare_eq_join, hn1Lines]
  rw [show trimEmpty (hn1L.map strip) = hn1M from by decide]
  rfl

set_option maxRecDepth 200000 in
theorem utSplitEq : prepare (UNSUBSCRIBE_text.data) = assemble utSegs := by
  rw [prepare_eq_join, utLines]
  rw [show trimEmpty (utL.map strip) = utM from by decide]
  rfl

set_option maxRecDepth 200000 in
theorem uhSplitEq : prepare (UNSUBSCRIBE_html.data) = assemble uhSegs := by
  rw [prepare_eq_join, uhLines]
  rw [show trimEmpty (uhL.map strip) = uhM from by decide]
  rfl

/-! ## Theorems: rendered shapes of the three operations -/

theorem get_reminder_eq (uid un : String) :
    get_reminder uid un = some (
      SUBJECT_TAG.data ++ ' ' :: REMINDER_subject.data,
      trS0 ++ un.data ++ trS2 ++ uid.data ++ trS4 ++ uid.data,
      hrS0 ++ un.data ++ hrS2 ++ uid.data ++ hrS4 ++ uid.data ++ hrS6 ++ uid.data ++ hrS8) := by
  simp only [get_reminder, compose]
  rw [trSplitEq, hrSplitEq]
  rw [pyFormat_assemble trSegs (by decide), pyFormat_assemble hrSegs (by decide)]
  simp [renderOpt, trSegs, hrSegs, pyRender, List.append_assoc]

theorem get_alert_eq (uid un : String) :
    get_alert uid un = some (
      SUBJECT_TAG.data ++ ' ' :: ALERT_subject.data,
      taS0 ++ un.data ++ taS2 ++ uid.data,
      haS0 ++ un.data ++ haS2 ++ uid.data ++ haS4) := by
  simp only [get_alert, compose]
  rw [taSplitEq, haSplitEq]
  rw [pyFormat_assemble taSegs (by decide), pyFormat_assemble haSegs (by decide)]
  simp [renderOpt, taSegs, haSegs, pyRender, List.append_assoc]

theorem get_notification_pos_eq (uid un : String) (ls lr ts tr : Int) (h : ls > 0) :
    get_notification uid un ls lr ts tr = some (
      SUBJECT_TAG.data ++ ' ' :: NOTIFICATION_subject.data,
      tn1S0 ++ un.data ++ tn1S2 ++ uid.data ++ tn1S4 ++ (toString ts).data ++ tn1S6 ++
        (toString tr).data ++ tn1S8 ++ uid.data ++ tn1S10 ++ uid.data,
      hn1S0 ++ un.data ++ hn1S2 ++ uid.data ++ hn1S4 ++ uid.data ++ hn1S6 ++
        (toString ts).data ++ hn1S8 ++ (toString tr).data ++ hn1S10 ++ uid.data ++
        hn1S12 ++ uid.data ++ hn1S14) := by
  simp only [get_notification]
  rw [if_pos h]
  simp only [compose]
  rw [repTextScored, repHtmlScored, tn1SplitEq, hn1SplitEq]
  rw [pyFormat_assemble tn1Segs (by decide), pyFormat_assemble hn1Segs (by decide)]
  simp [renderOpt, tn1Segs, hn1Segs, pyRender, List.append_assoc]

theorem get_notification_nonpos_eq (uid un : String) (ls lr ts tr : Int) (h : ¬ ls > 0) :
    get_notification uid un ls lr ts tr = some (
      SUBJECT_TAG.data ++ ' ' :: NOTIFICATION_subject.data,
      tn0S0 ++ un.data ++ tn0S2 ++ uid.data ++ tn0S4 ++ uid.data,
      hn0S0 ++ un.data ++ hn0S2 ++ uid.data ++ hn0S4 ++ uid.data ++ hn0S6 ++ uid.data ++ hn0S8) := by
  simp only [get_notification]
  rw [if_neg h]
  simp only [compose]
  rw [repTextUnscored, repHtmlUnscored, tn0SplitEq, hn0SplitEq]
  rw [pyFormat_assemble tn0Segs (by decide), pyFormat_assemble hn0Segs (by decide)]
  simp [renderOpt, tn0Segs, hn0Segs, pyRender, List.append_assoc]

/-! ## Theorems: substring and suffix helpers -/

theorem startsWith_self_append (p r : List Char) : startsWith p (p ++ r) = true := by
  induction p with
  | nil => rfl
  | cons c p ih => simp [startsWith, ih]

theorem endsWith_append_self (a p : List Char) : endsWith p (a ++ p) = true := by
  show startsWith p.reverse (a ++ p).reverse = true
  rw [List.reverse_append]
  exact startsWith_self_append p.reverse a.reverse

theorem containsSub_of_mid (p : List Char) :
    ∀ a b : List Char, containsSub p (a ++ (p ++ b)) = true := by
  intro a
  induction a with
  | nil =>
      intro b
      cases hp : p ++ b with
      | nil =>
          have hpe : p = [] := (List.append_eq_nil.mp hp).1
          subst hpe
          simp [containsSub, startsWith]
      | cons c cs =>
          show (startsWith p (c :: cs) || containsSub p cs) = true
          rw [← hp, startsWith_self_append]
          simp
  | cons c a ih =>
      intro b
      rw [List.cons_append]
      show (startsWith p (c :: (a ++ (p ++ b))) || containsSub p (a ++ (p ++ b))) = true
      rw [ih b]
      simp

theorem occurrences_append (p : List Char) :
    ∀ a b : List Char, occurrences p (a ++ b) = occurrencesB p b a + occurrences p b := by
  intro a
  induction a with
  | nil => intro b; simp [occurrencesB]
  | cons c cs ih =>
      intro b
      rw [List.cons_append]
      show ((if startsWith p (c :: (cs ++ b)) then 1 else 0) + occurrences p (cs ++ b)) =
        ((if startsWith p (c :: cs ++ b) then 1 else 0) + occurrencesB p b cs) + occurrences p b
      rw [ih b]
      simp [List.append_assoc, Nat.add_assoc]

/-! ## Theorems: the rendered unsubscribe fragments -/

theorem unsubTextRendered_eq (uid : String) :
    unsubTextRendered uid = some (utS0 ++ uid.data) := by
  rw [unsubTextRendered, utSplitEq, pyFormat_assemble utSegs (by decide)]
  simp [renderOpt, utSegs, pyRender]

theorem unsubHtmlRendered_eq (uid : String) :
    unsubHtmlRendered uid = some (uhS0 ++ uid.data ++ uhS2) := by
  rw [unsubHtmlRendered, uhSplitEq, pyFormat_assemble uhSegs (by decide)]
  simp [renderOpt, uhSegs, pyRender, List.append_assoc]

theorem taS2_eq : taS2 = taS2a ++ utS0 := by rfl
theorem trS4_eq : trS4 = trS4a ++ utS0 := by rfl
theorem tn0S4_eq : tn0S4 = tn0S4a ++ utS0 := by rfl
theorem tn1S10_eq : tn1S10 = tn1S10a ++ utS0 := by rfl
theorem haS2_eq : haS2 = haS2a ++ uhS0 := by rfl
theorem hrS6_eq : hrS6 = hrS6a ++ uhS0 := by rfl
theorem hn0S6_eq : hn0S6 = hn0S6a ++ uhS0 := by rfl
theorem hn1S12_eq : hn1S12 = hn1S12a ++ uhS0 := by rfl
theorem haS4_eq : haS4 = uhS2 := by rfl
theorem hrS8_eq : hrS8 = uhS2 := by rfl
theorem hn0S8_eq : hn0S8 = uhS2 := by rfl
theorem hn1S14_eq : hn1S14 = uhS2 := by rfl

/-! ## Claim theorems -/

/-- C7: each of `get_alert`, `get_notification` and `get_reminder` is
deterministic — two calls with identical arguments return identical
`(subject, text, html)` triples; the embedding is a pure function of its
arguments and the fixed templates. -/
theorem claim7_deterministic (uid un : String) (ls lr ts tr : Int) :
    get_alert uid un = get_alert uid un ∧
    get_notification uid un ls lr ts tr = get_notification uid un ls lr ts tr ∧
    get_reminder uid un = get_reminder uid un :=
  ⟨rfl, rfl, rfl⟩

/-- C8: the `last_rank` argument has no effect on the output of
`get_notification`; it is never substituted into the subject or either
body. -/
theorem claim8_last_rank_unused (uid un : String) (ls lr1 lr2 ts tr : Int) :
    get_notification uid un ls lr1 ts tr = get_notification uid un ls lr2 ts tr :=
  rfl

/-- C9: the line-normalization function `prepare` is idempotent. -/
theorem claim9_prepare_idempotent (s : List Char) :
    prepare (prepare s) = prepare s :=
  prepare_prepare s

/-- C10: the returned subject is a fixed constant per operation,
independent of every argument. -/
theorem claim10_subjects_constant (uid un : String) (ls lr ts tr : Int) :
    (∃ t h, get_alert uid un =
      some ("[Crowdcast] Crowdcast Needs Your Help".data, t, h)) ∧
    (∃ t h, get_notification uid un ls lr ts tr =
      some ("[Crowdcast] New Data Available (Deadline: Monday 10 AM)".data, t, h)) ∧
    (∃ t h, get_reminder uid un =
      some ("[Crowdcast] Forecasts Needed (Deadline: Monday 10AM)".data, t, h)) := by
  have ha : SUBJECT_TAG.data ++ ' ' :: ALERT_subject.data =
      "[Crowdcast] Crowdcast Needs Your Help".data := by decide
  have hn : SUBJECT_TAG.data ++ ' ' :: NOTIFICATION_subject.data =
      "[Crowdcast] New Data Available (Deadline: Monday 10 AM)".data := by decide
  have hr : SUBJECT_TAG.data ++ ' ' :: REMINDER_subject.data =
      "[Crowdcast] Forecasts Needed (Deadline: Monday 10AM)".data := by decide
  refine ⟨⟨_, _, by rw [get_alert_eq, ha]⟩, ?_, ⟨_, _, by rw [get_reminder_eq, hr]⟩⟩
  by_cases h : ls > 0
  · exact ⟨_, _, by rw [get_notification_pos_eq uid un ls lr ts tr h, hn]⟩
  · exact ⟨_, _, by rw [get_notification_nonpos_eq uid un ls lr ts tr h, hn]⟩

/-- C5: the returned subject equals the fixed tag, a single space, and the
selected template's subject, in that order; in particular it starts with
the tag followed by exactly one space. -/
theorem claim5_subject_format (uid un : String) (ls lr ts tr : Int) :
    (∃ s t h, get_alert uid un = some (s, t, h) ∧
      s = SUBJECT_TAG.data ++ ' ' :: ALERT_subject.data ∧
      startsWith (SUBJECT_TAG.data ++ [' ']) s = true) ∧
    (∃ s t h, get_notification uid un ls lr ts tr = some (s, t, h) ∧
      s = SUBJECT_TAG.data ++ ' ' :: NOTIFICATION_subject.data ∧
      startsWith (SUBJECT_TAG.data ++ [' ']) s = true) ∧
    (∃ s t h, get_reminder uid un = some (s, t, h) ∧
      s = SUBJECT_TAG.data ++ ' ' :: REMINDER_subject.data ∧
      startsWith (SUBJECT_TAG.data ++ [' ']) s = true) := by
  have key : ∀ subj : String, startsWith (SUBJECT_TAG.data ++ [' '])
      (SUBJECT_TAG.data ++ ' ' :: subj.data) = true := by
    intro subj
    have h2 : SUBJECT_TAG.data ++ ' ' :: subj.data =
        (SUBJECT_TAG.data ++ [' ']) ++ subj.data := by simp
    rw [h2]
    exact startsWith_self_append _ _
  refine ⟨⟨_, _, _, get_alert_eq uid un, rfl, key _⟩, ?_,
    ⟨_, _, _, get_reminder_eq uid un, rfl, key _⟩⟩
  by_cases h : ls > 0
  · exact ⟨_, _, _, get_notification_pos_eq uid un ls lr ts tr h, rfl, key _⟩
  · exact ⟨_, _, _, get_notification_nonpos_eq uid un ls lr ts tr h, rfl, key _⟩

/-- C4: every returned text body ends with the rendered text unsubscribe
fragment and every returned html body ends with the rendered html
unsubscribe fragment, each containing the literal user id passed in. -/
theorem claim4_unsubscribe_suffix (uid un : String) (ls lr ts tr : Int) :
    (∃ s t h ft fh, get_alert uid un = some (s, t, h) ∧
      unsubTextRendered uid = some ft ∧ unsubHtmlRendered uid = some fh ∧
      endsWith ft t = true ∧ endsWith fh h = true ∧
      containsSub uid.data ft = true ∧ containsSub uid.data fh = true) ∧
    (∃ s t h ft fh, get_notification uid un ls lr ts tr = some (s, t, h) ∧
      unsubTextRendered uid = some ft ∧ unsubHtmlRendered uid = some fh ∧
      endsWith ft t = true ∧ endsWith fh h = true ∧
      containsSub uid.data ft = true ∧ containsSub uid.data fh = true) ∧
    (∃ s t h ft fh, get_reminder uid un = some (s, t, h) ∧
      unsubTextRendered uid = some ft ∧ unsubHtmlRendered uid = some fh ∧
      endsWith ft t = true ∧ endsWith fh h = true ∧
      containsSub uid.data ft = true ∧ containsSub uid.data fh = true) := by
  have hcf : containsSub uid.data (utS0 ++ uid.data) = true := by
    have h0 := containsSub_of_mid uid.data utS0 []
    simpa using h0
  have hch : containsSub uid.data (uhS0 ++ uid.data ++ uhS2) = true := by
    have h0 := containsSub_of_mid uid.data uhS0 uhS2
    simpa [List.append_assoc] using h0
  refine ⟨?_, ?_, ?_⟩
  · refine ⟨_, _, _, _, _, get_alert_eq uid un, unsubTextRendered_eq uid,
      unsubHtmlRendered_eq uid, ?_, ?_, hcf, hch⟩
    · rw [show taS0 ++ un.data ++ taS2 ++ uid.data =
        (taS0 ++ un.data ++ taS2a) ++ (utS0 ++ uid.data) from by
          rw [taS2_eq]; simp [List.append_assoc]]
      exact endsWith_append_self _ _
    · rw [show haS0 ++ un.data ++ haS2 ++ uid.data ++ haS4 =
        (haS0 ++ un.data ++ haS2a) ++ (uhS0 ++ uid.data ++ uhS2) from by
          rw [haS2_eq, haS4_eq]; simp [List.append_assoc]]
      exact endsWith_append_self _ _
  · by_cases h : ls > 0
    · refine ⟨_, _, _, _, _, get_notification_pos_eq uid un ls lr ts tr h,
        unsubTextRendered_eq uid, unsubHtmlRendered_eq uid, ?_, ?_, hcf, hch⟩
      · rw [show tn1S0 ++ un.data ++ tn1S2 ++ uid.data ++ tn1S4 ++ (toString ts).data ++
          tn1S6 ++ (toString tr).data ++ tn1S8 ++ uid.data ++ tn1S10 ++ uid.data =
          (tn1S0 ++ un.data ++ tn1S2 ++ uid.data ++ tn1S4 ++ (toString ts).data ++
            tn1S6 ++ (toString tr).data ++ tn1S8 ++ uid.data ++ tn1S10a) ++
          (utS0 ++ uid.data) from by
            rw [tn1S10_eq]; simp [List.append_assoc]]
        exact endsWith_append_self _ _
      · rw [show hn1S0 ++ un.data ++ hn1S2 ++ uid.data ++ hn1S4 ++ uid.data ++ hn1S6 ++
          (toString ts).data ++ hn1S8 ++ (toString tr).data ++ hn1S10 ++ uid.data ++
          hn1S12 ++ uid.data ++ hn1S14 =
          (hn1S0 ++ un.data ++ hn1S2 ++ uid.data ++ hn1S4 ++ uid.data ++ hn1S6 ++
            (toString ts).data ++ hn1S8 ++ (toString tr).data ++ hn1S10 ++ uid.data ++
            hn1S12a) ++ (uhS0 ++ uid.data ++ uhS2) from by
            rw [hn1S12_eq, hn1S14_eq]; simp [List.append_assoc]]
        exact endsWith_append_self _ _
    · refine ⟨_, _, _, _, _, get_notification_nonpos_eq uid un ls lr ts tr h,
        unsubTextRendered_eq uid, unsubHtmlRendered_eq uid, ?_, ?_, hcf, hch⟩
      · rw [show tn0S0 ++ un.data ++ tn0S2 ++ uid.data ++ tn0S4 ++ uid.data =
          (tn0S0 ++ un.data ++ tn0S2 ++ uid.data ++ tn0S4a) ++ (utS0 ++ uid.data) from by
            rw [tn0S4_eq]; simp [List.append_assoc]]
        exact endsWith_append_self _ _
      · rw [show hn0S0 ++ un.data ++ hn0S2 ++ uid.data ++ hn0S4 ++ uid.data ++ hn0S6 ++
          uid.data ++ hn0S8 =
          (hn0S0 ++ un.data ++ hn0S2 ++ uid.data ++ hn0S4 ++ uid.data ++ hn0S6a) ++
          (uhS0 ++ uid.data ++ uhS2) from by
            rw [hn0S6_eq, hn0S8_eq]; simp [List.append_assoc]]
        exact endsWith_append_self _ _
  · refine ⟨_, _, _, _, _, get_reminder_eq uid un, unsubTextRendered_eq uid,
      unsubHtmlRendered_eq uid, ?_, ?_, hcf, hch⟩
    · rw [show trS0 ++ un.data ++ trS2 ++ uid.data ++ trS4 ++ uid.data =
        (trS0 ++ un.data ++ trS2 ++ uid.data ++ trS4a) ++ (utS0 ++ uid.data) from by
          rw [trS4_eq]; simp [List.append_assoc]]
      exact endsWith_append_self _ _
    · rw [show hrS0 ++ un.data ++ hrS2 ++ uid.data ++ hrS4 ++ uid.data ++ hrS6 ++
        uid.data ++ hrS8 =
        (hrS0 ++ un.data ++ hrS2 ++ uid.data ++ hrS4 ++ uid.data ++ hrS6a) ++
        (uhS0 ++ uid.data ++ uhS2) from by
          rw [hrS6_eq, hrS8_eq]; simp [List.append_assoc]]
      exact endsWith_append_self _ _

set_option maxRecDepth 400000 in
/-- C6: the concrete reminder example — `get_reminder "u123" "Jane"` has
"Jane" and "u123" exactly once each in the text body outside the
unsubscribe footer, the footer URL ends in `user=u123`, and the html body
has "u123" twice outside the footer. -/
theorem claim6_reminder_example :
    ∃ t h ft fh pre preh,
      get_reminder "u123" "Jane" =
        some ("[Crowdcast] Forecasts Needed (Deadline: Monday 10AM)".data, t, h) ∧
      unsubTextRendered "u123" = some ft ∧ t = pre ++ ft ∧
      occurrences "Jane".data pre = 1 ∧ occurrences "u123".data pre = 1 ∧
      endsWith "user=u123".data t = true ∧
      unsubHtmlRendered "u123" = some fh ∧ h = preh ++ fh ∧
      occurrences "u123".data preh = 2 := by
  have hsub : SUBJECT_TAG.data ++ ' ' :: REMINDER_subject.data =
      "[Crowdcast] Forecasts Needed (Deadline: Monday 10AM)".data := by decide
  refine ⟨trS0 ++ "Jane".data ++ trS2 ++ "u123".data ++ trS4 ++ "u123".data,
    hrS0 ++ "Jane".data ++ hrS2 ++ "u123".data ++ hrS4 ++ "u123".data ++ hrS6 ++
      "u123".data ++ hrS8,
    utS0 ++ "u123".data, uhS0 ++ "u123".data ++ uhS2,
    trS0 ++ "Jane".data ++ trS2 ++ "u123".data ++ trS4a,
    hrS0 ++ "Jane".data ++ hrS2 ++ "u123".data ++ hrS4 ++ "u123".data ++ hrS6a,
    ?_, unsubTextRendered_eq "u123", ?_, ?_, ?_, ?_, unsubHtmlRendered_eq "u123", ?_, ?_⟩
  · rw [get_reminder_eq, hsub]
  · rw [trS4_eq]; simp [List.append_assoc]
  · decide
  · decide
  · rw [show trS0 ++ "Jane".data ++ trS2 ++ "u123".data ++ trS4 ++ "u123".data =
      (trS0 ++ "Jane".data ++ trS2 ++ "u123".data ++ trS4a ++ utS0b) ++
        "user=u123".data from by
        rw [trS4_eq, show utS0 = utS0b ++ "user=".data from rfl]
        simp [List.append_assoc]]
    exact endsWith_append_self _ _
  · rw [hrS6_eq, hrS8_eq]; simp [List.append_assoc]
  · decide

/-! ## Theorems: characters of rendered integers -/

theorem digitChar_not_ws (m : Nat) : isPyWs (Nat.digitChar m) = false := by
  match m with
  | 0 => decide
  | 1 => decide
  | 2 => decide
  | 3 => decide
  | 4 => decide
  | 5 => decide
  | 6 => decide
  | 7 => decide
  | 8 => decide
  | 9 => decide
  | 10 => decide
  | 11 => decide
  | 12 => decide
  | 13 => decide
  | 14 => decide
  | 15 => decide
  | n + 16 =>
    unfold Nat.digitChar
    iterate 16 rw [if_neg (by omega)]
    decide

theorem toDigitsCore_not_ws :
    ∀ (fuel n : Nat) (ds : List Char), (∀ c ∈ ds, isPyWs c = false) →
      ∀ c ∈ Nat.toDigitsCore 10 fuel n ds, isPyWs c = false := by
  intro fuel
  induction fuel with
  | zero =>
      intro n ds hds c hc
      exact hds c (by simpa [Nat.toDigitsCore] using hc)
  | succ f ih =>
      intro n ds hds c hc
      simp only [Nat.toDigitsCore] at hc
      split at hc
      · rcases List.mem_cons.mp hc with h1 | h2
        · subst h1; exact digitChar_not_ws _
        · exact hds c h2
      · refine ih (n / 10) (Nat.digitChar (n % 10) :: ds) ?_ c hc
        intro d hd
        rcases List.mem_cons.mp hd with h1 | h2
        · subst h1; exact digitChar_not_ws _
        · exact hds d h2

theorem toDigitsCore_length :
    ∀ (fuel n : Nat) (ds : List Char), 1 ≤ fuel →
      ds.length + 1 ≤ (Nat.toDigitsCore 10 fuel n ds).length := by
  intro fuel
  induction fuel with
  | zero => intro n ds h; omega
  | succ f ih =>
      intro n ds _
      simp only [Nat.toDigitsCore]
      split
      · simp
      · cases f with
        | zero =>
            simp [Nat.toDigitsCore]
        | succ f' =>
            have h2 := ih (n / 10) (Nat.digitChar (n % 10) :: ds) (by omega)
            simp only [List.length_cons] at h2
            omega

theorem intRender_not_ws (n : Int) : ∀ c ∈ (toString n).data, isPyWs c = false := by
  cases n with
  | ofNat m =>
      show ∀ c ∈ (Nat.repr m).data, isPyWs c = false
      intro c hc
      exact toDigitsCore_not_ws (m + 1) m [] (by simp) c hc
  | negSucc m =>
      show ∀ c ∈ ("-" ++ Nat.repr (m + 1)).data, isPyWs c = false
      intro c hc
      rw [String.data_append] at hc
      rcases List.mem_append.mp hc with h1 | h1
      · have : c = '-' := by simpa using h1
        subst this; decide
      · exact toDigitsCore_not_ws (m + 2) (m + 1) [] (by simp) c h1

theorem intRender_ne_nil (n : Int) : (toString n).data ≠ [] := by
  cases n with
  | ofNat m =>
      show (Nat.repr m).data ≠ []
      intro he
      have h2 := toDigitsCore_length (m + 1) m [] (by omega)
      rw [show (Nat.repr m).data = Nat.toDigitsCore 10 (m + 1) m [] from rfl] at he
      rw [he] at h2
      simp at h2
  | negSucc m =>
      show ("-" ++ Nat.repr (m + 1)).data ≠ []
      rw [String.data_append]
      simp

/-! ## Theorems: pairwise CRLF well-formedness -/

theorem spaceLike_false_of_not_ws (c : Char) (h : isPyWs c = false) :
    spaceLike c = false := by
  simp only [isPyWs, Bool.or_eq_false_iff] at h
  simp [spaceLike, h.1.1.1.1.1, h.1.1.1.1.2, h.2, h.1.2]

theorem not_ws_of_parts (c : Char) (h1 : spaceLike c = false) (h2 : ¬ c = '\n')
    (h3 : ¬ c = '\r') : isPyWs c = false := by
  simp only [spaceLike, Bool.or_eq_false_iff] at h1
  simp [isPyWs, h1.1.1.1, h1.1.1.2, h1.1.2, h1.2, h2, h3]

theorem not_nl_of_not_ws (c : Char) (h : isPyWs c = false) : ¬ c = '\n' := by
  intro he; subst he; simp [isPyWs] at h

theorem not_cr_of_not_ws (c : Char) (h : isPyWs c = false) : ¬ c = '\r' := by
  intro he; subst he; simp [isPyWs] at h

theorem okPair_of_facts (a b : Char) (ha1 : ¬ a = '\r') (hb1 : ¬ b = '\n')
    (h3 : a = '\n' → spaceLike b = false)
    (h4 : b = '\r' → spaceLike a = false) : okPair a b = true := by
  simp [okPair, ha1, hb1]
  constructor
  · by_cases ha : a = '\n'
    · exact Or.inr (h3 ha)
    · exact Or.inl ha
  · by_cases hb : b = '\r'
    · exact Or.inr (h4 hb)
    · exact Or.inl hb

theorem pairsOk_tail (c : Char) (rest : List Char) (h : pairsOk (c :: rest) = true) :
    pairsOk rest = true := by
  cases rest with
  | nil => rfl
  | cons d rest' =>
      have h2 : (okPair c d && pairsOk (d :: rest')) = true := h
      have h3 : okPair c d = true ∧ pairsOk (d :: rest') = true := by simpa using h2
      exact h3.2

theorem pairsOk_glue :
    ∀ a b : List Char, pairsOk a = true → pairsOk b = true →
      (∀ x y, a.getLast? = some x → b.head? = some y → okPair x y = true) →
      pairsOk (a ++ b) = true := by
  intro a
  induction a with
  | nil => intro b _ hb _; exact hb
  | cons x a' ih =>
      intro b ha hb hglue
      cases a' with
      | nil =>
          cases b with
          | nil => rfl
          | cons y b' =>
              show (okPair x y && pairsOk (y :: b')) = true
              rw [hglue x y rfl rfl, hb]
              rfl
      | cons x2 a'' =>
          have ha2 : (okPair x x2 && pairsOk (x2 :: a'')) = true := ha
          obtain ⟨hp, ha3⟩ : okPair x x2 = true ∧ pairsOk (x2 :: a'') = true := by
            simpa using ha2
          have hrec := ih b ha3 hb (fun u v hu hv => hglue u v (by
            rw [List.getLast?_cons_cons]
            exact hu) hv)
          show (okPair x x2 && pairsOk (x2 :: a'' ++ b)) = true
          rw [hp, hrec]
          rfl

theorem pairsOk_no_crlf (v : List Char) (h1 : '\n' ∉ v) (h2 : '\r' ∉ v) :
    pairsOk v = true := by
  induction v with
  | nil => rfl
  | cons a v' ih =>
      cases v' with
      | nil => rfl
      | cons b v'' =>
          have ha1 : ¬ a = '\r' := fun e => h2 (e ▸ List.mem_cons_self a _)
          have ha2 : ¬ a = '\n' := fun e => h1 (e ▸ List.mem_cons_self a _)
          have hb1 : ¬ b = '\n' := fun e =>
            h1 (List.mem_cons_of_mem a (e ▸ List.mem_cons_self b _))
          have hb2 : ¬ b = '\r' := fun e =>
            h2 (List.mem_cons_of_mem a (e ▸ List.mem_cons_self b _))
          show (okPair a b && pairsOk (b :: v'')) = true
          rw [okPair_of_facts a b ha1 hb1 (fun e => absurd e ha2) (fun e => absurd e hb2)]
          rw [ih (fun e => h1 (List.mem_cons_of_mem a e))
                (fun e => h2 (List.mem_cons_of_mem a e))]
          rfl

/-! ## Theorems: rendering against a well-formed segment list is normalized -/

theorem valNice_render (v : PyVal) (hv : valNice v) :
    pyRender v ≠ [] ∧ (∀ c ∈ pyRender v, ¬ c = '\n' ∧ ¬ c = '\r') ∧
    (∀ c, (pyRender v).head? = some c → isPyWs c = false) ∧
    (∀ c, (pyRender v).getLast? = some c → isPyWs c = false) := by
  cases v with
  | str s =>
      obtain ⟨⟨hstrip, hnl, hcr⟩, hne⟩ := hv
      refine ⟨hne, ?_, ?_, ?_⟩
      · intro c hc
        exact ⟨fun e => hnl (e ▸ hc), fun e => hcr (e ▸ hc)⟩
      · exact head_not_ws_of_strip _ hstrip
      · exact getLast_not_ws_of_strip _ hstrip
  | int n =>
      refine ⟨intRender_ne_nil n, ?_, ?_, ?_⟩
      · intro c hc
        have hw := intRender_not_ws n c hc
        exact ⟨not_nl_of_not_ws c hw, not_cr_of_not_ws c hw⟩
      · intro c hc
        cases hd : (pyRender (PyVal.int n)) with
        | nil => rw [hd] at hc; simp at hc
        | cons a as =>
            rw [hd] at hc
            have hca : a = c := by simpa using hc
            refine intRender_not_ws n c ?_
            rw [show (toString n).data = pyRender (PyVal.int n) from rfl, hd, ← hca]
            exact List.mem_cons_self a as
      · intro c hc
        have hmem : c ∈ pyRender (PyVal.int n) := by
          rw [List.getLast?_eq_getLast (pyRender (PyVal.int n))
            (fun he => intRender_ne_nil n he)] at hc
          have hce : (pyRender (PyVal.int n)).getLast
              (fun he => intRender_ne_nil n he) = c := by simpa using hc
          rw [← hce]
          exact List.getLast_mem _
        exact intRender_not_ws n c hmem

theorem renderOpt_pairs_step (p : PrevC) (u r' : List Char)
    (hne : u ≠ []) (hchars : ∀ c ∈ u, ¬ c = '\n' ∧ ¬ c = '\r')
    (hhead : ∀ c, u.head? = some c → isPyWs c = false)
    (hlast : ∀ c, u.getLast? = some c → isPyWs c = false)
    (hph : phOk p = true) (hp' : pairsOk r' = true)
    (hh' : ∀ c, r'.head? = some c → nextOk PrevC.val c = true)
    (hl' : ∀ c, r'.getLast? = some c → isPyWs c = false) :
    pairsOk (u ++ r') = true ∧
    (∀ c, (u ++ r').head? = some c → nextOk p c = true) ∧
    (∀ c, (u ++ r').getLast? = some c → isPyWs c = false) ∧
    (u ++ r' = [] → endOk p = true) := by
  refine ⟨?_, ?_, ?_, ?_⟩
  · refine pairsOk_glue u r' (pairsOk_no_crlf u ?_ ?_) hp' ?_
    · intro hmem; exact (hchars '\n' hmem).1 rfl
    · intro hmem; exact (hchars '\r' hmem).2 rfl
    · intro x y hx hy
      have hxw : isPyWs x = false := hlast x hx
      have hxmem : x ∈ u := by
        rw [List.getLast?_eq_getLast u hne] at hx
        have hce : u.getLast hne = x := by simpa using hx
        rw [← hce]; exact List.getLast_mem _
      have hyn : ¬ y = '\n' := by simpa [nextOk] using hh' y hy
      exact okPair_of_facts x y (hchars x hxmem).2 hyn
        (fun e => absurd e (hchars x hxmem).1)
        (fun _ => spaceLike_false_of_not_ws x hxw)
  · intro d hd
    cases hu : u with
    | nil => exact absurd hu hne
    | cons u0 us =>
        rw [hu] at hd
        have hdu : d = u0 := ((by simpa using hd : u0 = d)).symm
        subst hdu
        have hu0 : isPyWs d = false := by
          apply hhead; rw [hu]; rfl
        have hd1 : ¬ d = '\n' := not_nl_of_not_ws d hu0
        have hd2 : ¬ d = '\r' := not_cr_of_not_ws d hu0
        cases p with
        | start =>
            show (!isPyWs d : Bool) = true
            simp [hu0]
        | lit q =>
            have hq : ¬ q = '\r' := by simpa [phOk] using hph
            show okPair q d = true
            exact okPair_of_facts q d hq hd1
              (fun _ => spaceLike_false_of_not_ws d hu0)
              (fun e => absurd e hd2)
        | val =>
            show (!(d = '\n') : Bool) = true
            simp [hd1]
  · intro d hd
    cases hr'' : r' with
    | nil =>
        subst hr''
        rw [List.append_nil] at hd
        exact hlast d hd
    | cons e r''' =>
        rw [hr''] at hd
        rw [List.getLast?_append_of_ne_nil _ (by simp)] at hd
        rw [← hr''] at hd
        exact hl' d hd
  · intro he
    exact absurd (List.append_eq_nil.mp he).1 hne

theorem renderOpt_pairs :
    ∀ (L : List Seg) (p : PrevC) (vs : List PyVal) (r : List Char),
      renderOpt L vs = some r → (∀ v ∈ vs, valNice v) → tmplOkSegs p L = true →
      pairsOk r = true ∧
      (∀ c, r.head? = some c → nextOk p c = true) ∧
      (∀ c, r.getLast? = some c → isPyWs c = false) ∧
      (r = [] → endOk p = true) := by
  intro L
  induction L with
  | nil =>
      intro p vs r hr _ hok
      cases vs with
      | nil =>
          have hre : [] = r := by simpa [renderOpt] using hr
          subst hre
          exact ⟨rfl, by intro c hc; simp at hc, by intro c hc; simp at hc,
            fun _ => hok⟩
      | cons v vs' => exact absurd hr (by simp [renderOpt])
  | cons sg rest ih =>
      intro p vs r hr hvs hok
      cases sg with
      | lit l =>
          obtain ⟨r', hr', hre⟩ : ∃ r', renderOpt rest vs = some r' ∧ r = l ++ r' := by
            have h2 : (renderOpt rest vs).map (fun x => l ++ x) = some r := hr
            obtain ⟨r', h3, h4⟩ := Option.map_eq_some'.mp h2
            exact ⟨r', h3, h4.symm⟩
          subst hre
          cases l with
          | nil =>
              have hok' : tmplOkSegs p rest = true := hok
              simpa using ih p vs r' hr' hvs hok'
          | cons c l' =>
              have hok2 : (nextOk p c && pairsOk (c :: l') &&
                  tmplOkSegs (PrevC.lit ((c :: l').getLastD 'x')) rest) = true := hok
              obtain ⟨⟨hnext, hpairs⟩, hok3⟩ :
                  (nextOk p c = true ∧ pairsOk (c :: l') = true) ∧
                  tmplOkSegs (PrevC.lit ((c :: l').getLastD 'x')) rest = true := by
                simpa using hok2
              obtain ⟨hp', hh', hl', he'⟩ := ih _ vs r' hr' hvs hok3
              have hglast : (c :: l').getLast? = some ((c :: l').getLastD 'x') := by
                rw [List.getLastD_eq_getLast?, List.getLast?_eq_getLast _ (by simp)]
                simp
              refine ⟨?_, ?_, ?_, ?_⟩
              · refine pairsOk_glue (c :: l') r' hpairs hp' ?_
                intro x y hx hy
                have hxe : (c :: l').getLastD 'x' = x := by
                  rw [hglast] at hx
                  simpa using hx
                rw [← hxe]
                have := hh' y hy
                simpa [nextOk] using this
              · intro d hd
                have hdc : c = d := by simpa using hd
                rw [← hdc]
                exact hnext
              · intro d hd
                cases hr'' : r' with
                | nil =>
                    subst hr''
                    have he2 := he' rfl
                    rw [List.append_nil] at hd
                    rw [hglast] at hd
                    have hde : (c :: l').getLastD 'x' = d := by simpa using hd
                    rw [← hde]
                    simpa [endOk] using he2
                | cons e r''' =>
                    rw [hr''] at hd
                    rw [List.getLast?_append_of_ne_nil _ (by simp)] at hd
                    rw [← hr''] at hd
                    exact hl' d hd
              · intro he
                simp at he
      | phS =>
          cases vs with
          | nil => exact absurd hr (by simp [renderOpt])
          | cons v vs' =>
              obtain ⟨r', hr', hre⟩ :
                  ∃ r', renderOpt rest vs' = some r' ∧ r = pyRender v ++ r' := by
                have h2 : (renderOpt rest vs').map (fun x => pyRender v ++ x) =
                    some r := hr
                obtain ⟨r', h3, h4⟩ := Option.map_eq_some'.mp h2
                exact ⟨r', h3, h4.symm⟩
              subst hre
              obtain ⟨hph, hok3⟩ : phOk p = true ∧ tmplOkSegs PrevC.val rest = true := by
                have hok2 : (phOk p && tmplOkSegs PrevC.val rest) = true := hok
                simpa using hok2
              obtain ⟨hne, hchars, hhead, hlast⟩ :=
                valNice_render v (hvs v (List.mem_cons_self v vs'))
              obtain ⟨hp', hh', hl', _⟩ := ih _ vs' r' hr'
                (fun w hw => hvs w (List.mem_cons_of_mem v hw)) hok3
              exact renderOpt_pairs_step p (pyRender v) r' hne hchars hhead hlast
                hph hp' hh' hl'
      | phD =>
          cases vs with
          | nil => exact absurd hr (by simp [renderOpt])
          | cons v vs' =>
              cases v with
              | str s => exact absurd hr (by simp [renderOpt])
              | int n =>
                  obtain ⟨r', hr', hre⟩ :
                      ∃ r', renderOpt rest vs' = some r' ∧
                        r = (toString n).data ++ r' := by
                    have h2 : (renderOpt rest vs').map
                        (fun x => (toString n).data ++ x) = some r := hr
                    obtain ⟨r', h3, h4⟩ := Option.map_eq_some'.mp h2
                    exact ⟨r', h3, h4.symm⟩
                  subst hre
                  obtain ⟨hph, hok3⟩ : phOk p = true ∧
                      tmplOkSegs PrevC.val rest = true := by
                    have hok2 : (phOk p && tmplOkSegs PrevC.val rest) = true := hok
                    simpa using hok2
                  obtain ⟨hne, hchars, hhead, hlast⟩ :=
                    valNice_render (PyVal.int n) trivial
                  obtain ⟨hp', hh', hl', _⟩ := ih _ vs' r' hr'
                    (fun w hw => hvs w (List.mem_cons_of_mem _ hw)) hok3
                  exact renderOpt_pairs_step p (pyRender (PyVal.int n)) r' hne hchars
                    hhead hlast hph hp' hh' hl'

/-! ## Theorems: from pairwise well-formedness to CRLF lines -/

theorem splitCRLF_structure :
    ∀ s : List Char,
      (splitCRLF s = [s] ∧ containsSub ['\r', '\n'] s = false) ∨
      (∃ l rest, s = l ++ '\r' :: '\n' :: rest ∧
        containsSub ['\r', '\n'] l = false ∧
        splitCRLF s = l :: splitCRLF rest) := by
  intro s
  induction s with
  | nil => left; exact ⟨rfl, rfl⟩
  | cons c s' ih =>
      cases s' with
      | nil =>
          left
          refine ⟨rfl, ?_⟩
          show (startsWith ['\r', '\n'] [c] || containsSub ['\r', '\n'] []) = false
          simp [startsWith, containsSub]
      | cons c2 s'' =>
          by_cases h : c = '\r' ∧ c2 = '\n'
          · right
            refine ⟨[], s'', by simp [h.1, h.2], rfl, ?_⟩
            rw [h.1, h.2]
            show splitCRLF ('\r' :: '\n' :: s'') = [] :: splitCRLF s''
            simp [splitCRLF]
          · have hstep : splitCRLF (c :: c2 :: s'') =
                consHead c (splitCRLF (c2 :: s'')) := by
              simp [splitCRLF, h]
            have hsw : startsWith ['\r', '\n'] (c :: c2 :: s'') = false := by
              simp [startsWith]
              intro h1 h2
              exact absurd ⟨h1.symm, h2.symm⟩ h
            rcases ih with ⟨hsp, hnc⟩ | ⟨l, rest, hse, hnc, hsp⟩
            · left
              rw [hstep, hsp]
              refine ⟨rfl, ?_⟩
              show (startsWith ['\r', '\n'] (c :: c2 :: s'') ||
                containsSub ['\r', '\n'] (c2 :: s'')) = false
              rw [hnc, hsw]
              rfl
            · right
              refine ⟨c :: l, rest, by rw [List.cons_append, ← hse], ?_, ?_⟩
              · show (startsWith ['\r', '\n'] (c :: l) ||
                  containsSub ['\r', '\n'] l) = false
                rw [hnc]
                have hsw2 : startsWith ['\r', '\n'] (c :: l) = false := by
                  cases hl : l with
                  | nil => simp [startsWith]
                  | cons d l'' =>
                      have hdc2 : d = c2 := by
                        rw [hl] at hse
                        injection hse with h1 h2
                        exact h1.symm
                      simp [startsWith]
                      intro h1 h2
                      exact absurd ⟨h1.symm, hdc2 ▸ h2.symm⟩ h
                rw [hsw2]
                rfl
              · rw [hstep, hsp]
                rfl

theorem okPair_facts (a b : Char) (h : okPair a b = true) :
    (a = '\r' → b = '\n') ∧ (b = '\n' → a = '\r') ∧
    (a = '\n' → spaceLike b = false) ∧ (b = '\r' → spaceLike a = false) := by
  simp only [okPair, Bool.and_eq_true] at h
  obtain ⟨⟨⟨h1, h2⟩, h3⟩, h4⟩ := h
  refine ⟨?_, ?_, ?_, ?_⟩
  · intro he; subst he; simpa using h1
  · intro he; subst he; simpa using h2
  · intro he; subst he; simpa using h3
  · intro he; subst he; simpa using h4

theorem pairsOk_cons_extract (a b : Char) (rest : List Char)
    (h : pairsOk (a :: b :: rest) = true) :
    okPair a b = true ∧ pairsOk (b :: rest) = true := by
  have h2 : (okPair a b && pairsOk (b :: rest)) = true := h
  simpa using h2

theorem pairsOk_left : ∀ a b : List Char, pairsOk (a ++ b) = true → pairsOk a = true := by
  intro a
  induction a with
  | nil => intro b _; rfl
  | cons x a' ih =>
      intro b h
      cases a' with
      | nil => rfl
      | cons y a'' =>
          have h2 : pairsOk (x :: y :: (a'' ++ b)) = true := h
          obtain ⟨hp, hrest⟩ := pairsOk_cons_extract x y (a'' ++ b) h2
          show (okPair x y && pairsOk (y :: a'')) = true
          rw [hp, ih b hrest]
          rfl

theorem pairsOk_right : ∀ a b : List Char, pairsOk (a ++ b) = true → pairsOk b = true := by
  intro a
  induction a with
  | nil => intro b h; exact h
  | cons x a' ih =>
      intro b h
      refine ih b ?_
      have h2 : pairsOk (x :: (a' ++ b)) = true := h
      exact pairsOk_tail x (a' ++ b) h2

theorem pairsOk_junction :
    ∀ (a : List Char) (x : Char) (b : List Char), pairsOk (a ++ x :: b) = true →
      ∀ c, a.getLast? = some c → okPair c x = true := by
  intro a
  induction a with
  | nil => intro x b _ c hc; simp at hc
  | cons y a' ih =>
      intro x b h c hc
      cases a' with
      | nil =>
          have hcy : y = c := by simpa using hc
          have h2 : pairsOk (y :: x :: b) = true := h
          rw [← hcy]
          exact (pairsOk_cons_extract y x b h2).1
      | cons z a'' =>
          rw [List.getLast?_cons_cons] at hc
          refine ih x b ?_ c hc
          have h2 : pairsOk (y :: ((z :: a'') ++ x :: b)) = true := h
          exact pairsOk_tail _ _ h2

theorem no_nl_aux :
    ∀ s : List Char, pairsOk s = true → (∀ c, s.head? = some c → ¬ c = '\n') →
      containsSub ['\r', '\n'] s = false → '\n' ∉ s := by
  intro s
  induction s with
  | nil => intro _ _ _; simp
  | cons c s' ih =>
      intro hp hh hnc
      have hc : ¬ c = '\n' := hh c rfl
      have h2 : (startsWith ['\r', '\n'] (c :: s') ||
          containsSub ['\r', '\n'] s') = false := hnc
      obtain ⟨hsw, hnc'⟩ := Bool.or_eq_false_iff.mp h2
      intro hmem
      rcases List.mem_cons.mp hmem with he | hm
      · exact hc he.symm
      · refine ih (pairsOk_tail c s' hp) ?_ hnc' hm
        intro d hd he
        subst he
        cases s' with
        | nil => simp at hd
        | cons e s'' =>
            have hde : e = '\n' := by simpa using hd
            have hop := (pairsOk_cons_extract c e s'' hp).1
            have hcr : c = '\r' := (okPair_facts c e hop).2.1 hde
            rw [hcr, hde] at hsw
            simp [startsWith] at hsw

theorem no_cr_aux :
    ∀ s : List Char, pairsOk s = true → containsSub ['\r', '\n'] s = false →
      (∀ c, s.getLast? = some c → ¬ c = '\r') → '\r' ∉ s := by
  intro s
  induction s with
  | nil => intro _ _ _; simp
  | cons c s' ih =>
      intro hp hnc hl
      have h2 : (startsWith ['\r', '\n'] (c :: s') ||
          containsSub ['\r', '\n'] s') = false := hnc
      obtain ⟨hsw, hnc'⟩ := Bool.or_eq_false_iff.mp h2
      intro hmem
      rcases List.mem_cons.mp hmem with he | hm
      · have hcr : c = '\r' := he.symm
        cases s' with
        | nil => exact hl c rfl hcr
        | cons e s'' =>
            have hop := (pairsOk_cons_extract c e s'' hp).1
            have hen : e = '\n' := (okPair_facts c e hop).1 hcr
            rw [hcr, hen] at hsw
            simp [startsWith] at hsw
      · cases s' with
        | nil => simp at hm
        | cons e s'' =>
            refine ih (pairsOk_tail c _ hp) hnc' ?_ hm
            intro d hd
            refine hl d ?_
            rw [List.getLast?_cons_cons]
            exact hd


theorem mem_of_head_eq {c : Char} : ∀ {s : List Char}, s.head? = some c → c ∈ s := by
  intro s h
  cases s with
  | nil => simp at h
  | cons x s' =>
      have hx : x = c := by simpa using h
      rw [hx]
      exact List.mem_cons_self c s'

theorem mem_of_getLast_eq {c : Char} {s : List Char} (h : s.getLast? = some c) : c ∈ s := by
  have hne : s ≠ [] := by intro e; subst e; simp at h
  rw [List.getLast?_eq_getLast s hne] at h
  injection h with h1
  rw [← h1]
  exact List.getLast_mem hne

theorem line_props_of_noCRLF (s : List Char) (hp : pairsOk s = true)
    (hnc : containsSub ['\r', '\n'] s = false)
    (hh : ∀ c, s.head? = some c → spaceLike c = false ∧ ¬ c = '\n')
    (hlast : ∀ c, s.getLast? = some c →
      spaceLike c = false ∧ ¬ c = '\n' ∧ ¬ c = '\r') :
    strip s = s ∧ '\n' ∉ s ∧ '\r' ∉ s := by
  have hnl : '\n' ∉ s := no_nl_aux s hp (fun c hc => (hh c hc).2) hnc
  have hcr : '\r' ∉ s := no_cr_aux s hp hnc (fun c hc => (hlast c hc).2.2)
  refine ⟨?_, hnl, hcr⟩
  refine strip_eq_self_of s ?_ ?_
  · intro c hc
    refine not_ws_of_parts c (hh c hc).1 (hh c hc).2 ?_
    intro he
    subst he
    exact hcr (mem_of_head_eq hc)
  · intro c hc
    exact not_ws_of_parts c (hlast c hc).1 (hlast c hc).2.1 (hlast c hc).2.2

theorem bridge_lines :
    ∀ (n : Nat) (s : List Char), s.length ≤ n → pairsOk s = true →
      (∀ c, s.head? = some c → spaceLike c = false ∧ ¬ c = '\n') →
      (∀ c, s.getLast? = some c → isPyWs c = false) →
      ∀ l ∈ splitCRLF s, strip l = l ∧ '\n' ∉ l ∧ '\r' ∉ l := by
  intro n
  induction n with
  | zero =>
      intro s hlen _ _ _ l hl
      have hs : s = [] := by
        cases s with
        | nil => rfl
        | cons a b => simp at hlen
      subst hs
      have hle : l = [] := by simpa [splitCRLF] using hl
      subst hle
      exact ⟨rfl, by simp, by simp⟩
  | succ n ih =>
      intro s hlen hp hh hlast l hl
      rcases splitCRLF_structure s with ⟨hsp, hnc⟩ | ⟨l0, rest, hse, hnc0, hsp⟩
      · rw [hsp] at hl
        have hls : l = s := by simpa using hl
        subst hls
        refine line_props_of_noCRLF l hp hnc hh ?_
        intro c hc
        exact ⟨spaceLike_false_of_not_ws c (hlast c hc),
          not_nl_of_not_ws c (hlast c hc), not_cr_of_not_ws c (hlast c hc)⟩
      · have hp0 : pairsOk l0 = true := by
          rw [hse] at hp
          exact pairsOk_left l0 _ hp
        have hpr2 : pairsOk ('\n' :: rest) = true := by
          rw [hse] at hp
          exact pairsOk_tail '\r' ('\n' :: rest) (pairsOk_right l0 _ hp)
        have hpr : pairsOk rest = true := pairsOk_tail '\n' rest hpr2
        rw [hsp] at hl
        rcases List.mem_cons.mp hl with hl0 | hlrest
        · subst hl0
          have hh0 : ∀ c, l.head? = some c → spaceLike c = false ∧ ¬ c = '\n' := by
            intro c hc
            refine hh c ?_
            rw [hse]
            cases l with
            | nil => simp at hc
            | cons a l' => simpa using hc
          have hj : ∀ c, l.getLast? = some c → okPair c '\r' = true := by
            intro c hc
            have hps : pairsOk (l ++ '\r' :: '\n' :: rest) = true := by
              rw [← hse]
              exact hp
            exact pairsOk_junction l '\r' ('\n' :: rest) hps c hc
          have hnl0 : '\n' ∉ l := no_nl_aux l hp0 (fun c hc => (hh0 c hc).2) hnc0
          have hlast0 : ∀ c, l.getLast? = some c →
              spaceLike c = false ∧ ¬ c = '\n' ∧ ¬ c = '\r' := by
            intro c hc
            have hf := okPair_facts c '\r' (hj c hc)
            refine ⟨hf.2.2.2 rfl, ?_, ?_⟩
            · intro he
              subst he
              exact hnl0 (mem_of_getLast_eq hc)
            · intro he
              subst he
              have hbad : ('\r' : Char) = '\n' := hf.1 rfl
              simp at hbad
          exact line_props_of_noCRLF l hp0 hnc0 hh0 hlast0
        · have hlen2 := hlen
          rw [hse] at hlen2
          simp [List.length_append] at hlen2
          have hlen' : rest.length ≤ n := by omega
          have hhr : ∀ c, rest.head? = some c → spaceLike c = false ∧ ¬ c = '\n' := by
            intro c hc
            cases rest with
            | nil => simp at hc
            | cons d rest' =>
                have hdc : d = c := by simpa using hc
                subst hdc
                have hf := okPair_facts '\n' d (pairsOk_cons_extract '\n' d rest' hpr2).1
                refine ⟨hf.2.2.1 rfl, ?_⟩
                intro he
                have hbad : ('\n' : Char) = '\r' := hf.2.1 he
                simp at hbad
          have hlr : ∀ c, rest.getLast? = some c → isPyWs c = false := by
            intro c hc
            cases rest with
            | nil => simp at hc
            | cons d rest' =>
                refine hlast c ?_
                rw [hse]
                have hne : ('\r' :: '\n' :: d :: rest') ≠ ([] : List Char) := by simp
                rw [List.getLast?_append_of_ne_nil l0 hne]
                rw [List.getLast?_cons_cons, List.getLast?_cons_cons]
                exact hc
          exact ih rest hlen' hpr hhr hlr l hlrest


theorem lineNormalized_of_render (L : List Seg) (vs : List PyVal) (r : List Char)
    (hr : renderOpt L vs = some r) (hvs : ∀ v ∈ vs, valNice v)
    (hok : tmplOkSegs PrevC.start L = true) : lineNormalized r := by
  obtain ⟨hp, hh, hl, _⟩ := renderOpt_pairs L PrevC.start vs r hr hvs hok
  have hh' : ∀ c, r.head? = some c → isPyWs c = false := by
    intro c hc
    have h2 := hh c hc
    simpa [nextOk] using h2
  constructor
  · exact bridge_lines r.length r le_rfl hp
      (fun c hc => ⟨spaceLike_false_of_not_ws c (hh' c hc),
        not_nl_of_not_ws c (hh' c hc)⟩) hl
  · exact strip_eq_self_of r hh' hl

set_option maxRecDepth 400000 in
theorem tmplOk_ta : tmplOkSegs PrevC.start taSegs = true := by decide

set_option maxRecDepth 400000 in
theorem tmplOk_ha : tmplOkSegs PrevC.start haSegs = true := by decide

set_option maxRecDepth 400000 in
theorem tmplOk_tr : tmplOkSegs PrevC.start trSegs = true := by decide

set_option maxRecDepth 400000 in
theorem tmplOk_hr : tmplOkSegs PrevC.start hrSegs = true := by decide

set_option maxRecDepth 400000 in
theorem tmplOk_tn0 : tmplOkSegs PrevC.start tn0Segs = true := by decide

set_option maxRecDepth 400000 in
theorem tmplOk_hn0 : tmplOkSegs PrevC.start hn0Segs = true := by decide

set_option maxRecDepth 400000 in
theorem tmplOk_tn1 : tmplOkSegs PrevC.start tn1Segs = true := by decide

set_option maxRecDepth 400000 in
theorem tmplOk_hn1 : tmplOkSegs PrevC.start hn1Segs = true := by decide


/-- C3: For calls of the three operations whose string arguments are
themselves normalized (stripped, free of CR and LF, and nonempty — amended
from "for every call", which fails e.g. for a user id with trailing
whitespace), each composed body is line-normalized: every CRLF-line is free
of leading/trailing whitespace and of stray CR/LF characters, and the whole
body has no leading or trailing whitespace. -/
theorem claim3_line_normalized (uid un : String) (ls lr ts tr : Int)
    (hu : cleanStr uid.data) (hu0 : uid.data ≠ [])
    (hn : cleanStr un.data) (hn0 : un.data ≠ []) :
    (∀ s t h, get_alert uid un = some (s, t, h) →
      lineNormalized t ∧ lineNormalized h) ∧
    (∀ s t h, get_notification uid un ls lr ts tr = some (s, t, h) →
      lineNormalized t ∧ lineNormalized h) ∧
    (∀ s t h, get_reminder uid un = some (s, t, h) →
      lineNormalized t ∧ lineNormalized h) := by
  have hvu : valNice (PyVal.str uid) := ⟨hu, hu0⟩
  have hvn : valNice (PyVal.str un) := ⟨hn, hn0⟩
  refine ⟨?_, ?_, ?_⟩
  · intro s t h hset
    have he := (get_alert_eq uid un).symm.trans hset
    simp only [Option.some.injEq, Prod.mk.injEq] at he
    obtain ⟨h1, h2, h3⟩ := he
    subst h2
    subst h3
    have hrT : renderOpt taSegs [PyVal.str un, PyVal.str uid] =
        some (taS0 ++ un.data ++ taS2 ++ uid.data) := by
      simp [renderOpt, taSegs, pyRender, List.append_assoc]
    have hrH : renderOpt haSegs [PyVal.str un, PyVal.str uid] =
        some (haS0 ++ un.data ++ haS2 ++ uid.data ++ haS4) := by
      simp [renderOpt, haSegs, pyRender, List.append_assoc]
    have hvs : ∀ v ∈ [PyVal.str un, PyVal.str uid], valNice v := by
      intro v hv
      rcases List.mem_cons.mp hv with h | h
      · rw [h]; exact hvn
      · rw [List.mem_singleton.mp h]; exact hvu
    exact ⟨lineNormalized_of_render taSegs _ _ hrT hvs tmplOk_ta,
      lineNormalized_of_render haSegs _ _ hrH hvs tmplOk_ha⟩
  · intro s t h hset
    by_cases hls : ls > 0
    · have he := (get_notification_pos_eq uid un ls lr ts tr hls).symm.trans hset
      simp only [Option.some.injEq, Prod.mk.injEq] at he
      obtain ⟨h1, h2, h3⟩ := he
      subst h2
      subst h3
      have hrT : renderOpt tn1Segs [PyVal.str un, PyVal.str uid, PyVal.int ts,
          PyVal.int tr, PyVal.str uid, PyVal.str uid] =
          some (tn1S0 ++ un.data ++ tn1S2 ++ uid.data ++ tn1S4 ++ (toString ts).data ++
            tn1S6 ++ (toString tr).data ++ tn1S8 ++ uid.data ++ tn1S10 ++ uid.data) := by
        simp [renderOpt, tn1Segs, pyRender, List.append_assoc]
      have hrH : renderOpt hn1Segs [PyVal.str un, PyVal.str uid, PyVal.str uid,
          PyVal.int ts, PyVal.int tr, PyVal.str uid, PyVal.str uid] =
          some (hn1S0 ++ un.data ++ hn1S2 ++ uid.data ++ hn1S4 ++ uid.data ++ hn1S6 ++
            (toString ts).data ++ hn1S8 ++ (toString tr).data ++ hn1S10 ++ uid.data ++
            hn1S12 ++ uid.data ++ hn1S14) := by
        simp [renderOpt, hn1Segs, pyRender, List.append_assoc]
      have hvs : ∀ v ∈ [PyVal.str un, PyVal.str uid, PyVal.int ts,
          PyVal.int tr, PyVal.str uid, PyVal.str uid], valNice v := by
        intro v hv
        simp only [List.mem_cons, List.not_mem_nil, or_false] at hv
        rcases hv with h | h | h | h | h | h
        all_goals rw [h]
        · exact hvn
        · exact hvu
        · exact trivial
        · exact trivial
        · exact hvu
        · exact hvu
      have hvs2 : ∀ v ∈ [PyVal.str un, PyVal.str uid, PyVal.str uid,
          PyVal.int ts, PyVal.int tr, PyVal.str uid, PyVal.str uid], valNice v := by
        intro v hv
        simp only [List.mem_cons, List.not_mem_nil, or_false] at hv
        rcases hv with h | h | h | h | h | h | h
        all_goals rw [h]
        · exact hvn
        · exact hvu
        · exact hvu
        · exact trivial
        · exact trivial
        · exact hvu
        · exact hvu
      exact ⟨lineNormalized_of_render tn1Segs _ _ hrT hvs tmplOk_tn1,
        lineNormalized_of_render hn1Segs _ _ hrH hvs2 tmplOk_hn1⟩
    · have he := (get_notification_nonpos_eq uid un ls lr ts tr hls).symm.trans hset
      simp only [Option.some.injEq, Prod.mk.injEq] at he
      obtain ⟨h1, h2, h3⟩ := he
      subst h2
      subst h3
      have hrT : renderOpt tn0Segs [PyVal.str un, PyVal.str uid, PyVal.str uid] =
          some (tn0S0 ++ un.data ++ tn0S2 ++ uid.data ++ tn0S4 ++ uid.data) := by
        simp [renderOpt, tn0Segs, pyRender, List.append_assoc]
      have hrH : renderOpt hn0Segs [PyVal.str un, PyVal.str uid, PyVal.str uid,
          PyVal.str uid] =
          some (hn0S0 ++ un.data ++ hn0S2 ++ uid.data ++ hn0S4 ++ uid.data ++
            hn0S6 ++ uid.data ++ hn0S8) := by
        simp [renderOpt, hn0Segs, pyRender, List.append_assoc]
      have hvs : ∀ v ∈ [PyVal.str un, PyVal.str uid, PyVal.str uid], valNice v := by
        intro v hv
        simp only [List.mem_cons, List.not_mem_nil, or_false] at hv
        rcases hv with h | h | h
        all_goals rw [h]
        · exact hvn
        · exact hvu
        · exact hvu
      have hvs2 : ∀ v ∈ [PyVal.str un, PyVal.str uid, PyVal.str uid,
          PyVal.str uid], valNice v := by
        intro v hv
        simp only [List.mem_cons, List.not_mem_nil, or_false] at hv
        rcases hv with h | h | h | h
        all_goals rw [h]
        · exact hvn
        · exact hvu
        · exact hvu
        · exact hvu
      exact ⟨lineNormalized_of_render tn0Segs _ _ hrT hvs tmplOk_tn0,
        lineNormalized_of_render hn0Segs _ _ hrH hvs2 tmplOk_hn0⟩
  · intro s t h hset
    have he := (get_reminder_eq uid un).symm.trans hset
    simp only [Option.some.injEq, Prod.mk.injEq] at he
    obtain ⟨h1, h2, h3⟩ := he
    subst h2
    subst h3
    have hrT : renderOpt trSegs [PyVal.str un, PyVal.str uid, PyVal.str uid] =
        some (trS0 ++ un.data ++ trS2 ++ uid.data ++ trS4 ++ uid.data) := by
      simp [renderOpt, trSegs, pyRender, List.append_assoc]
    have hrH : renderOpt hrSegs [PyVal.str un, PyVal.str uid, PyVal.str uid,
        PyVal.str uid] =
        some (hrS0 ++ un.data ++ hrS2 ++ uid.data ++ hrS4 ++ uid.data ++ hrS6 ++
          uid.data ++ hrS8) := by
      simp [renderOpt, hrSegs, pyRender, List.append_assoc]
    have hvs : ∀ v ∈ [PyVal.str un, PyVal.str uid, PyVal.str uid], valNice v := by
      intro v hv
      simp only [List.mem_cons, List.not_mem_nil, or_false] at hv
      rcases hv with h | h | h
      all_goals rw [h]
      · exact hvn
      · exact hvu
      · exact hvu
    have hvs2 : ∀ v ∈ [PyVal.str un, PyVal.str uid, PyVal.str uid,
        PyVal.str uid], valNice v := by
      intro v hv
      simp only [List.mem_cons, List.not_mem_nil, or_false] at hv
      rcases hv with h | h | h | h
      all_goals rw [h]
      · exact hvn
      · exact hvu
      · exact hvu
      · exact hvu
    exact ⟨lineNormalized_of_render trSegs _ _ hrT hvs tmplOk_tr,
      lineNormalized_of_render hrSegs _ _ hrH hvs2 tmplOk_hr⟩

/-- C3 witness: with the clean inputs `uid = "u1"`, `un = "Jane"` both
reminder bodies are line-normalized. -/
theorem claim3_witness :
    lineNormalized (trS0 ++ ("Jane" : String).data ++ trS2 ++ ("u1" : String).data ++
      trS4 ++ ("u1" : String).data) ∧
    lineNormalized (hrS0 ++ ("Jane" : String).data ++ hrS2 ++ ("u1" : String).data ++
      hrS4 ++ ("u1" : String).data ++ hrS6 ++ ("u1" : String).data ++ hrS8) :=
  (claim3_line_normalized "u1" "Jane" 1 2 3 4
    (by exact ⟨by decide, by decide, by decide⟩) (by decide)
    (by exact ⟨by decide, by decide, by decide⟩) (by decide)).2.2 _ _ _
    (get_reminder_eq "u1" "Jane")

/-- C3 counterexample to the unamended claim: a user id with trailing
whitespace yields a reminder text body that is not line-normalized. -/
theorem claim3_counterexample :
    ∃ s t h, get_reminder "u " "Jane" = some (s, t, h) ∧ ¬ lineNormalized t := by
  refine ⟨_, _, _, get_reminder_eq "u " "Jane", ?_⟩
  intro hln
  have ht : trS0 ++ ("Jane" : String).data ++ trS2 ++ ("u " : String).data ++
      trS4 ++ ("u " : String).data =
      (trS0 ++ ("Jane" : String).data ++ trS2 ++ ("u " : String).data ++ trS4) ++
        ("u " : String).data := by
    simp [List.append_assoc]
  have hstrip := hln.2
  rw [ht] at hstrip
  have hlast := getLast_not_ws_of_strip _ hstrip ' ' ?_
  · simp [isPyWs] at hlast
  · rw [List.getLast?_append_of_ne_nil _ (by decide : ("u " : String).data ≠ [])]
    decide


theorem containsSub_nil_pat : ∀ s : List Char, containsSub [] s = true := by
  intro s
  cases s with
  | nil => rfl
  | cons c cs => simp [containsSub, startsWith]

theorem containsSub_of_startsWith (p s : List Char) (h : startsWith p s = true) :
    containsSub p s = true := by
  cases s with
  | nil => exact h
  | cons c cs =>
      show (startsWith p (c :: cs) || containsSub p cs) = true
      rw [h]
      rfl

theorem startsWith_append_left :
    ∀ (q a r : List Char), startsWith q a = true → startsWith q (a ++ r) = true := by
  intro q
  induction q with
  | nil => intro a r _; rfl
  | cons q qs ih =>
      intro a r h
      cases a with
      | nil => simp [startsWith] at h
      | cons c a' =>
          have h2 : (decide (q = c) && startsWith qs a') = true := h
          obtain ⟨hqc, hrest⟩ : q = c ∧ startsWith qs a' = true := by simpa using h2
          show (decide (q = c) && startsWith qs (a' ++ r)) = true
          rw [hqc]
          simp [ih a' r hrest]

theorem startsWith_append_split :
    ∀ (a : List Char) (p b : List Char), startsWith p (a ++ b) = true →
      startsWith p a = true ∨
      (a.length < p.length ∧ p.take a.length = a ∧
        startsWith (p.drop a.length) b = true) := by
  intro a
  induction a with
  | nil =>
      intro p b h
      cases p with
      | nil => left; rfl
      | cons q qs => right; exact ⟨by simp, by simp, h⟩
  | cons c a' ih =>
      intro p b h
      cases p with
      | nil => left; rfl
      | cons q qs =>
          have h2 : (decide (q = c) && startsWith qs (a' ++ b)) = true := h
          obtain ⟨hqc, hrest⟩ : q = c ∧ startsWith qs (a' ++ b) = true := by simpa using h2
          rcases ih qs b hrest with h3 | ⟨hl, ht, hs⟩
          · left
            show (decide (q = c) && startsWith qs a') = true
            rw [hqc]
            simp [h3]
          · right
            refine ⟨by simpa using Nat.succ_lt_succ hl, ?_, ?_⟩
            · show (q :: qs).take (a'.length + 1) = c :: a'
              rw [List.take_succ_cons, ht, hqc]
            · show startsWith ((q :: qs).drop (a'.length + 1)) b = true
              simpa [List.drop_succ_cons] using hs

theorem startsWith_of_le (q a b : List Char) (h : startsWith q (a ++ b) = true)
    (hle : q.length ≤ a.length) : startsWith q a = true := by
  rcases startsWith_append_split a q b h with h2 | ⟨hl, _, _⟩
  · exact h2
  · omega

theorem endsWith_cons (q : List Char) (c : Char) (a : List Char)
    (h : endsWith q a = true) : endsWith q (c :: a) = true := by
  show startsWith q.reverse (c :: a).reverse = true
  rw [List.reverse_cons]
  exact startsWith_append_left q.reverse a.reverse [c] h

theorem containsSub_append_right (p a b : List Char) (h : containsSub p b = true) :
    containsSub p (a ++ b) = true := by
  induction a with
  | nil => exact h
  | cons c a' ih =>
      show (startsWith p (c :: (a' ++ b)) || containsSub p (a' ++ b)) = true
      rw [ih]
      exact Bool.or_true _

theorem containsSub_append_left (p : List Char) :
    ∀ (a b : List Char), containsSub p a = true → containsSub p (a ++ b) = true := by
  intro a
  induction a with
  | nil =>
      intro b h
      cases p with
      | nil => exact containsSub_nil_pat b
      | cons q qs => simp [containsSub, startsWith] at h
  | cons c a' ih =>
      intro b h
      have h2 : (startsWith p (c :: a') || containsSub p a') = true := h
      rcases (by simpa using h2 : startsWith p (c :: a') = true ∨ containsSub p a' = true)
        with hs | hc
      · refine containsSub_of_startsWith p ((c :: a') ++ b) ?_
        exact startsWith_append_left p (c :: a') b hs
      · show (startsWith p (c :: (a' ++ b)) || containsSub p (a' ++ b)) = true
        rw [ih b hc]
        exact Bool.or_true _

theorem containsSub_append_split (p : List Char) :
    ∀ (a b : List Char), containsSub p (a ++ b) = true →
      containsSub p a = true ∨ containsSub p b = true ∨
      ∃ i, 0 < i ∧ i < p.length ∧ endsWith (p.take i) a = true ∧
        startsWith (p.drop i) b = true := by
  intro a
  induction a with
  | nil => intro b h; exact Or.inr (Or.inl h)
  | cons c a' ih =>
      intro b h
      by_cases hs : startsWith p (c :: (a' ++ b)) = true
      · rcases startsWith_append_split (c :: a') p b hs with h3 | ⟨hl, ht, hsw⟩
        · exact Or.inl (containsSub_of_startsWith p (c :: a') h3)
        · refine Or.inr (Or.inr ⟨(c :: a').length, by simp, hl, ?_, hsw⟩)
          rw [ht]
          exact endsWith_append_self [] (c :: a')
      · rw [Bool.not_eq_true] at hs
        have hc : containsSub p (a' ++ b) = true := by
          have h3 : (startsWith p (c :: (a' ++ b)) || containsSub p (a' ++ b)) = true := h
          simpa [hs] using h3
        rcases ih b hc with h3 | h3 | ⟨i, hi0, hilen, he, hsw⟩
        · left
          show (startsWith p (c :: a') || containsSub p a') = true
          rw [h3]
          exact Bool.or_true _
        · exact Or.inr (Or.inl h3)
        · exact Or.inr (Or.inr ⟨i, hi0, hilen, endsWith_cons _ c _ he, hsw⟩)

theorem noPreEnd_spec (p x : List Char) (h : noPreEnd p x = true) :
    ∀ i, 0 < i → i < p.length → endsWith (p.take i) x = false := by
  intro i hi0 hilen
  have hm : i - 1 ∈ List.range (p.length - 1) := by
    rw [List.mem_range]
    omega
  have h2 : (!endsWith (p.take (i - 1 + 1)) x) = true := List.all_eq_true.mp h (i - 1) hm
  have h3 : i - 1 + 1 = i := by omega
  rw [h3] at h2
  simpa using h2

theorem noSufStart_spec (p x : List Char) (h : noSufStart p x = true) :
    ∀ i, 0 < i → i < p.length → startsWith (p.drop i) x = false := by
  intro i hi0 hilen
  have hm : i - 1 ∈ List.range (p.length - 1) := by
    rw [List.mem_range]
    omega
  have h2 : (!startsWith (p.drop (i - 1 + 1)) x) = true := List.all_eq_true.mp h (i - 1) hm
  have h3 : i - 1 + 1 = i := by omega
  rw [h3] at h2
  simpa using h2

theorem noSub_chain (p : List Char) :
    ∀ (ch : List (List Char × List Char)) (x0 : List Char),
      containsSub p x0 = false → noPreEnd p x0 = true → chainOk p ch →
      containsSub p (altChain x0 ch) = false := by
  intro ch
  induction ch with
  | nil =>
      intro x0 h1 _ _
      exact h1
  | cons ux rest ih =>
      obtain ⟨u, x⟩ := ux
      intro x0 h1 h2 hch
      obtain ⟨hcu, hcx, hss, hpe, hlen, hrest⟩ := hch
      by_contra hcon
      rw [Bool.not_eq_false] at hcon
      have hcon2 : containsSub p (x0 ++ (u ++ altChain x rest)) = true := by
        simpa [altChain] using hcon
      rcases containsSub_append_split p x0 (u ++ altChain x rest) hcon2 with
        hA | hB | ⟨i, hi0, hilen, he, _⟩
      · simp [h1] at hA
      · rcases containsSub_append_split p u (altChain x rest) hB with
          hU | hR | ⟨j, hj0, hjlen, _, hswr⟩
        · simp [hcu] at hU
        · simp [ih x hcx hpe hrest] at hR
        · cases rest with
          | nil =>
              have hswx : startsWith (p.drop j) x = true := by
                simpa [altChain] using hswr
              simp [noSufStart_spec p x hss j hj0 hjlen] at hswx
          | cons ux2 rest' =>
              obtain ⟨u2, x2⟩ := ux2
              have hplen : p.length ≤ x.length := by
                rcases hlen with h5 | h5
                · simp at h5
                · exact h5
              have h5 : startsWith (p.drop j) (x ++ (u2 ++ altChain x2 rest')) = true := by
                simpa [altChain] using hswr
              have hswx : startsWith (p.drop j) x = true := by
                refine startsWith_of_le _ _ _ h5 ?_
                rw [List.length_drop]
                omega
              simp [noSufStart_spec p x hss j hj0 hjlen] at hswx
      · simp [noPreEnd_spec p x0 h2 i hi0 hilen] at he

theorem containsSub_head_mem (c : Char) (ps : List Char) :
    ∀ s, containsSub (c :: ps) s = true → c ∈ s := by
  intro s
  induction s with
  | nil =>
      intro h
      simp [containsSub, startsWith] at h
  | cons d s' ih =>
      intro h
      have h2 : (startsWith (c :: ps) (d :: s') || containsSub (c :: ps) s') = true := h
      rcases (by simpa using h2 :
          startsWith (c :: ps) (d :: s') = true ∨ containsSub (c :: ps) s' = true)
        with h3 | h3
      · have h4 : (decide (c = d) && startsWith ps s') = true := h3
        obtain ⟨hcd, _⟩ : c = d ∧ startsWith ps s' = true := by simpa using h4
        rw [hcd]
        exact List.mem_cons_self d s'
      · exact List.mem_cons_of_mem d (ih h3)

theorem containsSub_false_of_head_notMem (c : Char) (ps s : List Char)
    (h : c ∉ s) : containsSub (c :: ps) s = false := by
  cases hc : containsSub (c :: ps) s
  · rfl
  · exact absurd (containsSub_head_mem c ps s hc) h


theorem containsSub_embed (p a m b : List Char) (h : containsSub p m = true) :
    containsSub p (a ++ (m ++ b)) = true :=
  containsSub_append_right p a (m ++ b) (containsSub_append_left p m b h)

set_option maxRecDepth 400000 in
/-- C1: For `get_notification`, under the amended hypotheses that neither
string argument itself contains the score phrase: if `last_score > 0`, both
returned bodies contain the score phrase and the rendered `total_score`,
`total_rank` and `user_id`; if `last_score <= 0`, neither body contains the
score phrase.  The branch condition is `last_score`, with `total_score` and
`total_rank` free. -/
theorem claim1_score_branch (uid un : String) (ls lr ts tr : Int)
    (hun : containsSub scorePhrase un.data = false)
    (huid : containsSub scorePhrase uid.data = false) :
    (ls > 0 → ∀ s t h, get_notification uid un ls lr ts tr = some (s, t, h) →
      (containsSub scorePhrase t = true ∧ containsSub (toString ts).data t = true ∧
        containsSub (toString tr).data t = true ∧ containsSub uid.data t = true) ∧
      (containsSub scorePhrase h = true ∧ containsSub (toString ts).data h = true ∧
        containsSub (toString tr).data h = true ∧ containsSub uid.data h = true)) ∧
    (¬ ls > 0 → ∀ s t h, get_notification uid un ls lr ts tr = some (s, t, h) →
      containsSub scorePhrase t = false ∧ containsSub scorePhrase h = false) := by
  constructor
  · intro hls s t h hset
    have he := (get_notification_pos_eq uid un ls lr ts tr hls).symm.trans hset
    simp only [Option.some.injEq, Prod.mk.injEq] at he
    obtain ⟨h1, h2, h3⟩ := he
    subst h2
    subst h3
    refine ⟨⟨?_, ?_, ?_, ?_⟩, ⟨?_, ?_, ?_, ?_⟩⟩
    · rw [show tn1S0 ++ un.data ++ tn1S2 ++ uid.data ++ tn1S4 ++ (toString ts).data ++
          tn1S6 ++ (toString tr).data ++ tn1S8 ++ uid.data ++ tn1S10 ++ uid.data =
          (tn1S0 ++ un.data ++ tn1S2 ++ uid.data) ++ (tn1S4 ++ ((toString ts).data ++
            tn1S6 ++ (toString tr).data ++ tn1S8 ++ uid.data ++ tn1S10 ++ uid.data))
          from by simp [List.append_assoc]]
      exact containsSub_embed scorePhrase _ tn1S4 _ (by decide)
    · rw [show tn1S0 ++ un.data ++ tn1S2 ++ uid.data ++ tn1S4 ++ (toString ts).data ++
          tn1S6 ++ (toString tr).data ++ tn1S8 ++ uid.data ++ tn1S10 ++ uid.data =
          (tn1S0 ++ un.data ++ tn1S2 ++ uid.data ++ tn1S4) ++ ((toString ts).data ++
            (tn1S6 ++ (toString tr).data ++ tn1S8 ++ uid.data ++ tn1S10 ++ uid.data))
          from by simp [List.append_assoc]]
      exact containsSub_of_mid (toString ts).data _ _
    · rw [show tn1S0 ++ un.data ++ tn1S2 ++ uid.data ++ tn1S4 ++ (toString ts).data ++
          tn1S6 ++ (toString tr).data ++ tn1S8 ++ uid.data ++ tn1S10 ++ uid.data =
          (tn1S0 ++ un.data ++ tn1S2 ++ uid.data ++ tn1S4 ++ (toString ts).data ++
            tn1S6) ++ ((toString tr).data ++ (tn1S8 ++ uid.data ++ tn1S10 ++ uid.data))
          from by simp [List.append_assoc]]
      exact containsSub_of_mid (toString tr).data _ _
    · rw [show tn1S0 ++ un.data ++ tn1S2 ++ uid.data ++ tn1S4 ++ (toString ts).data ++
          tn1S6 ++ (toString tr).data ++ tn1S8 ++ uid.data ++ tn1S10 ++ uid.data =
          (tn1S0 ++ un.data ++ tn1S2) ++ (uid.data ++ (tn1S4 ++ (toString ts).data ++
            tn1S6 ++ (toString tr).data ++ tn1S8 ++ uid.data ++ tn1S10 ++ uid.data))
          from by simp [List.append_assoc]]
      exact containsSub_of_mid uid.data _ _
    · rw [show hn1S0 ++ un.data ++ hn1S2 ++ uid.data ++ hn1S4 ++ uid.data ++ hn1S6 ++
          (toString ts).data ++ hn1S8 ++ (toString tr).data ++ hn1S10 ++ uid.data ++
          hn1S12 ++ uid.data ++ hn1S14 =
          (hn1S0 ++ un.data ++ hn1S2 ++ uid.data ++ hn1S4 ++ uid.data) ++ (hn1S6 ++
            ((toString ts).data ++ hn1S8 ++ (toString tr).data ++ hn1S10 ++ uid.data ++
              hn1S12 ++ uid.data ++ hn1S14))
          from by simp [List.append_assoc]]
      exact containsSub_embed scorePhrase _ hn1S6 _ (by decide)
    · rw [show hn1S0 ++ un.data ++ hn1S2 ++ uid.data ++ hn1S4 ++ uid.data ++ hn1S6 ++
          (toString ts).data ++ hn1S8 ++ (toString tr).data ++ hn1S10 ++ uid.data ++
          hn1S12 ++ uid.data ++ hn1S14 =
          (hn1S0 ++ un.data ++ hn1S2 ++ uid.data ++ hn1S4 ++ uid.data ++ hn1S6) ++
            ((toString ts).data ++ (hn1S8 ++ (toString tr).data ++ hn1S10 ++ uid.data ++
              hn1S12 ++ uid.data ++ hn1S14))
          from by simp [List.append_assoc]]
      exact containsSub_of_mid (toString ts).data _ _
    · rw [show hn1S0 ++ un.data ++ hn1S2 ++ uid.data ++ hn1S4 ++ uid.data ++ hn1S6 ++
          (toString ts).data ++ hn1S8 ++ (toString tr).data ++ hn1S10 ++ uid.data ++
          hn1S12 ++ uid.data ++ hn1S14 =
          (hn1S0 ++ un.data ++ hn1S2 ++ uid.data ++ hn1S4 ++ uid.data ++ hn1S6 ++
            (toString ts).data ++ hn1S8) ++ ((toString tr).data ++ (hn1S10 ++ uid.data ++
              hn1S12 ++ uid.data ++ hn1S14))
          from by simp [List.append_assoc]]
      exact containsSub_of_mid (toString tr).data _ _
    · rw [show hn1S0 ++ un.data ++ hn1S2 ++ uid.data ++ hn1S4 ++ uid.data ++ hn1S6 ++
          (toString ts).data ++ hn1S8 ++ (toString tr).data ++ hn1S10 ++ uid.data ++
          hn1S12 ++ uid.data ++ hn1S14 =
          (hn1S0 ++ un.data ++ hn1S2) ++ (uid.data ++ (hn1S4 ++ uid.data ++ hn1S6 ++
            (toString ts).data ++ hn1S8 ++ (toString tr).data ++ hn1S10 ++ uid.data ++
            hn1S12 ++ uid.data ++ hn1S14))
          from by simp [List.append_assoc]]
      exact containsSub_of_mid uid.data _ _
  · intro hls s t h hset
    have he := (get_notification_nonpos_eq uid un ls lr ts tr hls).symm.trans hset
    simp only [Option.some.injEq, Prod.mk.injEq] at he
    obtain ⟨h1, h2, h3⟩ := he
    subst h2
    subst h3
    constructor
    · rw [show tn0S0 ++ un.data ++ tn0S2 ++ uid.data ++ tn0S4 ++ uid.data =
          altChain tn0S0 [(un.data, tn0S2), (uid.data, tn0S4), (uid.data, [])]
          from by simp [altChain, List.append_assoc]]
      exact noSub_chain scorePhrase _ tn0S0 (by decide) (by decide)
        ⟨hun, by decide, by decide, by decide, Or.inr (by decide),
          huid, by decide, by decide, by decide, Or.inr (by decide),
          huid, by decide, by decide, by decide, Or.inl rfl, trivial⟩
    · rw [show hn0S0 ++ un.data ++ hn0S2 ++ uid.data ++ hn0S4 ++ uid.data ++ hn0S6 ++
          uid.data ++ hn0S8 =
          altChain hn0S0 [(un.data, hn0S2), (uid.data, hn0S4), (uid.data, hn0S6),
            (uid.data, hn0S8)]
          from by simp [altChain, List.append_assoc]]
      exact noSub_chain scorePhrase _ hn0S0 (by decide) (by decide)
        ⟨hun, by decide, by decide, by decide, Or.inr (by decide),
          huid, by decide, by decide, by decide, Or.inr (by decide),
          huid, by decide, by decide, by decide, Or.inr (by decide),
          huid, by decide, by decide, by decide, Or.inl rfl, trivial⟩


theorem digitChar_ne_pct_brace (m : Nat) :
    ¬ Nat.digitChar m = '%' ∧ ¬ Nat.digitChar m = '\x7b' := by
  match m with
  | 0 => decide
  | 1 => decide
  | 2 => decide
  | 3 => decide
  | 4 => decide
  | 5 => decide
  | 6 => decide
  | 7 => decide
  | 8 => decide
  | 9 => decide
  | 10 => decide
  | 11 => decide
  | 12 => decide
  | 13 => decide
  | 14 => decide
  | 15 => decide
  | n + 16 =>
    unfold Nat.digitChar
    iterate 16 rw [if_neg (by omega)]
    decide

theorem toDigitsCore_mem :
    ∀ (fuel n : Nat) (ds : List Char), ∀ c ∈ Nat.toDigitsCore 10 fuel n ds,
      c ∈ ds ∨ ∃ m, c = Nat.digitChar m := by
  intro fuel
  induction fuel with
  | zero =>
      intro n ds c hc
      exact Or.inl (by simpa [Nat.toDigitsCore] using hc)
  | succ f ih =>
      intro n ds c hc
      simp only [Nat.toDigitsCore] at hc
      split at hc
      · rcases List.mem_cons.mp hc with hc1 | hc2
        · exact Or.inr ⟨_, hc1⟩
        · exact Or.inl hc2
      · rcases ih (n / 10) (Nat.digitChar (n % 10) :: ds) c hc with hc1 | hc2
        · rcases List.mem_cons.mp hc1 with hc3 | hc4
          · exact Or.inr ⟨_, hc3⟩
          · exact Or.inl hc4
        · exact Or.inr hc2

theorem intRender_ne_pct_brace (n : Int) :
    ∀ c ∈ (toString n).data, ¬ c = '%' ∧ ¬ c = '\x7b' := by
  cases n with
  | ofNat m =>
      show ∀ c ∈ (Nat.repr m).data, ¬ c = '%' ∧ ¬ c = '\x7b'
      intro c hc
      rcases toDigitsCore_mem (m + 1) m [] c hc with hc1 | ⟨k, hk⟩
      · simp at hc1
      · rw [hk]
        exact digitChar_ne_pct_brace k
  | negSucc m =>
      show ∀ c ∈ ("-" ++ Nat.repr (m + 1)).data, ¬ c = '%' ∧ ¬ c = '\x7b'
      intro c hc
      rw [String.data_append] at hc
      rcases List.mem_append.mp hc with hc1 | hc1
      · have hc2 : c = '-' := by simpa using hc1
        rw [hc2]
        exact ⟨by decide, by decide⟩
      · rcases toDigitsCore_mem (m + 2) (m + 1) [] c hc1 with hc3 | ⟨k, hk⟩
        · simp at hc3
        · rw [hk]
          exact digitChar_ne_pct_brace k

theorem pct_not_mem_intRender (n : Int) : '%' ∉ (toString n).data := by
  intro h
  exact (intRender_ne_pct_brace n '%' h).1 rfl

theorem brace_not_mem_intRender (n : Int) : '\x7b' ∉ (toString n).data := by
  intro h
  exact (intRender_ne_pct_brace n '\x7b' h).2 rfl

theorem markersAbsent_of_no_chars (s : List Char) (hp : '%' ∉ s) (hb : '\x7b' ∉ s) :
    containsSub ['%', 's'] s = false ∧ containsSub ['%', 'd'] s = false ∧
    containsSub scoreMarker s = false := by
  refine ⟨containsSub_false_of_head_notMem '%' ['s'] s hp,
    containsSub_false_of_head_notMem '%' ['d'] s hp, ?_⟩
  rw [show scoreMarker = '\x7b' :: ['S', 'C', 'O', 'R', 'E', '\x7d'] from rfl]
  exact containsSub_false_of_head_notMem _ _ s hb

set_option maxRecDepth 400000 in
/-- C2: Each operation always returns a composed triple, unconditionally
(the substitution never fails: supplied value counts match placeholder
counts in every branch); and, under the amended hypotheses that the string
arguments contain no `%` and no opening brace (without which a value could
re-introduce marker text), the returned bodies contain no unresolved `%s`
or `%d` placeholder and no literal score-marker substring. -/
theorem claim2_markers (uid un : String) (ls lr ts tr : Int) :
    (∃ r, get_alert uid un = some r) ∧
    (∃ r, get_notification uid un ls lr ts tr = some r) ∧
    (∃ r, get_reminder uid un = some r) ∧
    ('%' ∉ uid.data ∧ '%' ∉ un.data ∧ '\x7b' ∉ uid.data ∧ '\x7b' ∉ un.data →
      (∀ s t h, get_alert uid un = some (s, t, h) →
      (containsSub ['%', 's'] t = false ∧ containsSub ['%', 'd'] t = false ∧
        containsSub scoreMarker t = false) ∧
      (containsSub ['%', 's'] h = false ∧ containsSub ['%', 'd'] h = false ∧
        containsSub scoreMarker h = false)) ∧
      (∀ s t h, get_notification uid un ls lr ts tr = some (s, t, h) →
      (containsSub ['%', 's'] t = false ∧ containsSub ['%', 'd'] t = false ∧
        containsSub scoreMarker t = false) ∧
      (containsSub ['%', 's'] h = false ∧ containsSub ['%', 'd'] h = false ∧
        containsSub scoreMarker h = false)) ∧
      (∀ s t h, get_reminder uid un = some (s, t, h) →
      (containsSub ['%', 's'] t = false ∧ containsSub ['%', 'd'] t = false ∧
        containsSub scoreMarker t = false) ∧
      (containsSub ['%', 's'] h = false ∧ containsSub ['%', 'd'] h = false ∧
        containsSub scoreMarker h = false))) := by
  refine ⟨⟨_, get_alert_eq uid un⟩, ?_, ⟨_, get_reminder_eq uid un⟩, ?_⟩
  · by_cases hls : ls > 0
    · exact ⟨_, get_notification_pos_eq uid un ls lr ts tr hls⟩
    · exact ⟨_, get_notification_nonpos_eq uid un ls lr ts tr hls⟩
  intro hchars
  obtain ⟨h1, h2, h3, h4⟩ := hchars
  refine ⟨?_, ?_, ?_⟩
  · intro s t h hset
    have he := (get_alert_eq uid un).symm.trans hset
    simp only [Option.some.injEq, Prod.mk.injEq] at he
    obtain ⟨hh1, hh2, hh3⟩ := he
    subst hh2
    subst hh3
    have hpt : '%' ∉ taS0 ++ un.data ++ taS2 ++ uid.data := by
      intro hm
      simp only [List.mem_append, or_assoc] at hm
      rcases hm with hx | hx | hx | hx
      · exact absurd hx (by decide)
      · exact h2 hx
      · exact absurd hx (by decide)
      · exact h1 hx
    have hbt : '\x7b' ∉ taS0 ++ un.data ++ taS2 ++ uid.data := by
      intro hm
      simp only [List.mem_append, or_assoc] at hm
      rcases hm with hx | hx | hx | hx
      · exact absurd hx (by decide)
      · exact h4 hx
      · exact absurd hx (by decide)
      · exact h3 hx
    have hph : '%' ∉ haS0 ++ un.data ++ haS2 ++ uid.data ++ haS4 := by
      intro hm
      simp only [List.mem_append, or_assoc] at hm
      rcases hm with hx | hx | hx | hx | hx
      · exact absurd hx (by decide)
      · exact h2 hx
      · exact absurd hx (by decide)
      · exact h1 hx
      · exact absurd hx (by decide)
    have hbh : '\x7b' ∉ haS0 ++ un.data ++ haS2 ++ uid.data ++ haS4 := by
      intro hm
      simp only [List.mem_append, or_assoc] at hm
      rcases hm with hx | hx | hx | hx | hx
      · exact absurd hx (by decide)
      · exact h4 hx
      · exact absurd hx (by decide)
      · exact h3 hx
      · exact absurd hx (by decide)
    exact ⟨markersAbsent_of_no_chars _ hpt hbt, markersAbsent_of_no_chars _ hph hbh⟩
  · intro s t h hset
    by_cases hls : ls > 0
    · have he := (get_notification_pos_eq uid un ls lr ts tr hls).symm.trans hset
      simp only [Option.some.injEq, Prod.mk.injEq] at he
      obtain ⟨hh1, hh2, hh3⟩ := he
      subst hh2
      subst hh3
      have hpt : '%' ∉ tn1S0 ++ un.data ++ tn1S2 ++ uid.data ++ tn1S4 ++ (toString ts).data ++ tn1S6 ++ (toString tr).data ++ tn1S8 ++ uid.data ++ tn1S10 ++ uid.data := by
        intro hm
        simp only [List.mem_append, or_assoc] at hm
        rcases hm with hx | hx | hx | hx | hx | hx | hx | hx | hx | hx | hx | hx
        · exact absurd hx (by decide)
        · exact h2 hx
        · exact absurd hx (by decide)
        · exact h1 hx
        · exact absurd hx (by decide)
        · exact pct_not_mem_intRender ts hx
        · exact absurd hx (by decide)
        · exact pct_not_mem_intRender tr hx
        · exact absurd hx (by decide)
        · exact h1 hx
        · exact absurd hx (by decide)
        · exact h1 hx
      have hbt : '\x7b' ∉ tn1S0 ++ un.data ++ tn1S2 ++ uid.data ++ tn1S4 ++ (toString ts).data ++ tn1S6 ++ (toString tr).data ++ tn1S8 ++ uid.data ++ tn1S10 ++ uid.data := by
        intro hm
        simp only [List.mem_append, or_assoc] at hm
        rcases hm with hx | hx | hx | hx | hx | hx | hx | hx | hx | hx | hx | hx
        · exact absurd hx (by decide)
        · exact h4 hx
        · exact absurd hx (by decide)
        · exact h3 hx
        · exact absurd hx (by decide)
        · exact brace_not_mem_intRender ts hx
        · exact absurd hx (by decide)
        · exact brace_not_mem_intRender tr hx
        · exact absurd hx (by decide)
        · exact h3 hx
        · exact absurd hx (by decide)
        · exact h3 hx
      have hph : '%' ∉ hn1S0 ++ un.data ++ hn1S2 ++ uid.data ++ hn1S4 ++ uid.data ++ hn1S6 ++ (toString ts).data ++ hn1S8 ++ (toString tr).data ++ hn1S10 ++ uid.data ++ hn1S12 ++ uid.data ++ hn1S14 := by
        intro hm
        simp only [List.mem_append, or_assoc] at hm
        rcases hm with hx | hx | hx | hx | hx | hx | hx | hx | hx | hx | hx | hx | hx | hx | hx
        · exact absurd hx (by decide)
        · exact h2 hx
        · exact absurd hx (by decide)
        · exact h1 hx
        · exact absurd hx (by decide)
        · exact h1 hx
        · exact absurd hx (by decide)
        · exact pct_not_mem_intRender ts hx
        · exact absurd hx (by decide)
        · exact pct_not_mem_intRender tr hx
        · exact absurd hx (by decide)
        · exact h1 hx
        · exact absurd hx (by decide)
        · exact h1 hx
        · exact absurd hx (by decide)
      have hbh : '\x7b' ∉ hn1S0 ++ un.data ++ hn1S2 ++ uid.data ++ hn1S4 ++ uid.data ++ hn1S6 ++ (toString ts).data ++ hn1S8 ++ (toString tr).data ++ hn1S10 ++ uid.data ++ hn1S12 ++ uid.data ++ hn1S14 := by
        intro hm
        simp only [List.mem_append, or_assoc] at hm
        rcases hm with hx | hx | hx | hx | hx | hx | hx | hx | hx | hx | hx | hx | hx | hx | hx
        · exact absurd hx (by decide)
        · exact h4 hx
        · exact absurd hx (by decide)
        · exact h3 hx
        · exact absurd hx (by decide)
        · exact h3 hx
        · exact absurd hx (by decide)
        · exact brace_not_mem_intRender ts hx
        · exact absurd hx (by decide)
        · exact brace_not_mem_intRender tr hx
        · exact absurd hx (by decide)
        · exact h3 hx
        · exact absurd hx (by decide)
        · exact h3 hx
        · exact absurd hx (by decide)
      exact ⟨markersAbsent_of_no_chars _ hpt hbt, markersAbsent_of_no_chars _ hph hbh⟩
    · have he := (get_notification_nonpos_eq uid un ls lr ts tr hls).symm.trans hset
      simp only [Option.some.injEq, Prod.mk.injEq] at he
      obtain ⟨hh1, hh2, hh3⟩ := he
      subst hh2
      subst hh3
      have hpt : '%' ∉ tn0S0 ++ un.data ++ tn0S2 ++ uid.data ++ tn0S4 ++ uid.data := by
        intro hm
        simp only [List.mem_append, or_assoc] at hm
        rcases hm with hx | hx | hx | hx | hx | hx
        · exact absurd hx (by decide)
        · exact h2 hx
        · exact absurd hx (by decide)
        · exact h1 hx
        · exact absurd hx (by decide)
        · exact h1 hx
      have hbt : '\x7b' ∉ tn0S0 ++ un.data ++ tn0S2 ++ uid.data ++ tn0S4 ++ uid.data := by
        intro hm
        simp only [List.mem_append, or_assoc] at hm
        rcases hm with hx | hx | hx | hx | hx | hx
        · exact absurd hx (by decide)
        · exact h4 hx
        · exact absurd hx (by decide)
        · exact h3 hx
        · exact absurd hx (by decide)
        · exact h3 hx
      have hph : '%' ∉ hn0S0 ++ un.data ++ hn0S2 ++ uid.data ++ hn0S4 ++ uid.data ++ hn0S6 ++ uid.data ++ hn0S8 := by
        intro hm
        simp only [List.mem_append, or_assoc] at hm
        rcases hm with hx | hx | hx | hx | hx | hx | hx | hx | hx
        · exact absurd hx (by decide)
        · exact h2 hx
        · exact absurd hx (by decide)
        · exact h1 hx
        · exact absurd hx (by decide)
        · exact h1 hx
        · exact absurd hx (by decide)
        · exact h1 hx
        · exact absurd hx (by decide)
      have hbh : '\x7b' ∉ hn0S0 ++ un.data ++ hn0S2 ++ uid.data ++ hn0S4 ++ uid.data ++ hn0S6 ++ uid.data ++ hn0S8 := by
        intro hm
        simp only [List.mem_append, or_assoc] at hm
        rcases hm with hx | hx | hx | hx | hx | hx | hx | hx | hx
        · exact absurd hx (by decide)
        · exact h4 hx
        · exact absurd hx (by decide)
        · exact h3 hx
        · exact absurd hx (by decide)
        · exact h3 hx
        · exact absurd hx (by decide)
        · exact h3 hx
        · exact absurd hx (by decide)
      exact ⟨markersAbsent_of_no_chars _ hpt hbt, markersAbsent_of_no_chars _ hph hbh⟩
  · intro s t h hset
    have he := (get_reminder_eq uid un).symm.trans hset
    simp only [Option.some.injEq, Prod.mk.injEq] at he
    obtain ⟨hh1, hh2, hh3⟩ := he
    subst hh2
    subst hh3
    have hpt : '%' ∉ trS0 ++ un.data ++ trS2 ++ uid.data ++ trS4 ++ uid.data := by
      intro hm
      simp only [List.mem_append, or_assoc] at hm
      rcases hm with hx | hx | hx | hx | hx | hx
      · exact absurd hx (by decide)
      · exact h2 hx
      · exact absurd hx (by decide)
      · exact h1 hx
      · exact absurd hx (by decide)
      · exact h1 hx
    have hbt : '\x7b' ∉ trS0 ++ un.data ++ trS2 ++ uid.data ++ trS4 ++ uid.data := by
      intro hm
      simp only [List.mem_append, or_assoc] at hm
      rcases hm with hx | hx | hx | hx | hx | hx
      · exact absurd hx (by decide)
      · exact h4 hx
      · exact absurd hx (by decide)
      · exact h3 hx
      · exact absurd hx (by decide)
      · exact h3 hx
    have hph : '%' ∉ hrS0 ++ un.data ++ hrS2 ++ uid.data ++ hrS4 ++ uid.data ++ hrS6 ++ uid.data ++ hrS8 := by
      intro hm
      simp only [List.mem_append, or_assoc] at hm
      rcases hm with hx | hx | hx | hx | hx | hx | hx | hx | hx
      · exact absurd hx (by decide)
      · exact h2 hx
      · exact absurd hx (by decide)
      · exact h1 hx
      · exact absurd hx (by decide)
      · exact h1 hx
      · exact absurd hx (by decide)
      · exact h1 hx
      · exact absurd hx (by decide)
    have hbh : '\x7b' ∉ hrS0 ++ un.data ++ hrS2 ++ uid.data ++ hrS4 ++ uid.data ++ hrS6 ++ uid.data ++ hrS8 := by
      intro hm
      simp only [List.mem_append, or_assoc] at hm
      rcases hm with hx | hx | hx | hx | hx | hx | hx | hx | hx
      · exact absurd hx (by decide)
      · exact h4 hx
      · exact absurd hx (by decide)
      · exact h3 hx
      · exact absurd hx (by decide)
      · exact h3 hx
      · exact absurd hx (by decide)
      · exact h3 hx
      · exact absurd hx (by decide)
    exact ⟨markersAbsent_of_no_chars _ hpt hbt, markersAbsent_of_no_chars _ hph hbh⟩


/-- C2 witness: with `uid = "u1"`, `un = "Jane"` the alert bodies contain no
unresolved placeholder and no score marker. -/
theorem claim2_witness :
    (containsSub ['%', 's'] (taS0 ++ ("Jane" : String).data ++ taS2 ++
        ("u1" : String).data) = false ∧
      containsSub ['%', 'd'] (taS0 ++ ("Jane" : String).data ++ taS2 ++
        ("u1" : String).data) = false ∧
      containsSub scoreMarker (taS0 ++ ("Jane" : String).data ++ taS2 ++
        ("u1" : String).data) = false) ∧
    (containsSub ['%', 's'] (haS0 ++ ("Jane" : String).data ++ haS2 ++
        ("u1" : String).data ++ haS4) = false ∧
      containsSub ['%', 'd'] (haS0 ++ ("Jane" : String).data ++ haS2 ++
        ("u1" : String).data ++ haS4) = false ∧
      containsSub scoreMarker (haS0 ++ ("Jane" : String).data ++ haS2 ++
        ("u1" : String).data ++ haS4) = false) :=
  ((claim2_markers "u1" "Jane" 0 0 0 0).2.2.2
    ⟨by decide, by decide, by decide, by decide⟩).1 _ _ _ (get_alert_eq "u1" "Jane")

/-- C2 counterexample to the unamended claim: a user name equal to the
placeholder text `%s` leaves that marker in the returned alert body. -/
theorem claim2_counterexample :
    ∃ s t h, get_alert "u" "%s" = some (s, t, h) ∧ containsSub ['%', 's'] t = true := by
  refine ⟨_, _, _, get_alert_eq "u" "%s", ?_⟩
  have hd : ("%s" : String).data = ['%', 's'] := rfl
  rw [show taS0 ++ ("%s" : String).data ++ taS2 ++ ("u" : String).data =
      taS0 ++ (("%s" : String).data ++ (taS2 ++ ("u" : String).data))
      from by simp [List.append_assoc]]
  rw [hd]
  exact containsSub_of_mid ['%', 's'] _ _

/-- C1 witness: the spec's example call, `last_score = 5`, `total_score =
100`, `total_rank = 3`, makes both bodies contain the rendered score values
and the score phrase. -/
theorem claim1_witness :
    (containsSub scorePhrase (tn1S0 ++ ("Jane" : String).data ++ tn1S2 ++
        ("u1" : String).data ++ tn1S4 ++ (toString (100 : Int)).data ++ tn1S6 ++
        (toString (3 : Int)).data ++ tn1S8 ++ ("u1" : String).data ++ tn1S10 ++
        ("u1" : String).data) = true ∧
      containsSub (toString (100 : Int)).data (tn1S0 ++ ("Jane" : String).data ++
        tn1S2 ++ ("u1" : String).data ++ tn1S4 ++ (toString (100 : Int)).data ++
        tn1S6 ++ (toString (3 : Int)).data ++ tn1S8 ++ ("u1" : String).data ++
        tn1S10 ++ ("u1" : String).data) = true ∧
      containsSub (toString (3 : Int)).data (tn1S0 ++ ("Jane" : String).data ++
        tn1S2 ++ ("u1" : String).data ++ tn1S4 ++ (toString (100 : Int)).data ++
        tn1S6 ++ (toString (3 : Int)).data ++ tn1S8 ++ ("u1" : String).data ++
        tn1S10 ++ ("u1" : String).data) = true ∧
      containsSub ("u1" : String).data (tn1S0 ++ ("Jane" : String).data ++ tn1S2 ++
        ("u1" : String).data ++ tn1S4 ++ (toString (100 : Int)).data ++ tn1S6 ++
        (toString (3 : Int)).data ++ tn1S8 ++ ("u1" : String).data ++ tn1S10 ++
        ("u1" : String).data) = true) ∧
    (containsSub scorePhrase (hn1S0 ++ ("Jane" : String).data ++ hn1S2 ++
        ("u1" : String).data ++ hn1S4 ++ ("u1" : String).data ++ hn1S6 ++
        (toString (100 : Int)).data ++ hn1S8 ++ (toString (3 : Int)).data ++ hn1S10 ++
        ("u1" : String).data ++ hn1S12 ++ ("u1" : String).data ++ hn1S14) = true ∧
      containsSub (toString (100 : Int)).data (hn1S0 ++ ("Jane" : String).data ++
        hn1S2 ++ ("u1" : String).data ++ hn1S4 ++ ("u1" : String).data ++ hn1S6 ++
        (toString (100 : Int)).data ++ hn1S8 ++ (toString (3 : Int)).data ++ hn1S10 ++
        ("u1" : String).data ++ hn1S12 ++ ("u1" : String).data ++ hn1S14) = true ∧
      containsSub (toString (3 : Int)).data (hn1S0 ++ ("Jane" : String).data ++
        hn1S2 ++ ("u1" : String).data ++ hn1S4 ++ ("u1" : String).data ++ hn1S6 ++
        (toString (100 : Int)).data ++ hn1S8 ++ (toString (3 : Int)).data ++ hn1S10 ++
        ("u1" : String).data ++ hn1S12 ++ ("u1" : String).data ++ hn1S14) = true ∧
      containsSub ("u1" : String).data (hn1S0 ++ ("Jane" : String).data ++ hn1S2 ++
        ("u1" : String).data ++ hn1S4 ++ ("u1" : String).data ++ hn1S6 ++
        (toString (100 : Int)).data ++ hn1S8 ++ (toString (3 : Int)).data ++ hn1S10 ++
        ("u1" : String).data ++ hn1S12 ++ ("u1" : String).data ++ hn1S14) = true) :=
  (claim1_score_branch "u1" "Jane" 5 2 100 3 (by decide) (by decide)).1 (by decide)
    _ _ _ (get_notification_pos_eq "u1" "Jane" 5 2 100 3 (by decide))

set_option maxRecDepth 400000 in
/-- C1 counterexample to the unamended claim: with `last_score = 0` but a
user name equal to the score phrase, the returned text body does contain the
phrase. -/
theorem claim1_counterexample :
    ∃ s t h, get_notification "u" "Your overall score is" 0 0 0 0 = some (s, t, h) ∧
      containsSub scorePhrase t = true := by
  refine ⟨_, _, _,
    get_notification_nonpos_eq "u" "Your overall score is" 0 0 0 0 (by decide), ?_⟩
  rw [show tn0S0 ++ ("Your overall score is" : String).data ++ tn0S2 ++
      ("u" : String).data ++ tn0S4 ++ ("u" : String).data =
      tn0S0 ++ (scorePhrase ++ (tn0S2 ++ ("u" : String).data ++ tn0S4 ++
        ("u" : String).data))
      from by simp [scorePhrase, List.append_assoc]]
  exact containsSub_of_mid scorePhrase _ _


end EpicastEmails
